import Mathlib

/-! terraform-provider-runpod: state merge, field presence and the wait for deletion

A shallow embedding of `internal/provider` (package `provider`):

* the attribute values of the plugin framework (`types.String`, `types.Int64`, ...) are
  the three-state `TfValue` (null, unknown, known);
* the records of `client.go` (`Pod`, `Endpoint`, `NetworkVolume` and the create and update
  inputs) are structures with the fields of the Go structs;
* `updateStateFromPod`, `updateStateFromEndpoint` and the Create / Read / Update methods of
  the three resources are functions of the plan or prior state and of the remote call,
  which is passed in as a function returning `Except String _` (the Go `(value, error)`);
* the Delete methods return the diagnostics and the requests they issue; the timer and
  ticker loop of `PodResource.Delete` runs against a clock in nanoseconds, with the answers
  and durations of the polls and the choices of `select` given from outside;
* `doRequest` and the operations of the client run in a monad that carries the effect of
  the transport (`net/http`), so that the requests handed to it can be recorded; the
  decoders of `encoding/json` are given from outside, and `url.Parse` is modelled on the
  bytes of the URL string, the split of the authority apart;
* `runpodProvider.Configure` is a function of the configuration and the environment, and
  the Read methods of the four data sources are functions of the list the client returns.

Go `int` is 64 bits wide on the targets considered, so the conversions `int(int64)` and
`int64(int)` of the source are the identity; both types are `Int` here.  A `float64` is
carried as its IEEE-754 bit pattern: the code modelled here only copies such values.
-/

set_option autoImplicit false

namespace Provider

/-! ## Framework values -/

/-- Attribute value of the plugin framework: null, unknown, or a known value. -/
inductive TfValue (α : Type) where
  | null
  | unknown
  | known (v : α)
  deriving DecidableEq, Repr

namespace TfValue

variable {α : Type}

/-- The method `IsNull`: true for the null state only. -/
def IsNull : TfValue α → Bool
  | null => true
  | _ => false

/-- The accessors `ValueString`, `ValueInt64`, `ValueBool`, `ValueFloat64`: the known value,
or the zero value `z` of the type when the attribute is null or unknown. -/
def valueOr (z : α) : TfValue α → α
  | known v => v
  | _ => z

/-- Pointer assignment guarded by `!x.IsNull()`: a nil pointer for a null attribute,
otherwise a pointer to the accessor's result (the zero value for an unknown attribute). -/
def toPtr (z : α) : TfValue α → Option α
  | null => none
  | unknown => some z
  | known v => some v

end TfValue

/-- A Go `float64`, as its bit pattern. -/
structure Float64 where
  bits : Nat
  deriving DecidableEq, Repr

/-- The float64 zero value `0.0`. -/
def Float64.zero : Float64 := ⟨0⟩

abbrev TfString := TfValue String
abbrev TfInt64 := TfValue Int
abbrev TfBool := TfValue Bool
abbrev TfFloat64 := TfValue Float64
/-- A `types.List` with string elements: each element is itself a framework value. -/
abbrev TfList := TfValue (List (TfValue String))
/-- A `types.Map` with string elements. -/
abbrev TfMap := TfValue (List (String × TfValue String))

/-- The accessor `ValueString`. -/
def TfValue.ValueString (v : TfString) : String := v.valueOr ""
/-- The accessor `ValueInt64`. -/
def TfValue.ValueInt64 (v : TfInt64) : Int := v.valueOr 0
/-- The accessor `ValueBool`. -/
def TfValue.ValueBool (v : TfBool) : Bool := v.valueOr false
/-- The accessor `ValueFloat64`. -/
def TfValue.ValueFloat64 (v : TfFloat64) : Float64 := v.valueOr Float64.zero

/-- A diagnostic appended to a response. `conversion` stands for the error diagnostic the
framework raises when `ElementsAs` cannot convert a collection. -/
inductive Diagnostic where
  | error (summary detail : String)
  | warning (summary detail : String)
  | conversion
  deriving DecidableEq, Repr

/-- The severity test behind `Diagnostics.HasError`. -/
def Diagnostic.isError : Diagnostic → Bool
  | .warning _ _ => false
  | _ => true

/-- The method `Diagnostics.HasError`. -/
def HasError (ds : List Diagnostic) : Bool := ds.any Diagnostic.isError

/-- All elements known, as plain strings; `none` when an element is null or unknown. -/
def knownStrings : List (TfValue String) → Option (List String)
  | [] => some []
  | .known s :: rest => (knownStrings rest).map (s :: ·)
  | _ :: _ => none

/-- All map values known, as plain pairs; `none` when a value is null or unknown. -/
def knownPairs : List (String × TfValue String) → Option (List (String × String))
  | [] => some []
  | (k, .known s) :: rest => (knownPairs rest).map ((k, s) :: ·)
  | _ :: _ => none

/-- The statement `if !l.IsNull() { diags.Append(l.ElementsAs(ctx, &target, false)...) }`
for a `[]string` target: the diagnostics appended and the target afterwards.  A null list
leaves the target nil; an unknown list, or one with a null or unknown element, raises an
error diagnostic and leaves the target nil. -/
def listElements : TfList → List Diagnostic × List String
  | .null => ([], [])
  | .unknown => ([.conversion], [])
  | .known xs =>
    match knownStrings xs with
    | some ss => ([], ss)
    | none => ([.conversion], [])

/-- The same statement for a `map[string]string` target. -/
def mapElements : TfMap → List Diagnostic × List (String × String)
  | .null => ([], [])
  | .unknown => ([.conversion], [])
  | .known xs =>
    match knownPairs xs with
    | some ss => ([], ss)
    | none => ([.conversion], [])

/-! ## Records of client.go -/

/-- The struct `Pod` (the untyped `machine`, `gpu`, `networkVolume` objects are left out:
nothing in the package reads them). -/
structure Pod where
  ID : String := ""
  Name : String := ""
  ImageName : String := ""
  ComputeType : String := ""
  CloudType : String := ""
  GPUCount : Int := 0
  VCPUCount : Int := 0
  MemoryInGb : Float64 := Float64.zero
  GPUTypeIds : List String := []
  CPUFlavorIds : List String := []
  DataCenterIds : List String := []
  ContainerDiskInGb : Int := 0
  VolumeInGb : Int := 0
  VolumeMountPath : String := ""
  Ports : List String := []
  Env : List (String × String) := []
  DockerEntrypoint : List String := []
  DockerStartCmd : List String := []
  TemplateId : String := ""
  NetworkVolumeId : String := ""
  Interruptible : Bool := false
  Locked : Bool := false
  MinVCPUPerGPU : Int := 0
  MinRAMPerGPU : Int := 0
  MinDownloadMbps : Float64 := Float64.zero
  MinUploadMbps : Float64 := Float64.zero
  MinDiskBandwidthMBps : Float64 := Float64.zero
  SupportPublicIp : Option Bool := none
  GlobalNetworking : Bool := false
  AllowedCudaVersions : List String := []
  CountryCodes : List String := []
  GPUTypePriority : String := ""
  CPUFlavorPriority : String := ""
  DataCenterPriority : String := ""
  ContainerRegistryAuthId : String := ""
  DesiredStatus : String := ""
  PublicIp : String := ""
  PortMappings : List (String × Int) := []
  MachineId : String := ""
  CostPerHr : Float64 := Float64.zero
  AdjustedCostPerHr : Float64 := Float64.zero
  LastStartedAt : String := ""
  LastStatusChange : String := ""
  deriving DecidableEq, Repr

/-- The struct `Endpoint` (the untyped `template` object is left out: nothing in the
package reads it). -/
structure Endpoint where
  ID : String := ""
  Name : String := ""
  TemplateId : String := ""
  ComputeType : String := ""
  GPUCount : Int := 0
  VCPUCount : Int := 0
  GPUTypeIds : List String := []
  CPUFlavorIds : List String := []
  DataCenterIds : List String := []
  NetworkVolumeId : String := ""
  WorkersMin : Int := 0
  WorkersMax : Int := 0
  IdleTimeout : Int := 0
  ExecutionTimeoutMs : Int := 0
  ScalerType : String := ""
  ScalerValue : Int := 0
  AllowedCudaVersions : List String := []
  Env : List (String × String) := []
  Flashboot : Bool := false
  CreatedAt : String := ""
  UserId : String := ""
  Version : Int := 0
  deriving DecidableEq, Repr

/-- The struct `NetworkVolume`. -/
structure NetworkVolume where
  ID : String := ""
  Name : String := ""
  Size : Int := 0
  DataCenterId : String := ""
  deriving DecidableEq, Repr

/-- The struct `PodCreateInput`; a Go pointer field is an `Option`, nil being `none`.  A nil
slice or map and an empty one are both the empty list: `omitempty` treats them alike. -/
structure PodCreateInput where
  Name : String := ""
  ImageName : String := ""
  ComputeType : String := ""
  CloudType : String := ""
  GPUCount : Option Int := none
  VCPUCount : Option Int := none
  GPUTypeIds : List String := []
  CPUFlavorIds : List String := []
  DataCenterIds : List String := []
  ContainerDiskInGb : Option Int := none
  VolumeInGb : Option Int := none
  VolumeMountPath : String := ""
  Ports : List String := []
  Env : List (String × String) := []
  DockerEntrypoint : List String := []
  DockerStartCmd : List String := []
  TemplateId : String := ""
  NetworkVolumeId : String := ""
  Interruptible : Option Bool := none
  Locked : Option Bool := none
  MinVCPUPerGPU : Option Int := none
  MinRAMPerGPU : Option Int := none
  MinDownloadMbps : Option Float64 := none
  MinUploadMbps : Option Float64 := none
  MinDiskBandwidthMBps : Option Float64 := none
  SupportPublicIp : Option Bool := none
  GlobalNetworking : Option Bool := none
  AllowedCudaVersions : List String := []
  CountryCodes : List String := []
  GPUTypePriority : String := ""
  CPUFlavorPriority : String := ""
  DataCenterPriority : String := ""
  ContainerRegistryAuthId : String := ""
  deriving DecidableEq, Repr

/-- The struct `PodUpdateInput`. -/
structure PodUpdateInput where
  Name : String := ""
  ImageName : String := ""
  ContainerDiskInGb : Option Int := none
  VolumeInGb : Option Int := none
  VolumeMountPath : String := ""
  Ports : List String := []
  Env : List (String × String) := []
  DockerEntrypoint : List String := []
  DockerStartCmd : List String := []
  Locked : Option Bool := none
  GlobalNetworking : Option Bool := none
  ContainerRegistryAuthId : String := ""
  deriving DecidableEq, Repr

/-- The struct `EndpointCreateInput`. -/
structure EndpointCreateInput where
  Name : String := ""
  TemplateId : String := ""
  ComputeType : String := ""
  GPUCount : Option Int := none
  VCPUCount : Option Int := none
  GPUTypeIds : List String := []
  CPUFlavorIds : List String := []
  DataCenterIds : List String := []
  NetworkVolumeId : String := ""
  WorkersMin : Option Int := none
  WorkersMax : Option Int := none
  IdleTimeout : Option Int := none
  ExecutionTimeoutMs : Option Int := none
  ScalerType : String := ""
  ScalerValue : Option Int := none
  AllowedCudaVersions : List String := []
  Flashboot : Option Bool := none
  deriving DecidableEq, Repr

/-- The struct `EndpointUpdateInput`. -/
structure EndpointUpdateInput where
  Name : String := ""
  TemplateId : String := ""
  GPUCount : Option Int := none
  VCPUCount : Option Int := none
  GPUTypeIds : List String := []
  CPUFlavorIds : List String := []
  DataCenterIds : List String := []
  NetworkVolumeId : String := ""
  WorkersMin : Option Int := none
  WorkersMax : Option Int := none
  IdleTimeout : Option Int := none
  ExecutionTimeoutMs : Option Int := none
  ScalerType : String := ""
  ScalerValue : Option Int := none
  AllowedCudaVersions : List String := []
  Flashboot : Option Bool := none
  deriving DecidableEq, Repr

/-- The struct `NetworkVolumeCreateInput`. -/
structure NetworkVolumeCreateInput where
  Name : String := ""
  Size : Int := 0
  DataCenterId : String := ""
  deriving DecidableEq, Repr

/-- The struct `NetworkVolumeUpdateInput`. -/
structure NetworkVolumeUpdateInput where
  Name : String := ""
  Size : Option Int := none
  deriving DecidableEq, Repr

/-! ## JSON bodies

`doRequest` sends `json.Marshal(body)`; the struct tags of the input types decide which
keys appear.  A body is the ordered list of its members, in struct field order. -/

/-- The JSON values that occur in the bodies of this package. -/
inductive JsonValue where
  | null
  | bool (b : Bool)
  | int (n : Int)
  | float (f : Float64)
  | str (s : String)
  | strList (xs : List String)
  | strMap (kvs : List (String × String))
  deriving DecidableEq, Repr

/-- A JSON object: its members in order. -/
abbrev JsonObject := List (String × JsonValue)

/-- The keys of an object. -/
def JsonObject.keys (o : JsonObject) : List String := o.map Prod.fst

/-- A `string` field tagged `omitempty`: left out when empty. -/
def omitemptyString (key : String) (v : String) : JsonObject :=
  if v = "" then [] else [(key, .str v)]

/-- A `*int` field tagged `omitempty`: left out when nil. -/
def omitemptyIntPtr (key : String) : Option Int → JsonObject
  | none => []
  | some n => [(key, .int n)]

/-- A `*bool` field tagged `omitempty`: left out when nil. -/
def omitemptyBoolPtr (key : String) : Option Bool → JsonObject
  | none => []
  | some b => [(key, .bool b)]

/-- A `*float64` field tagged `omitempty`: left out when nil. -/
def omitemptyFloatPtr (key : String) : Option Float64 → JsonObject
  | none => []
  | some f => [(key, .float f)]

/-- A `[]string` field tagged `omitempty`: left out when its length is zero. -/
def omitemptyList (key : String) (v : List String) : JsonObject :=
  if v = [] then [] else [(key, .strList v)]

/-- A `map[string]string` field tagged `omitempty`: left out when its length is zero. -/
def omitemptyMap (key : String) (v : List (String × String)) : JsonObject :=
  if v = [] then [] else [(key, .strMap v)]

/-- A `string` field without `omitempty`: always present. -/
def plainString (key : String) (v : String) : JsonObject := [(key, .str v)]

/-- An `int` field without `omitempty`: always present. -/
def plainInt (key : String) (v : Int) : JsonObject := [(key, .int v)]

/-- The body `json.Marshal` produces for a `PodCreateInput`. -/
def PodCreateInput.Marshal (i : PodCreateInput) : JsonObject :=
  omitemptyString "name" i.Name ++
  omitemptyString "imageName" i.ImageName ++
  omitemptyString "computeType" i.ComputeType ++
  omitemptyString "cloudType" i.CloudType ++
  omitemptyIntPtr "gpuCount" i.GPUCount ++
  omitemptyIntPtr "vcpuCount" i.VCPUCount ++
  omitemptyList "gpuTypeIds" i.GPUTypeIds ++
  omitemptyList "cpuFlavorIds" i.CPUFlavorIds ++
  omitemptyList "dataCenterIds" i.DataCenterIds ++
  omitemptyIntPtr "containerDiskInGb" i.ContainerDiskInGb ++
  omitemptyIntPtr "volumeInGb" i.VolumeInGb ++
  omitemptyString "volumeMountPath" i.VolumeMountPath ++
  omitemptyList "ports" i.Ports ++
  omitemptyMap "env" i.Env ++
  omitemptyList "dockerEntrypoint" i.DockerEntrypoint ++
  omitemptyList "dockerStartCmd" i.DockerStartCmd ++
  omitemptyString "templateId" i.TemplateId ++
  omitemptyString "networkVolumeId" i.NetworkVolumeId ++
  omitemptyBoolPtr "interruptible" i.Interruptible ++
  omitemptyBoolPtr "locked" i.Locked ++
  omitemptyIntPtr "minVCPUPerGPU" i.MinVCPUPerGPU ++
  omitemptyIntPtr "minRAMPerGPU" i.MinRAMPerGPU ++
  omitemptyFloatPtr "minDownloadMbps" i.MinDownloadMbps ++
  omitemptyFloatPtr "minUploadMbps" i.MinUploadMbps ++
  omitemptyFloatPtr "minDiskBandwidthMBps" i.MinDiskBandwidthMBps ++
  omitemptyBoolPtr "supportPublicIp" i.SupportPublicIp ++
  omitemptyBoolPtr "globalNetworking" i.GlobalNetworking ++
  omitemptyList "allowedCudaVersions" i.AllowedCudaVersions ++
  omitemptyList "countryCodes" i.CountryCodes ++
  omitemptyString "gpuTypePriority" i.GPUTypePriority ++
  omitemptyString "cpuFlavorPriority" i.CPUFlavorPriority ++
  omitemptyString "dataCenterPriority" i.DataCenterPriority ++
  omitemptyString "containerRegistryAuthId" i.ContainerRegistryAuthId

/-- The body `json.Marshal` produces for a `PodUpdateInput`. -/
def PodUpdateInput.Marshal (i : PodUpdateInput) : JsonObject :=
  omitemptyString "name" i.Name ++
  omitemptyString "imageName" i.ImageName ++
  omitemptyIntPtr "containerDiskInGb" i.ContainerDiskInGb ++
  omitemptyIntPtr "volumeInGb" i.VolumeInGb ++
  omitemptyString "volumeMountPath" i.VolumeMountPath ++
  omitemptyList "ports" i.Ports ++
  omitemptyMap "env" i.Env ++
  omitemptyList "dockerEntrypoint" i.DockerEntrypoint ++
  omitemptyList "dockerStartCmd" i.DockerStartCmd ++
  omitemptyBoolPtr "locked" i.Locked ++
  omitemptyBoolPtr "globalNetworking" i.GlobalNetworking ++
  omitemptyString "containerRegistryAuthId" i.ContainerRegistryAuthId

/-- The body `json.Marshal` produces for an `EndpointCreateInput`; `templateId` carries no
`omitempty`. -/
def EndpointCreateInput.Marshal (i : EndpointCreateInput) : JsonObject :=
  omitemptyString "name" i.Name ++
  plainString "templateId" i.TemplateId ++
  omitemptyString "computeType" i.ComputeType ++
  omitemptyIntPtr "gpuCount" i.GPUCount ++
  omitemptyIntPtr "vcpuCount" i.VCPUCount ++
  omitemptyList "gpuTypeIds" i.GPUTypeIds ++
  omitemptyList "cpuFlavorIds" i.CPUFlavorIds ++
  omitemptyList "dataCenterIds" i.DataCenterIds ++
  omitemptyString "networkVolumeId" i.NetworkVolumeId ++
  omitemptyIntPtr "workersMin" i.WorkersMin ++
  omitemptyIntPtr "workersMax" i.WorkersMax ++
  omitemptyIntPtr "idleTimeout" i.IdleTimeout ++
  omitemptyIntPtr "executionTimeoutMs" i.ExecutionTimeoutMs ++
  omitemptyString "scalerType" i.ScalerType ++
  omitemptyIntPtr "scalerValue" i.ScalerValue ++
  omitemptyList "allowedCudaVersions" i.AllowedCudaVersions ++
  omitemptyBoolPtr "flashboot" i.Flashboot

/-- The body `json.Marshal` produces for an `EndpointUpdateInput`. -/
def EndpointUpdateInput.Marshal (i : EndpointUpdateInput) : JsonObject :=
  omitemptyString "name" i.Name ++
  omitemptyString "templateId" i.TemplateId ++
  omitemptyIntPtr "gpuCount" i.GPUCount ++
  omitemptyIntPtr "vcpuCount" i.VCPUCount ++
  omitemptyList "gpuTypeIds" i.GPUTypeIds ++
  omitemptyList "cpuFlavorIds" i.CPUFlavorIds ++
  omitemptyList "dataCenterIds" i.DataCenterIds ++
  omitemptyString "networkVolumeId" i.NetworkVolumeId ++
  omitemptyIntPtr "workersMin" i.WorkersMin ++
  omitemptyIntPtr "workersMax" i.WorkersMax ++
  omitemptyIntPtr "idleTimeout" i.IdleTimeout ++
  omitemptyIntPtr "executionTimeoutMs" i.ExecutionTimeoutMs ++
  omitemptyString "scalerType" i.ScalerType ++
  omitemptyIntPtr "scalerValue" i.ScalerValue ++
  omitemptyList "allowedCudaVersions" i.AllowedCudaVersions ++
  omitemptyBoolPtr "flashboot" i.Flashboot

/-- The body `json.Marshal` produces for a `NetworkVolumeCreateInput`. -/
def NetworkVolumeCreateInput.Marshal (i : NetworkVolumeCreateInput) : JsonObject :=
  plainString "name" i.Name ++ plainInt "size" i.Size ++ plainString "dataCenterId" i.DataCenterId

/-- The body `json.Marshal` produces for a `NetworkVolumeUpdateInput`. -/
def NetworkVolumeUpdateInput.Marshal (i : NetworkVolumeUpdateInput) : JsonObject :=
  omitemptyString "name" i.Name ++ omitemptyIntPtr "size" i.Size

/-! ### The text of a body

The bytes `json.Marshal` writes for an object of this package: members in struct field
order, separated by commas, no white space; integers in decimal; the keys of a map in
increasing byte order.  The text is given for bodies whose strings consist of characters
that are written unescaped (printable ASCII other than the double quote, the backslash and
the characters `<`, `>`, `&`) and that hold no float; `none` otherwise. -/

/-- A character written as it is inside a JSON string. -/
def plainChar (c : Char) : Bool :=
  decide (32 ≤ c.toNat) && decide (c.toNat < 127) && !(c.toNat == 34) && !(c.toNat == 92) &&
    !(c.toNat == 60) && !(c.toNat == 62) && !(c.toNat == 38)

/-- The double quote. -/
def quoteMark : String := String.singleton (Char.ofNat 34)

/-- The text of a string made of plain characters. -/
def renderString (s : String) : Option String :=
  if s.data.all plainChar then some (quoteMark ++ s ++ quoteMark) else none

/-- The texts of the elements of a `[]string`. -/
def renderStrings : List String → Option (List String)
  | [] => some []
  | s :: rest =>
    match renderString s, renderStrings rest with
    | some t, some ts => some (t :: ts)
    | _, _ => none

/-- Byte order on keys, on the characters of the two strings. -/
def charsLe : List Char → List Char → Bool
  | [], _ => true
  | _ :: _, [] => false
  | a :: as, b :: bs => decide (a.toNat < b.toNat) || (a.toNat == b.toNat && charsLe as bs)

/-- Insertion of a map entry by key order. -/
def insertEntry (e : String × String) : List (String × String) → List (String × String)
  | [] => [e]
  | x :: rest => if charsLe e.1.data x.1.data then e :: x :: rest else x :: insertEntry e rest

/-- The entries of a map in increasing key order. -/
def sortEntries : List (String × String) → List (String × String)
  | [] => []
  | e :: rest => insertEntry e (sortEntries rest)

/-- The texts `"key":"value"` of the entries of a `map[string]string`. -/
def renderEntries : List (String × String) → Option (List String)
  | [] => some []
  | e :: rest =>
    match renderString e.1, renderString e.2, renderEntries rest with
    | some k, some v, some ts => some ((k ++ ":" ++ v) :: ts)
    | _, _, _ => none

/-- The text of a value. -/
def renderValue : JsonValue → Option String
  | .null => some "null"
  | .bool true => some "true"
  | .bool false => some "false"
  | .int n => some (toString n)
  | .float _ => none
  | .str s => renderString s
  | .strList xs => (renderStrings xs).map fun ts => "[" ++ ",".intercalate ts ++ "]"
  | .strMap kvs =>
    (renderEntries (sortEntries kvs)).map fun ts => "\x7b" ++ ",".intercalate ts ++ "\x7d"

/-- The texts `"key":value` of the members of an object. -/
def renderMembers : JsonObject → Option (List String)
  | [] => some []
  | m :: rest =>
    match renderString m.1, renderValue m.2, renderMembers rest with
    | some k, some v, some ts => some ((k ++ ":" ++ v) :: ts)
    | _, _, _ => none

/-- The text of an object. -/
def renderObject (o : JsonObject) : Option String :=
  (renderMembers o).map fun ts => "\x7b" ++ ",".intercalate ts ++ "\x7d"

/-! ### Decoding a response body

`json.NewDecoder(resp.Body).Decode(&endpoint)` starts from the zero-valued struct and goes
through the members of the response object in order: a member whose key names no field is
skipped, a JSON null leaves the field as it is, a value of the field's JSON type is stored,
and a value of another type makes the decode fail.  A key names a field when it equals the
name in the tag of the field under Unicode simple case folding (`bytes.EqualFold`); the
names of one struct are told apart by their folded forms, so that the preference
`encoding/json` gives to an exact match never decides between two fields. -/

/-- The representative of a character under simple case folding, among the characters that
fold to an ASCII letter: the letter in lower case.  Beside the two cases of a letter only
the Kelvin sign (U+212A) folds to `k` and the long s (U+017F) to `s`. -/
def foldChar (c : Char) : Char :=
  if c.isUpper then c.toLower
  else if c.toNat = 0x212A then 'k'
  else if c.toNat = 0x17F then 's'
  else c

/-- A key with every character replaced by its representative: two keys of which one is
made of ASCII letters are equal under `bytes.EqualFold` exactly when these forms are
equal. -/
def foldKey (key : String) : String := ⟨key.data.map foldChar⟩

/-- A JSON value decoded into a `string` field. -/
def JsonValue.asString : JsonValue → Option String
  | .str s => some s
  | _ => none

/-- A JSON value decoded into an `int` field: an integer literal that fits 64 bits. -/
def JsonValue.asInt : JsonValue → Option Int
  | .int n => if -9223372036854775808 ≤ n ∧ n ≤ 9223372036854775807 then some n else none
  | _ => none

/-- A JSON value decoded into a `bool` field. -/
def JsonValue.asBool : JsonValue → Option Bool
  | .bool b => some b
  | _ => none

/-- A JSON value decoded into a `[]string` field. -/
def JsonValue.asStringList : JsonValue → Option (List String)
  | .strList xs => some xs
  | _ => none

/-- A JSON value decoded into a `map[string]string` field. -/
def JsonValue.asStringMap : JsonValue → Option (List (String × String))
  | .strMap kvs => some kvs
  | _ => none

/-- The assignment `m[key] = value` on a map held as the list of its entries. -/
def mapSet (m : List (String × String)) (key value : String) : List (String × String) :=
  if m.any (fun entry => entry.1 = key) then
    m.map fun entry => if entry.1 = key then (key, value) else entry
  else m ++ [(key, value)]

/-- A JSON object decoded into a map field: the decoder keeps the map the field holds and
assigns the members of the object to it in order. -/
def mapStore (m kvs : List (String × String)) : List (String × String) :=
  kvs.foldl (fun acc kv => mapSet acc kv.1 kv.2) m

/-- One member of a response object decoded into an `Endpoint`, by the struct tags of the
type.  The field `Template`, a `map[string]interface{}` that nothing in the package reads,
is not kept: its member must be an object. -/
def Endpoint.decodeMember (e : Endpoint) (m : String × JsonValue) : Option Endpoint :=
  if m.2 = .null then some e
  else if foldKey m.1 = foldKey "id" then m.2.asString.map fun v => { e with ID := v }
  else if foldKey m.1 = foldKey "name" then m.2.asString.map fun v => { e with Name := v }
  else if foldKey m.1 = foldKey "templateId" then
    m.2.asString.map fun v => { e with TemplateId := v }
  else if foldKey m.1 = foldKey "computeType" then
    m.2.asString.map fun v => { e with ComputeType := v }
  else if foldKey m.1 = foldKey "gpuCount" then m.2.asInt.map fun v => { e with GPUCount := v }
  else if foldKey m.1 = foldKey "vcpuCount" then m.2.asInt.map fun v => { e with VCPUCount := v }
  else if foldKey m.1 = foldKey "gpuTypeIds" then
    m.2.asStringList.map fun v => { e with GPUTypeIds := v }
  else if foldKey m.1 = foldKey "cpuFlavorIds" then
    m.2.asStringList.map fun v => { e with CPUFlavorIds := v }
  else if foldKey m.1 = foldKey "dataCenterIds" then
    m.2.asStringList.map fun v => { e with DataCenterIds := v }
  else if foldKey m.1 = foldKey "networkVolumeId" then
    m.2.asString.map fun v => { e with NetworkVolumeId := v }
  else if foldKey m.1 = foldKey "workersMin" then m.2.asInt.map fun v => { e with WorkersMin := v }
  else if foldKey m.1 = foldKey "workersMax" then m.2.asInt.map fun v => { e with WorkersMax := v }
  else if foldKey m.1 = foldKey "idleTimeout" then
    m.2.asInt.map fun v => { e with IdleTimeout := v }
  else if foldKey m.1 = foldKey "executionTimeoutMs" then
    m.2.asInt.map fun v => { e with ExecutionTimeoutMs := v }
  else if foldKey m.1 = foldKey "scalerType" then
    m.2.asString.map fun v => { e with ScalerType := v }
  else if foldKey m.1 = foldKey "scalerValue" then
    m.2.asInt.map fun v => { e with ScalerValue := v }
  else if foldKey m.1 = foldKey "allowedCudaVersions" then
    m.2.asStringList.map fun v => { e with AllowedCudaVersions := v }
  else if foldKey m.1 = foldKey "env" then
    m.2.asStringMap.map fun v => { e with Env := mapStore e.Env v }
  else if foldKey m.1 = foldKey "flashboot" then m.2.asBool.map fun v => { e with Flashboot := v }
  else if foldKey m.1 = foldKey "createdAt" then m.2.asString.map fun v => { e with CreatedAt := v }
  else if foldKey m.1 = foldKey "userId" then m.2.asString.map fun v => { e with UserId := v }
  else if foldKey m.1 = foldKey "version" then m.2.asInt.map fun v => { e with Version := v }
  else if foldKey m.1 = foldKey "template" then m.2.asStringMap.map fun _ => e
  else some e

/-- The members of a response object decoded one after the other into `e`. -/
def Endpoint.decodeInto (e : Endpoint) : JsonObject → Option Endpoint
  | [] => some e
  | m :: rest =>
    match e.decodeMember m with
    | some e1 => Endpoint.decodeInto e1 rest
    | none => none

/-- Decoding a response object into a fresh `Endpoint` (`var endpoint Endpoint`). -/
def decodeEndpoint (body : JsonObject) : Option Endpoint := Endpoint.decodeInto {} body

/-! ## Responses of the resource methods -/

/-- What a Create, Read or Update method leaves in its response: the diagnostics it
appended, and the model passed to `resp.State.Set` if that statement was reached (`none`
when the method returned before it, so that no state was written). -/
structure Response (σ : Type) where
  Diagnostics : List Diagnostic := []
  State : Option σ := none
  deriving DecidableEq, Repr

/-! ## pod_resource.go -/

/-- The struct `PodResourceModel`. -/
structure PodResourceModel where
  ID : TfString := .null
  Name : TfString := .null
  ImageName : TfString := .null
  ComputeType : TfString := .null
  CloudType : TfString := .null
  GPUCount : TfInt64 := .null
  VCPUCount : TfInt64 := .null
  GPUTypeIds : TfList := .null
  CPUFlavorIds : TfList := .null
  DataCenterIds : TfList := .null
  ContainerDiskInGb : TfInt64 := .null
  VolumeInGb : TfInt64 := .null
  VolumeMountPath : TfString := .null
  Ports : TfList := .null
  Env : TfMap := .null
  DockerEntrypoint : TfList := .null
  DockerStartCmd : TfList := .null
  TemplateId : TfString := .null
  NetworkVolumeId : TfString := .null
  Interruptible : TfBool := .null
  Locked : TfBool := .null
  MinVCPUPerGPU : TfInt64 := .null
  MinRAMPerGPU : TfInt64 := .null
  MinDownloadMbps : TfFloat64 := .null
  MinUploadMbps : TfFloat64 := .null
  MinDiskBandwidthMBps : TfFloat64 := .null
  SupportPublicIp : TfBool := .null
  GlobalNetworking : TfBool := .null
  AllowedCudaVersions : TfList := .null
  CountryCodes : TfList := .null
  GPUTypePriority : TfString := .null
  CPUFlavorPriority : TfString := .null
  DataCenterPriority : TfString := .null
  ContainerRegistryAuthId : TfString := .null
  DesiredStatus : TfString := .null
  PublicIp : TfString := .null
  MachineId : TfString := .null
  ActualDataCenter : TfString := .null
  CostPerHr : TfFloat64 := .null
  AdjustedCostPerHr : TfFloat64 := .null
  MemoryInGb : TfFloat64 := .null
  LastStartedAt : TfString := .null
  deriving DecidableEq, Repr

/-- The method `updateStateFromPod`: the model after the assignments of the Go body.  Each
assignment writes one field, so the sequence is given field by field; a guarded
assignment keeps the field when its guard fails. -/
def updateStateFromPod (data : PodResourceModel) (pod : Pod) : PodResourceModel :=
  { data with
    ID := .known pod.ID
    Name := .known pod.Name
    ImageName := if pod.ImageName ≠ "" then .known pod.ImageName else data.ImageName
    DesiredStatus := .known pod.DesiredStatus
    PublicIp := .known pod.PublicIp
    MachineId := .known pod.MachineId
    ActualDataCenter := .known ""
    CostPerHr := .known pod.CostPerHr
    AdjustedCostPerHr := .known pod.AdjustedCostPerHr
    MemoryInGb := .known pod.MemoryInGb
    LastStartedAt := .known pod.LastStartedAt
    VolumeInGb := if pod.VolumeInGb > 0 then .known pod.VolumeInGb else data.VolumeInGb
    ContainerDiskInGb :=
      if pod.ContainerDiskInGb > 0 then .known pod.ContainerDiskInGb else data.ContainerDiskInGb
    VolumeMountPath :=
      if pod.VolumeMountPath ≠ "" then .known pod.VolumeMountPath else data.VolumeMountPath }

/-- The input `PodResource.Create` builds from the plan, with the diagnostics raised while
building it (lines 343-445 of pod_resource.go), one for each collection that cannot be
converted.  `Diagnostics.Append` drops a diagnostic equal to one it already holds, so the
response holds at most as many as this list and has an error exactly when this list has
one; the text of a conversion diagnostic, on which that equality turns, is not modelled. -/
def PodResource.createInput (data : PodResourceModel) : List Diagnostic × PodCreateInput :=
  let gpuTypeIds := listElements data.GPUTypeIds
  let cpuFlavorIds := listElements data.CPUFlavorIds
  let dataCenterIds := listElements data.DataCenterIds
  let ports := listElements data.Ports
  let dockerEntrypoint := listElements data.DockerEntrypoint
  let dockerStartCmd := listElements data.DockerStartCmd
  let allowedCudaVersions := listElements data.AllowedCudaVersions
  let countryCodes := listElements data.CountryCodes
  let env := mapElements data.Env
  (gpuTypeIds.1 ++ cpuFlavorIds.1 ++ dataCenterIds.1 ++ ports.1 ++ dockerEntrypoint.1 ++
      dockerStartCmd.1 ++ allowedCudaVersions.1 ++ countryCodes.1 ++ env.1,
   { Name := data.Name.ValueString
     ImageName := data.ImageName.ValueString
     ComputeType := data.ComputeType.ValueString
     CloudType := data.CloudType.ValueString
     VolumeMountPath := data.VolumeMountPath.ValueString
     TemplateId := data.TemplateId.ValueString
     NetworkVolumeId := data.NetworkVolumeId.ValueString
     GPUTypePriority := data.GPUTypePriority.ValueString
     CPUFlavorPriority := data.CPUFlavorPriority.ValueString
     DataCenterPriority := data.DataCenterPriority.ValueString
     ContainerRegistryAuthId := data.ContainerRegistryAuthId.ValueString
     GPUCount := data.GPUCount.toPtr 0
     VCPUCount := data.VCPUCount.toPtr 0
     ContainerDiskInGb := data.ContainerDiskInGb.toPtr 0
     VolumeInGb := data.VolumeInGb.toPtr 0
     MinVCPUPerGPU := data.MinVCPUPerGPU.toPtr 0
     MinRAMPerGPU := data.MinRAMPerGPU.toPtr 0
     Interruptible := data.Interruptible.toPtr false
     Locked := data.Locked.toPtr false
     SupportPublicIp := data.SupportPublicIp.toPtr false
     GlobalNetworking := data.GlobalNetworking.toPtr false
     MinDownloadMbps := data.MinDownloadMbps.toPtr Float64.zero
     MinUploadMbps := data.MinUploadMbps.toPtr Float64.zero
     MinDiskBandwidthMBps := data.MinDiskBandwidthMBps.toPtr Float64.zero
     GPUTypeIds := gpuTypeIds.2
     CPUFlavorIds := cpuFlavorIds.2
     DataCenterIds := dataCenterIds.2
     Ports := ports.2
     DockerEntrypoint := dockerEntrypoint.2
     DockerStartCmd := dockerStartCmd.2
     AllowedCudaVersions := allowedCudaVersions.2
     CountryCodes := countryCodes.2
     Env := env.2 })

/-- The method `PodResource.Create`, given the plan and the client call `CreatePod`. -/
def PodResource.Create (CreatePod : PodCreateInput → Except String Pod)
    (plan : PodResourceModel) : Response PodResourceModel :=
  let built := PodResource.createInput plan
  if HasError built.1 then { Diagnostics := built.1 }
  else
    match CreatePod built.2 with
    | .error err =>
      { Diagnostics :=
          built.1 ++ [.error "Client Error" ("Unable to create pod, got error: " ++ err)] }
    | .ok pod => { Diagnostics := built.1, State := some (updateStateFromPod plan pod) }

/-- The method `PodResource.Read`, given the prior state and the client call `GetPod`. -/
def PodResource.Read (GetPod : String → Except String Pod)
    (state : PodResourceModel) : Response PodResourceModel :=
  match GetPod state.ID.ValueString with
  | .error err =>
    { Diagnostics := [.error "Client Error" ("Unable to read pod, got error: " ++ err)] }
  | .ok pod => { State := some (updateStateFromPod state pod) }

/-- The input `PodResource.Update` builds from the plan, with the diagnostics raised
while building it (lines 498-540 of pod_resource.go), as for
`PodResource.createInput`. -/
def PodResource.updateInput (data : PodResourceModel) : List Diagnostic × PodUpdateInput :=
  let ports := listElements data.Ports
  let dockerEntrypoint := listElements data.DockerEntrypoint
  let dockerStartCmd := listElements data.DockerStartCmd
  let env := mapElements data.Env
  (ports.1 ++ dockerEntrypoint.1 ++ dockerStartCmd.1 ++ env.1,
   { Name := data.Name.ValueString
     ImageName := data.ImageName.ValueString
     VolumeMountPath := data.VolumeMountPath.ValueString
     ContainerRegistryAuthId := data.ContainerRegistryAuthId.ValueString
     ContainerDiskInGb := data.ContainerDiskInGb.toPtr 0
     VolumeInGb := data.VolumeInGb.toPtr 0
     Locked := data.Locked.toPtr false
     GlobalNetworking := data.GlobalNetworking.toPtr false
     Ports := ports.2
     DockerEntrypoint := dockerEntrypoint.2
     DockerStartCmd := dockerStartCmd.2
     Env := env.2 })

/-- The method `PodResource.Update`, given the plan and the client call `UpdatePod`. -/
def PodResource.Update (UpdatePod : String → PodUpdateInput → Except String Pod)
    (plan : PodResourceModel) : Response PodResourceModel :=
  let built := PodResource.updateInput plan
  if HasError built.1 then { Diagnostics := built.1 }
  else
    match UpdatePod plan.ID.ValueString built.2 with
    | .error err =>
      { Diagnostics :=
          built.1 ++ [.error "Client Error" ("Unable to update pod, got error: " ++ err)] }
    | .ok pod => { Diagnostics := built.1, State := some (updateStateFromPod plan pod) }

/-! ## endpoint_resource.go -/

/-- The struct `EndpointResourceModel`. -/
structure EndpointResourceModel where
  ID : TfString := .null
  Name : TfString := .null
  TemplateId : TfString := .null
  ComputeType : TfString := .null
  GPUCount : TfInt64 := .null
  VCPUCount : TfInt64 := .null
  GPUTypeIds : TfList := .null
  CPUFlavorIds : TfList := .null
  DataCenterIds : TfList := .null
  NetworkVolumeId : TfString := .null
  WorkersMin : TfInt64 := .null
  WorkersMax : TfInt64 := .null
  IdleTimeout : TfInt64 := .null
  ExecutionTimeoutMs : TfInt64 := .null
  ScalerType : TfString := .null
  ScalerValue : TfInt64 := .null
  AllowedCudaVersions : TfList := .null
  Flashboot : TfBool := .null
  CreatedAt : TfString := .null
  UserId : TfString := .null
  Version : TfInt64 := .null
  deriving DecidableEq, Repr

/-- The method `updateStateFromEndpoint`, field by field as for `updateStateFromPod`. -/
def updateStateFromEndpoint (data : EndpointResourceModel) (endpoint : Endpoint) :
    EndpointResourceModel :=
  { data with
    ID := .known endpoint.ID
    Name := .known endpoint.Name
    TemplateId := .known endpoint.TemplateId
    ComputeType := .known endpoint.ComputeType
    CreatedAt := .known endpoint.CreatedAt
    UserId := .known endpoint.UserId
    Version := .known endpoint.Version
    GPUCount := if endpoint.GPUCount > 0 then .known endpoint.GPUCount else data.GPUCount
    VCPUCount := if endpoint.VCPUCount > 0 then .known endpoint.VCPUCount else data.VCPUCount
    WorkersMin :=
      if endpoint.WorkersMin ≥ 0 then .known endpoint.WorkersMin else data.WorkersMin
    WorkersMax :=
      if endpoint.WorkersMax > 0 then .known endpoint.WorkersMax else data.WorkersMax
    IdleTimeout :=
      if endpoint.IdleTimeout > 0 then .known endpoint.IdleTimeout else data.IdleTimeout
    ExecutionTimeoutMs :=
      if endpoint.ExecutionTimeoutMs > 0 then .known endpoint.ExecutionTimeoutMs
      else data.ExecutionTimeoutMs
    ScalerValue :=
      if endpoint.ScalerValue > 0 then .known endpoint.ScalerValue else data.ScalerValue
    ScalerType :=
      if endpoint.ScalerType ≠ "" then .known endpoint.ScalerType else data.ScalerType
    NetworkVolumeId :=
      if endpoint.NetworkVolumeId ≠ "" then .known endpoint.NetworkVolumeId
      else data.NetworkVolumeId }

/-- The input `EndpointResource.Create` builds from the plan, with the diagnostics raised
while building it (lines 198-250 of endpoint_resource.go), as for
`PodResource.createInput`. -/
def EndpointResource.createInput (data : EndpointResourceModel) :
    List Diagnostic × EndpointCreateInput :=
  let gpuTypeIds := listElements data.GPUTypeIds
  let cpuFlavorIds := listElements data.CPUFlavorIds
  let dataCenterIds := listElements data.DataCenterIds
  let allowedCudaVersions := listElements data.AllowedCudaVersions
  (gpuTypeIds.1 ++ cpuFlavorIds.1 ++ dataCenterIds.1 ++ allowedCudaVersions.1,
   { Name := data.Name.ValueString
     TemplateId := data.TemplateId.ValueString
     ComputeType := data.ComputeType.ValueString
     NetworkVolumeId := data.NetworkVolumeId.ValueString
     ScalerType := data.ScalerType.ValueString
     GPUCount := data.GPUCount.toPtr 0
     VCPUCount := data.VCPUCount.toPtr 0
     WorkersMin := data.WorkersMin.toPtr 0
     WorkersMax := data.WorkersMax.toPtr 0
     IdleTimeout := data.IdleTimeout.toPtr 0
     ExecutionTimeoutMs := data.ExecutionTimeoutMs.toPtr 0
     ScalerValue := data.ScalerValue.toPtr 0
     Flashboot := data.Flashboot.toPtr false
     GPUTypeIds := gpuTypeIds.2
     CPUFlavorIds := cpuFlavorIds.2
     DataCenterIds := dataCenterIds.2
     AllowedCudaVersions := allowedCudaVersions.2 })

/-- The input `EndpointResource.Update` builds from the plan, with the diagnostics raised
while building it (lines 296-347 of endpoint_resource.go), as for
`PodResource.createInput`. -/
def EndpointResource.updateInput (data : EndpointResourceModel) :
    List Diagnostic × EndpointUpdateInput :=
  let gpuTypeIds := listElements data.GPUTypeIds
  let cpuFlavorIds := listElements data.CPUFlavorIds
  let dataCenterIds := listElements data.DataCenterIds
  let allowedCudaVersions := listElements data.AllowedCudaVersions
  (gpuTypeIds.1 ++ cpuFlavorIds.1 ++ dataCenterIds.1 ++ allowedCudaVersions.1,
   { Name := data.Name.ValueString
     TemplateId := data.TemplateId.ValueString
     NetworkVolumeId := data.NetworkVolumeId.ValueString
     ScalerType := data.ScalerType.ValueString
     GPUCount := data.GPUCount.toPtr 0
     VCPUCount := data.VCPUCount.toPtr 0
     WorkersMin := data.WorkersMin.toPtr 0
     WorkersMax := data.WorkersMax.toPtr 0
     IdleTimeout := data.IdleTimeout.toPtr 0
     ExecutionTimeoutMs := data.ExecutionTimeoutMs.toPtr 0
     ScalerValue := data.ScalerValue.toPtr 0
     Flashboot := data.Flashboot.toPtr false
     GPUTypeIds := gpuTypeIds.2
     CPUFlavorIds := cpuFlavorIds.2
     DataCenterIds := dataCenterIds.2
     AllowedCudaVersions := allowedCudaVersions.2 })

/-- The method `EndpointResource.Create`, given the plan and the call `CreateEndpoint`. -/
def EndpointResource.Create (CreateEndpoint : EndpointCreateInput → Except String Endpoint)
    (plan : EndpointResourceModel) : Response EndpointResourceModel :=
  let built := EndpointResource.createInput plan
  if HasError built.1 then { Diagnostics := built.1 }
  else
    match CreateEndpoint built.2 with
    | .error err =>
      { Diagnostics :=
          built.1 ++ [.error "Client Error" ("Unable to create endpoint, got error: " ++ err)] }
    | .ok endpoint =>
      { Diagnostics := built.1, State := some (updateStateFromEndpoint plan endpoint) }

/-- The method `EndpointResource.Read`, given the prior state and the call `GetEndpoint`. -/
def EndpointResource.Read (GetEndpoint : String → Except String Endpoint)
    (state : EndpointResourceModel) : Response EndpointResourceModel :=
  match GetEndpoint state.ID.ValueString with
  | .error err =>
    { Diagnostics := [.error "Client Error" ("Unable to read endpoint, got error: " ++ err)] }
  | .ok endpoint => { State := some (updateStateFromEndpoint state endpoint) }

/-- The method `EndpointResource.Update`, given the plan and the call `UpdateEndpoint`. -/
def EndpointResource.Update
    (UpdateEndpoint : String → EndpointUpdateInput → Except String Endpoint)
    (plan : EndpointResourceModel) : Response EndpointResourceModel :=
  let built := EndpointResource.updateInput plan
  if HasError built.1 then { Diagnostics := built.1 }
  else
    match UpdateEndpoint plan.ID.ValueString built.2 with
    | .error err =>
      { Diagnostics :=
          built.1 ++ [.error "Client Error" ("Unable to update endpoint, got error: " ++ err)] }
    | .ok endpoint =>
      { Diagnostics := built.1, State := some (updateStateFromEndpoint plan endpoint) }

/-! ## network_volume_resource.go -/

/-- The struct `NetworkVolumeResourceModel`. -/
structure NetworkVolumeResourceModel where
  ID : TfString := .null
  Name : TfString := .null
  Size : TfInt64 := .null
  DataCenterId : TfString := .null
  deriving DecidableEq, Repr

/-- The four assignments that follow a successful call in the Create, Read and Update
methods of the network volume resource (the same four lines in each). -/
def NetworkVolumeResource.assign (_data : NetworkVolumeResourceModel) (volume : NetworkVolume) :
    NetworkVolumeResourceModel :=
  { ID := .known volume.ID
    Name := .known volume.Name
    Size := .known volume.Size
    DataCenterId := .known volume.DataCenterId }

/-- The method `NetworkVolumeResource.Create`. -/
def NetworkVolumeResource.Create
    (CreateNetworkVolume : NetworkVolumeCreateInput → Except String NetworkVolume)
    (plan : NetworkVolumeResourceModel) : Response NetworkVolumeResourceModel :=
  match CreateNetworkVolume
      { Name := plan.Name.ValueString, Size := plan.Size.ValueInt64,
        DataCenterId := plan.DataCenterId.ValueString } with
  | .error err =>
    { Diagnostics :=
        [.error "Client Error" ("Unable to create network volume, got error: " ++ err)] }
  | .ok volume => { State := some (NetworkVolumeResource.assign plan volume) }

/-- The method `NetworkVolumeResource.Read`. -/
def NetworkVolumeResource.Read (GetNetworkVolume : String → Except String NetworkVolume)
    (state : NetworkVolumeResourceModel) : Response NetworkVolumeResourceModel :=
  match GetNetworkVolume state.ID.ValueString with
  | .error err =>
    { Diagnostics :=
        [.error "Client Error" ("Unable to read network volume, got error: " ++ err)] }
  | .ok volume => { State := some (NetworkVolumeResource.assign state volume) }

/-- The method `NetworkVolumeResource.Update`. -/
def NetworkVolumeResource.Update
    (UpdateNetworkVolume : String → NetworkVolumeUpdateInput → Except String NetworkVolume)
    (plan : NetworkVolumeResourceModel) : Response NetworkVolumeResourceModel :=
  match UpdateNetworkVolume plan.ID.ValueString
      { Name := plan.Name.ValueString, Size := plan.Size.toPtr 0 } with
  | .error err =>
    { Diagnostics :=
        [.error "Client Error" ("Unable to update network volume, got error: " ++ err)] }
  | .ok volume => { State := some (NetworkVolumeResource.assign plan volume) }

/-! ## Delete

The Delete methods, with the requests they issue.  The wait of `PodResource.Delete`
(`for { select { case <-timeout: ... case <-ticker.C: ... } }`) runs against a clock that
counts nanoseconds from the creation of the timer and of the ticker.  What the code does
not decide is given by a `WaitEnv`: the answer and the duration of each `GetPod` call, and
the case `select` takes when both channels are ready (Go takes either).  The ticker fires
at every multiple of its period and its channel holds one tick: a tick is pending exactly
when the ticker has fired since the last receive. -/

/-- A request issued through `doRequest`, by method and path. -/
structure Call where
  Method : String
  Path : String
  deriving DecidableEq, Repr

/-- What a Delete method leaves behind: the diagnostics appended to the response, the
requests issued, in order, and the instants at which the polls of the wait were issued. -/
structure DeleteResult where
  Diagnostics : List Diagnostic := []
  Calls : List Call := []
  PollTimes : List Nat := []
  deriving DecidableEq, Repr

/-- The constant `time.Second`, in nanoseconds. -/
def Second : Nat := 1000000000

/-- The constant `time.Minute`. -/
def Minute : Nat := 60 * Second

/-- The period of the ticker, `5 * time.Second`. -/
def pollInterval : Nat := 5 * Second

/-- The delay of the timer, `5 * time.Minute`. -/
def deleteTimeout : Nat := 5 * Minute

/-- The surroundings of the wait: `GetPod poll start id` is the answer of the call
`r.client.GetPod(ctx, id)` issued as poll number `poll` (from 0) at instant `start`, with
the time the call takes; `pick n` tells whether the select reached after `n` polls takes
the ticker case when the timer case is ready as well. -/
structure WaitEnv where
  GetPod : Nat → Nat → String → Except String Pod × Nat
  pick : Nat → Bool

/-- The state of the wait at the top of the loop: the clock, the number of times the ticker
had fired when its channel was last received from, and the polls made so far. -/
structure WaitState where
  now : Nat := 0
  received : Nat := 0
  polls : Nat := 0
  deriving DecidableEq, Repr

/-- The instant at which `select` proceeds: at once when a tick is pending or the timer has
fired, otherwise when the first of the two fires. -/
def WaitState.wake (st : WaitState) : Nat :=
  if st.now / pollInterval > st.received ∨ st.now ≥ deleteTimeout then st.now
  else min deleteTimeout ((st.received + 1) * pollInterval)

/-- The ticker case is ready when `select` proceeds. -/
def WaitState.tickReady (st : WaitState) : Bool := decide (st.wake / pollInterval > st.received)

/-- The timer case is ready when `select` proceeds. -/
def WaitState.timeoutReady (st : WaitState) : Bool := decide (st.wake ≥ deleteTimeout)

/-- The case `select` takes is `<-timeout`: the timer has fired, and either no tick is
pending or the choice between the two falls on the timer. -/
def takesTimeout (env : WaitEnv) (st : WaitState) : Bool :=
  st.timeoutReady && (!st.tickReady || !env.pick st.polls)

/-- The state at the top of the loop after a poll that took `d`. -/
def WaitState.next (st : WaitState) (d : Nat) : WaitState :=
  { now := st.wake + d, received := st.wake / pollInterval, polls := st.polls + 1 }

/-- The warning `resp.Diagnostics.AddWarning("Timeout", ...)` of the wait. -/
def timeoutWarning : Diagnostic := .warning "Timeout" "Timed out waiting for pod to be deleted"

/-- The request of a poll, `GetPod(ctx, id)`. -/
def pollCall (id : String) : Call := { Method := "GET", Path := "/pods/" ++ id }

/-- The loop of `PodResource.Delete`, for at most `fuel` iterations. -/
def waitForDeletion (env : WaitEnv) (id : String) : Nat → WaitState → Option DeleteResult
  | 0, _ => none
  | fuel + 1, st =>
    if takesTimeout env st then
      some { Diagnostics := [timeoutWarning] }
    else
      match env.GetPod st.polls st.wake id with
      | (.error _, _) => some { Calls := [pollCall id], PollTimes := [st.wake] }
      | (.ok _, d) =>
        match waitForDeletion env id fuel (st.next d) with
        | some r =>
          some { r with Calls := pollCall id :: r.Calls, PollTimes := st.wake :: r.PollTimes }
        | none => none

/-- The method `PodResource.Delete`, given the prior state, the client call `DeletePod` and
the surroundings of the wait. -/
def PodResource.Delete (DeletePod : String → Except String Unit) (env : WaitEnv) (fuel : Nat)
    (state : PodResourceModel) : Option DeleteResult :=
  match DeletePod state.ID.ValueString with
  | .error err =>
    some { Diagnostics := [.error "Client Error" ("Unable to delete pod, got error: " ++ err)]
           Calls := [{ Method := "DELETE", Path := "/pods/" ++ state.ID.ValueString }] }
  | .ok _ =>
    match waitForDeletion env state.ID.ValueString fuel {} with
    | some r =>
      some { r with
        Calls := { Method := "DELETE", Path := "/pods/" ++ state.ID.ValueString } :: r.Calls }
    | none => none

/-- The method `EndpointResource.Delete`. -/
def EndpointResource.Delete (DeleteEndpoint : String → Except String Unit)
    (state : EndpointResourceModel) : DeleteResult :=
  match DeleteEndpoint state.ID.ValueString with
  | .error err =>
    { Diagnostics :=
        [.error "Client Error" ("Unable to delete endpoint, got error: " ++ err)]
      Calls := [{ Method := "DELETE", Path := "/endpoints/" ++ state.ID.ValueString }] }
  | .ok _ => { Calls := [{ Method := "DELETE", Path := "/endpoints/" ++ state.ID.ValueString }] }

/-- The method `NetworkVolumeResource.Delete`. -/
def NetworkVolumeResource.Delete (DeleteNetworkVolume : String → Except String Unit)
    (state : NetworkVolumeResourceModel) : DeleteResult :=
  match DeleteNetworkVolume state.ID.ValueString with
  | .error err =>
    { Diagnostics :=
        [.error "Client Error" ("Unable to delete network volume, got error: " ++ err)]
      Calls := [{ Method := "DELETE", Path := "/networkvolumes/" ++ state.ID.ValueString }] }
  | .ok _ =>
    { Calls := [{ Method := "DELETE", Path := "/networkvolumes/" ++ state.ID.ValueString }] }

/-- The call `GetPod` under a context that is done from the instant `doneAt` on: a request
issued at or after that instant fails at once, and a request in flight at that instant
fails at that instant (the contract of `http.Client.Do` for the context of the request).
The text of the error plays no part in the loop. -/
def underContext (doneAt : Nat) (GetPod : Nat → Nat → String → Except String Pod × Nat) :
    Nat → Nat → String → Except String Pod × Nat :=
  fun poll start id =>
    if doneAt ≤ start then (.error "error performing request: context canceled", 0)
    else if doneAt < start + (GetPod poll start id).2 then
      (.error "error performing request: context canceled", doneAt - start)
    else GetPod poll start id

/-- What holds of the state at the top of the loop in every run: the clock has reached the
last ticker firing received, and each poll has received a firing of its own. -/
def WaitState.Inv (st : WaitState) : Prop :=
  st.received * pollInterval ≤ st.now ∧ st.polls ≤ st.received

/-- What holds of the state at the top of the loop as long as every poll has returned
before the next firing of the ticker: no firing was missed, and none is pending. -/
def WaitState.OnTime (st : WaitState) : Prop :=
  st.received = st.polls ∧ st.polls * pollInterval ≤ st.now ∧
    st.now < (st.polls + 1) * pollInterval

/-- The state at the top of the loop once `n` further polls have been made from the state
`st` and have succeeded: each poll is issued when `select` proceeds and the loop comes back
to the top when it returns. -/
def WaitState.after (env : WaitEnv) (id : String) : WaitState → Nat → WaitState
  | st, 0 => st
  | st, n + 1 => WaitState.after env id (st.next (env.GetPod st.polls st.wake id).2) n

/-! ## client.go: the transport

`doRequest` and the operations built on it.  They run in a monad `m` that carries the
effect of `c.HTTPClient.Do`: in `Id` the answer of the transport is a function of the
request, in `Traced` every request handed to the transport is recorded as well. -/

/-- A computation that records, in order, the calls it makes. -/
structure Traced (ε : Type) (α : Type) where
  value : α
  sent : List ε

instance (ε : Type) : Monad (Traced ε) where
  pure a := ⟨a, []⟩
  bind x f := ⟨(f x.value).value, x.sent ++ (f x.value).sent⟩

/-- A call that answers by `f` and records its argument. -/
def traced {α β : Type} (f : α → β) : α → Traced α β := fun a => ⟨f a, [a]⟩

/-- An `*http.Request` as `doRequest` assembles it: the method and the URL string given to
`http.NewRequestWithContext`, the header fields set on it, in the order they are set, and
the value whose JSON text is the body (`none` for a nil body).  The request carries the
URL string in parsed form: `Request.ParsedURL` below. -/
structure Request where
  Method : String
  URL : String
  Header : List (String × String)
  Body : Option JsonObject
  deriving DecidableEq, Repr

/-! ### The URL of a request

`http.NewRequestWithContext` parses the URL string it is given with `url.Parse`, and the
request the transport receives carries the parsed URL; the target written on the request
line is its `RequestURI()`.  A Go string is a sequence of bytes, here a list of numbers
below 256.  The split of the authority into user and host (`parseAuthority`) is not part
of this model: whether it accepts the text of the authority is given from outside, and the
text is kept as it stands.  Of the modes of `shouldEscape` only `encodePath` is needed. -/

/-- The UTF-8 encoding of a character. -/
def utf8Char (c : Char) : List Nat :=
  if c.toNat < 128 then [c.toNat]
  else if c.toNat < 2048 then [192 + c.toNat / 64, 128 + c.toNat % 64]
  else if c.toNat < 65536 then
    [224 + c.toNat / 4096, 128 + c.toNat / 64 % 64, 128 + c.toNat % 64]
  else
    [240 + c.toNat / 262144, 128 + c.toNat / 4096 % 64, 128 + c.toNat / 64 % 64,
      128 + c.toNat % 64]

/-- The bytes of the Go string that holds the text `s`. -/
def utf8 (s : String) : List Nat := (s.data.map utf8Char).flatten

/-- The function `strings.Cut(s, sep)` for a separator of one byte: the text before the
first separator, the text after it, and whether there is one. -/
def cut (sep : Nat) : List Nat → List Nat × List Nat × Bool
  | [] => ([], [], false)
  | c :: rest =>
    if c = sep then ([], rest, true)
    else (c :: (cut sep rest).1, (cut sep rest).2.1, (cut sep rest).2.2)

/-- The function `stringContainsCTLByte`. -/
def stringContainsCTLByte (s : List Nat) : Bool := s.any fun b => b < 32 || b == 127

/-- An ASCII letter. -/
def isLetter (c : Nat) : Bool := (97 ≤ c && c ≤ 122) || (65 ≤ c && c ≤ 90)

/-- An ASCII digit. -/
def isDigit (c : Nat) : Bool := 48 ≤ c && c ≤ 57

/-- The loop of `getScheme` over the bytes not yet read, `seen` being those read. -/
def getSchemeFrom (rawURL : List Nat) : List Nat → List Nat → Option (List Nat × List Nat)
  | _, [] => some ([], rawURL)
  | seen, c :: rest =>
    if isLetter c then getSchemeFrom rawURL (seen ++ [c]) rest
    else if isDigit c || c == 43 || c == 45 || c == 46 then
      if seen = [] then some ([], rawURL) else getSchemeFrom rawURL (seen ++ [c]) rest
    else if c == 58 then
      if seen = [] then none else some (seen, rest)
    else some ([], rawURL)

/-- The function `getScheme`: the scheme and the text after its colon, `none` for the
error "missing protocol scheme". -/
def getScheme (rawURL : List Nat) : Option (List Nat × List Nat) :=
  getSchemeFrom rawURL [] rawURL

/-- The function `strings.ToLower` on a scheme, which holds ASCII only. -/
def toLowerASCII (s : List Nat) : List Nat :=
  s.map fun c => if 65 ≤ c && c ≤ 90 then c + 32 else c

/-- The function `ishex`. -/
def ishex (c : Nat) : Bool := isDigit c || (97 ≤ c && c ≤ 102) || (65 ≤ c && c ≤ 70)

/-- The function `unhex`. -/
def unhex (c : Nat) : Nat :=
  if isDigit c then c - 48
  else if 97 ≤ c && c ≤ 102 then c - 97 + 10
  else if 65 ≤ c && c ≤ 70 then c - 65 + 10
  else 0

/-- The function `unescape` in the modes of a path and of a fragment: every `%` must be
followed by two hexadecimal digits, and stands with them for one byte. -/
def unescape : List Nat → Option (List Nat)
  | [] => some []
  | [c] => if c = 37 then none else some [c]
  | [c, h1] => if c = 37 then none else (unescape [h1]).map fun s => c :: s
  | c :: h1 :: h2 :: rest =>
    if c = 37 then
      if ishex h1 && ishex h2 then (unescape rest).map fun s => (unhex h1 * 16 + unhex h2) :: s
      else none
    else (unescape (h1 :: h2 :: rest)).map fun s => c :: s

/-- The function `shouldEscape(c, encodePath)`. -/
def shouldEscape (c : Nat) : Bool :=
  if isLetter c || isDigit c then false
  else if c == 45 || c == 95 || c == 46 || c == 126 then false
  else if c == 36 || c == 38 || c == 43 || c == 44 || c == 47 || c == 58 || c == 59 ||
      c == 61 || c == 63 || c == 64 then c == 63
  else true

/-- The digit of `upperhex` for a value below 16. -/
def upperhex (n : Nat) : Nat := if n < 10 then 48 + n else 55 + n

/-- The function `escape(s, encodePath)`. -/
def escape (s : List Nat) : List Nat :=
  (s.map fun c => if shouldEscape c then [37, upperhex (c / 16), upperhex (c % 16)] else [c]).flatten

/-- The function `validEncoded(s, encodePath)`. -/
def validEncoded (s : List Nat) : Bool :=
  s.all fun c =>
    if c == 33 || c == 36 || c == 38 || c == 39 || c == 40 || c == 41 || c == 42 ||
        c == 43 || c == 44 || c == 59 || c == 61 || c == 58 || c == 64 then true
    else if c == 91 || c == 93 then true
    else if c == 37 then true
    else !shouldEscape c

/-- The fields of a `url.URL` that `url.Parse` sets, the authority apart, which is kept as
its text. -/
structure url.URL where
  Scheme : List Nat := []
  Opaque : List Nat := []
  Authority : List Nat := []
  Path : List Nat := []
  RawPath : List Nat := []
  ForceQuery : Bool := false
  RawQuery : List Nat := []
  Fragment : List Nat := []
  deriving DecidableEq, Repr

/-- The method `setPath`. -/
def url.URL.setPath (u : url.URL) (p : List Nat) : Option url.URL :=
  (unescape p).map fun path =>
    { u with Path := path, RawPath := if p = escape path then [] else p }

/-- The function `parse(rawURL, false)` of `net/url`; `authorityOK` tells whether
`parseAuthority` accepts the text of an authority. -/
def url.parse (authorityOK : List Nat → Bool) (rawURL : List Nat) : Option url.URL :=
  if stringContainsCTLByte rawURL then none
  else if rawURL = [42] then some ({ Path := [42] } : url.URL)
  else
    match getScheme rawURL with
    | none => none
    | some (scheme, afterScheme) =>
      let forceQuery : Bool := afterScheme.getLast? = some 63 && afterScheme.count 63 = 1
      let rest : List Nat := if forceQuery then afterScheme.dropLast else (cut 63 afterScheme).1
      let rawQuery : List Nat := if forceQuery then [] else (cut 63 afterScheme).2.1
      let u : url.URL :=
        { Scheme := toLowerASCII scheme, ForceQuery := forceQuery, RawQuery := rawQuery }
      if rest.head? ≠ some 47 ∧ scheme ≠ [] then some { u with Opaque := rest }
      else if rest.head? ≠ some 47 ∧ 58 ∈ (cut 47 rest).1 then none
      else if (scheme ≠ [] ∨ rest.take 3 ≠ [47, 47, 47]) ∧ rest.take 2 = [47, 47] then
        let authority : List Nat := (cut 47 (rest.drop 2)).1
        let path : List Nat := (rest.drop 2).drop authority.length
        if authorityOK authority then url.URL.setPath { u with Authority := authority } path
        else none
      else url.URL.setPath u rest

/-- The function `url.Parse`: the fragment is cut off first and unescaped last. -/
def url.Parse (authorityOK : List Nat → Bool) (rawURL : List Nat) : Option url.URL :=
  match url.parse authorityOK (cut 35 rawURL).1 with
  | none => none
  | some u =>
    if (cut 35 rawURL).2.1 = [] then some u
    else (unescape (cut 35 rawURL).2.1).map fun frag => { u with Fragment := frag }

/-- The method `EscapedPath`. -/
def url.URL.EscapedPath (u : url.URL) : List Nat :=
  if u.RawPath ≠ [] ∧ validEncoded u.RawPath = true ∧ unescape u.RawPath = some u.Path then
    u.RawPath
  else if u.Path = [42] then [42]
  else escape u.Path

/-- The method `RequestURI`: the target the transport writes on the request line. -/
def url.URL.RequestURI (u : url.URL) : List Nat :=
  (if u.Opaque = [] then (if u.EscapedPath = [] then [47] else u.EscapedPath)
   else if u.Opaque.take 2 = [47, 47] then u.Scheme ++ [58] ++ u.Opaque
   else u.Opaque)
    ++ (if u.ForceQuery = true ∨ u.RawQuery ≠ [] then 63 :: u.RawQuery else [])

/-- The URL the transport receives with a request: the URL string of the request as
`http.NewRequestWithContext` has parsed it. -/
def Request.ParsedURL (authorityOK : List Nat → Bool) (req : Request) : Option url.URL :=
  url.Parse authorityOK (utf8 req.URL)

/-- A byte that stands for itself in a path: an unreserved character (a letter, a digit,
`-`, `_`, `.`, `~`) or the slash. -/
def plainByte (c : Nat) : Bool :=
  isLetter c || isDigit c || c == 45 || c == 95 || c == 46 || c == 126 || c == 47

/-- A text made of such characters only. -/
def plainText (s : String) : Bool := s.data.all fun c => plainByte c.toNat

/-- The part of an `*http.Response` the package reads: the status code and the text that
reading the body yields. -/
structure HttpResponse where
  StatusCode : Int
  Body : String
  deriving DecidableEq, Repr

/-- The package `net/http` as `doRequest` uses it: `NewRequestError method url` is the
error `http.NewRequestWithContext` returns for that method and URL, if it returns one, and
`Do` is the method `Do` of the `http.Client`. -/
structure Transport (m : Type → Type) where
  NewRequestError : String → String → Option String
  Do : Request → m (Except String HttpResponse)

/-- The struct `Client`. -/
structure Client (m : Type → Type) where
  BaseURL : String
  APIKey : String
  HTTPClient : Transport m

/-- The constant `defaultBaseURL`. -/
def defaultBaseURL : String := "https://rest.runpod.io/v1"

/-- The function `NewClient`; the `http.Client` it allocates is the transport given. -/
def NewClient {m : Type → Type} (transport : Transport m) (apiKey : String) : Client m :=
  { BaseURL := defaultBaseURL, APIKey := apiKey, HTTPClient := transport }

/-- A float64 that is neither an infinity nor a NaN: its exponent bits are not all set. -/
def Float64.finite (f : Float64) : Bool := (f.bits / 2 ^ 52) % 2048 != 2047

/-- The text `strconv.FormatFloat` gives for a float64 that is not finite. -/
def Float64.nonFiniteText (f : Float64) : String :=
  if f.bits % 2 ^ 52 ≠ 0 then "NaN"
  else if (f.bits / 2 ^ 63) % 2 = 1 then "-Inf" else "+Inf"

/-- The error of `json.Marshal` for a body of this package, if any: the bodies hold
strings, integers, booleans, lists and maps of strings, and floats, of which only a float
that is not finite cannot be encoded. -/
def marshalError (body : JsonObject) : Option String :=
  body.findSome? fun member =>
    match member.2 with
    | .float f =>
      if f.finite then none else some ("json: unsupported value: " ++ f.nonFiniteText)
    | _ => none

/-- Lines 36-52 of `doRequest`: the body is encoded, the request is created for the URL
`c.BaseURL+path`, and the two header fields are set. -/
def Client.newRequest {m : Type → Type} (c : Client m) (method path : String)
    (body : Option JsonObject) : Except String Request :=
  match body.bind marshalError with
  | some err => .error ("error marshaling request body: " ++ err)
  | none =>
    match c.HTTPClient.NewRequestError method (c.BaseURL ++ path) with
    | some err => .error ("error creating request: " ++ err)
    | none =>
      .ok { Method := method
            URL := c.BaseURL ++ path
            Header := [("Authorization", "Bearer " ++ c.APIKey),
                       ("Content-Type", "application/json")]
            Body := body }

/-- Lines 59-65 of `doRequest`: what it returns for a response of the transport. -/
def checkStatus (resp : HttpResponse) : Except String HttpResponse :=
  if resp.StatusCode ≥ 400 then
    .error ("API request failed with status " ++ toString resp.StatusCode ++ ": " ++ resp.Body)
  else .ok resp

/-- The method `Client.doRequest`. -/
def Client.doRequest {m : Type → Type} [Monad m] (c : Client m) (method path : String)
    (body : Option JsonObject) : m (Except String HttpResponse) :=
  match c.newRequest method path body with
  | .error err => pure (.error err)
  | .ok req => do
    let r ← c.HTTPClient.Do req
    match r with
    | .error err => pure (.error ("error performing request: " ++ err))
    | .ok resp => pure (checkStatus resp)

/-- The struct `PodUpdateInPlaceInput`. -/
structure PodUpdateInPlaceInput where
  Name : String := ""
  Locked : Option Bool := none
  deriving DecidableEq, Repr

/-- The body `json.Marshal` produces for a `PodUpdateInPlaceInput`. -/
def PodUpdateInPlaceInput.Marshal (i : PodUpdateInPlaceInput) : JsonObject :=
  omitemptyString "name" i.Name ++ omitemptyBoolPtr "locked" i.Locked

/-- The struct `Template`. -/
structure Template where
  ID : String := ""
  Name : String := ""
  ImageName : String := ""
  Category : String := ""
  ContainerDiskInGb : Int := 0
  VolumeInGb : Int := 0
  VolumeMountPath : String := ""
  Ports : List String := []
  Env : List (String × String) := []
  DockerEntrypoint : List String := []
  DockerStartCmd : List String := []
  IsPublic : Bool := false
  IsRunpod : Bool := false
  IsServerless : Bool := false
  Readme : String := ""
  RuntimeInMin : Int := 0
  StartJupyter : Bool := false
  StartSsh : Bool := false
  ContainerRegistryAuthId : String := ""
  Earned : Float64 := Float64.zero
  deriving DecidableEq, Repr

/-- The decoders `json.NewDecoder(resp.Body).Decode(&v)` of the operations, one for each
type of `v`: the value decoded from the text of a body, or the error of the decoder. -/
structure Decoders where
  pod : String → Except String Pod
  pods : String → Except String (List Pod)
  endpoint : String → Except String Endpoint
  endpoints : String → Except String (List Endpoint)
  volume : String → Except String NetworkVolume
  volumes : String → Except String (List NetworkVolume)
  templates : String → Except String (List Template)

/-- The lines that follow `doRequest` in an operation that decodes the body. -/
def decodeBody {α : Type} (decode : String → Except String α) :
    Except String HttpResponse → Except String α
  | .error err => .error err
  | .ok resp =>
    match decode resp.Body with
    | .error err => .error ("error decoding response: " ++ err)
    | .ok v => .ok v

/-- The lines that follow `doRequest` in an operation that only closes the body. -/
def closeBody : Except String HttpResponse → Except String Unit
  | .error err => .error err
  | .ok _ => .ok ()

/-- The method `Client.CreatePod`. -/
def Client.CreatePod {m : Type → Type} [Monad m] (c : Client m)
    (json : Decoders) (input : PodCreateInput) :
    m (Except String Pod) := do
  let r ← c.doRequest "POST" "/pods" (some input.Marshal)
  pure (decodeBody json.pod r)

/-- The method `Client.GetPod`. -/
def Client.GetPod {m : Type → Type} [Monad m] (c : Client m)
    (json : Decoders) (id : String) : m (Except String Pod) := do
  let r ← c.doRequest "GET" ("/pods/" ++ id) none
  pure (decodeBody json.pod r)

/-- The method `Client.UpdatePod`. -/
def Client.UpdatePod {m : Type → Type} [Monad m] (c : Client m)
    (json : Decoders) (id : String) (input : PodUpdateInput) :
    m (Except String Pod) := do
  let r ← c.doRequest "PUT" ("/pods/" ++ id) (some input.Marshal)
  pure (decodeBody json.pod r)

/-- The method `Client.UpdatePodInPlace`. -/
def Client.UpdatePodInPlace {m : Type → Type} [Monad m] (c : Client m)
    (json : Decoders) (id : String)
    (input : PodUpdateInPlaceInput) : m (Except String Pod) := do
  let r ← c.doRequest "PATCH" ("/pods/" ++ id) (some input.Marshal)
  pure (decodeBody json.pod r)

/-- The method `Client.DeletePod`. -/
def Client.DeletePod {m : Type → Type} [Monad m] (c : Client m)
    (id : String) : m (Except String Unit) := do
  let r ← c.doRequest "DELETE" ("/pods/" ++ id) none
  pure (closeBody r)

/-- The method `Client.StopPod`. -/
def Client.StopPod {m : Type → Type} [Monad m] (c : Client m)
    (id : String) : m (Except String Unit) := do
  let r ← c.doRequest "POST" ("/pods/" ++ id ++ "/stop") none
  pure (closeBody r)

/-- The method `Client.StartPod`. -/
def Client.StartPod {m : Type → Type} [Monad m] (c : Client m)
    (id : String) : m (Except String Unit) := do
  let r ← c.doRequest "POST" ("/pods/" ++ id ++ "/start") none
  pure (closeBody r)

/-- The method `Client.CreateEndpoint`. -/
def Client.CreateEndpoint {m : Type → Type} [Monad m] (c : Client m)
    (json : Decoders) (input : EndpointCreateInput) :
    m (Except String Endpoint) := do
  let r ← c.doRequest "POST" "/endpoints" (some input.Marshal)
  pure (decodeBody json.endpoint r)

/-- The method `Client.GetEndpoint`. -/
def Client.GetEndpoint {m : Type → Type} [Monad m] (c : Client m) (json : Decoders) (id : String) :
    m (Except String Endpoint) := do
  let r ← c.doRequest "GET" ("/endpoints/" ++ id) none
  pure (decodeBody json.endpoint r)

/-- The method `Client.UpdateEndpoint`. -/
def Client.UpdateEndpoint {m : Type → Type} [Monad m] (c : Client m) (json : Decoders) (id : String)
    (input : EndpointUpdateInput) : m (Except String Endpoint) := do
  let r ← c.doRequest "PATCH" ("/endpoints/" ++ id) (some input.Marshal)
  pure (decodeBody json.endpoint r)

/-- The method `Client.DeleteEndpoint`. -/
def Client.DeleteEndpoint {m : Type → Type} [Monad m] (c : Client m)
    (id : String) : m (Except String Unit) := do
  let r ← c.doRequest "DELETE" ("/endpoints/" ++ id) none
  pure (closeBody r)

/-- The method `Client.ListEndpoints`. -/
def Client.ListEndpoints {m : Type → Type} [Monad m] (c : Client m) (json : Decoders) :
    m (Except String (List Endpoint)) := do
  let r ← c.doRequest "GET" "/endpoints" none
  pure (decodeBody json.endpoints r)

/-- The method `Client.CreateNetworkVolume`. -/
def Client.CreateNetworkVolume {m : Type → Type} [Monad m] (c : Client m) (json : Decoders)
    (input : NetworkVolumeCreateInput) : m (Except String NetworkVolume) := do
  let r ← c.doRequest "POST" "/networkvolumes" (some input.Marshal)
  pure (decodeBody json.volume r)

/-- The method `Client.GetNetworkVolume`. -/
def Client.GetNetworkVolume {m : Type → Type} [Monad m] (c : Client m)
    (json : Decoders) (id : String) :
    m (Except String NetworkVolume) := do
  let r ← c.doRequest "GET" ("/networkvolumes/" ++ id) none
  pure (decodeBody json.volume r)

/-- The method `Client.UpdateNetworkVolume`. -/
def Client.UpdateNetworkVolume {m : Type → Type} [Monad m] (c : Client m)
    (json : Decoders) (id : String)
    (input : NetworkVolumeUpdateInput) : m (Except String NetworkVolume) := do
  let r ← c.doRequest "PATCH" ("/networkvolumes/" ++ id) (some input.Marshal)
  pure (decodeBody json.volume r)

/-- The method `Client.DeleteNetworkVolume`. -/
def Client.DeleteNetworkVolume {m : Type → Type} [Monad m] (c : Client m)
    (id : String) : m (Except String Unit) := do
  let r ← c.doRequest "DELETE" ("/networkvolumes/" ++ id) none
  pure (closeBody r)

/-- The method `Client.ListNetworkVolumes`. -/
def Client.ListNetworkVolumes {m : Type → Type} [Monad m] (c : Client m) (json : Decoders) :
    m (Except String (List NetworkVolume)) := do
  let r ← c.doRequest "GET" "/networkvolumes" none
  pure (decodeBody json.volumes r)

/-- The method `Client.ListPods`. -/
def Client.ListPods {m : Type → Type} [Monad m] (c : Client m)
    (json : Decoders) : m (Except String (List Pod)) := do
  let r ← c.doRequest "GET" "/pods" none
  pure (decodeBody json.pods r)

/-- The method `Client.ListTemplates`. -/
def Client.ListTemplates {m : Type → Type} [Monad m] (c : Client m) (json : Decoders) :
    m (Except String (List Template)) := do
  let r ← c.doRequest "GET" "/templates" none
  pure (decodeBody json.templates r)

/-- The client whose transport answers as that of `c` does and records each request handed
to it. -/
def Client.recorded (c : Client Id) : Client (Traced Request) :=
  { BaseURL := c.BaseURL
    APIKey := c.APIKey
    HTTPClient :=
      { NewRequestError := c.HTTPClient.NewRequestError
        Do := traced c.HTTPClient.Do } }

/-! ## The resource methods and their calls

The Create, Read and Update methods once more, in the monad of the client call, so that
the calls a method makes can be recorded; in `Id` they are the functions above.  An Update
method receives the request of the framework, which holds the prior state beside the
plan. -/

/-- The parts of a `resource.UpdateRequest` a method can read: the plan and the prior
state. -/
structure UpdateRequest (σ : Type) where
  Plan : σ
  State : σ
  deriving DecidableEq, Repr

/-- The method `PodResource.Create`, in the monad of the client call. -/
def PodResource.CreateM {m : Type → Type} [Monad m]
    (CreatePod : PodCreateInput → m (Except String Pod))
    (plan : PodResourceModel) : m (Response PodResourceModel) :=
  let built := PodResource.createInput plan
  if HasError built.1 then pure { Diagnostics := built.1 }
  else do
    let res ← CreatePod built.2
    match res with
    | .error err =>
      pure { Diagnostics :=
               built.1 ++ [.error "Client Error" ("Unable to create pod, got error: " ++ err)] }
    | .ok pod => pure { Diagnostics := built.1, State := some (updateStateFromPod plan pod) }

/-- The method `PodResource.Read`, in the monad of the client call. -/
def PodResource.ReadM {m : Type → Type} [Monad m] (GetPod : String → m (Except String Pod))
    (state : PodResourceModel) : m (Response PodResourceModel) := do
  let res ← GetPod state.ID.ValueString
  match res with
  | .error err =>
    pure { Diagnostics := [.error "Client Error" ("Unable to read pod, got error: " ++ err)] }
  | .ok pod => pure { State := some (updateStateFromPod state pod) }

/-- The method `PodResource.Update`, in the monad of the client call. -/
def PodResource.UpdateM {m : Type → Type} [Monad m]
    (UpdatePod : String → PodUpdateInput → m (Except String Pod))
    (req : UpdateRequest PodResourceModel) : m (Response PodResourceModel) :=
  let built := PodResource.updateInput req.Plan
  if HasError built.1 then pure { Diagnostics := built.1 }
  else do
    let res ← UpdatePod req.Plan.ID.ValueString built.2
    match res with
    | .error err =>
      pure { Diagnostics :=
               built.1 ++ [.error "Client Error" ("Unable to update pod, got error: " ++ err)] }
    | .ok pod =>
      pure { Diagnostics := built.1, State := some (updateStateFromPod req.Plan pod) }

/-- The method `EndpointResource.Create`, in the monad of the client call. -/
def EndpointResource.CreateM {m : Type → Type} [Monad m]
    (CreateEndpoint : EndpointCreateInput → m (Except String Endpoint))
    (plan : EndpointResourceModel) : m (Response EndpointResourceModel) :=
  let built := EndpointResource.createInput plan
  if HasError built.1 then pure { Diagnostics := built.1 }
  else do
    let res ← CreateEndpoint built.2
    match res with
    | .error err =>
      pure { Diagnostics :=
               built.1 ++
                 [.error "Client Error" ("Unable to create endpoint, got error: " ++ err)] }
    | .ok endpoint =>
      pure { Diagnostics := built.1, State := some (updateStateFromEndpoint plan endpoint) }

/-- The method `EndpointResource.Read`, in the monad of the client call. -/
def EndpointResource.ReadM {m : Type → Type} [Monad m]
    (GetEndpoint : String → m (Except String Endpoint))
    (state : EndpointResourceModel) : m (Response EndpointResourceModel) := do
  let res ← GetEndpoint state.ID.ValueString
  match res with
  | .error err =>
    pure { Diagnostics :=
             [.error "Client Error" ("Unable to read endpoint, got error: " ++ err)] }
  | .ok endpoint => pure { State := some (updateStateFromEndpoint state endpoint) }

/-- The method `EndpointResource.Update`, in the monad of the client call. -/
def EndpointResource.UpdateM {m : Type → Type} [Monad m]
    (UpdateEndpoint : String → EndpointUpdateInput → m (Except String Endpoint))
    (req : UpdateRequest EndpointResourceModel) : m (Response EndpointResourceModel) :=
  let built := EndpointResource.updateInput req.Plan
  if HasError built.1 then pure { Diagnostics := built.1 }
  else do
    let res ← UpdateEndpoint req.Plan.ID.ValueString built.2
    match res with
    | .error err =>
      pure { Diagnostics :=
               built.1 ++
                 [.error "Client Error" ("Unable to update endpoint, got error: " ++ err)] }
    | .ok endpoint =>
      pure { Diagnostics := built.1
             State := some (updateStateFromEndpoint req.Plan endpoint) }

/-- The method `NetworkVolumeResource.Create`, in the monad of the client call. -/
def NetworkVolumeResource.CreateM {m : Type → Type} [Monad m]
    (CreateNetworkVolume : NetworkVolumeCreateInput → m (Except String NetworkVolume))
    (plan : NetworkVolumeResourceModel) : m (Response NetworkVolumeResourceModel) := do
  let res ← CreateNetworkVolume
    { Name := plan.Name.ValueString, Size := plan.Size.ValueInt64,
      DataCenterId := plan.DataCenterId.ValueString }
  match res with
  | .error err =>
    pure { Diagnostics :=
             [.error "Client Error" ("Unable to create network volume, got error: " ++ err)] }
  | .ok volume => pure { State := some (NetworkVolumeResource.assign plan volume) }

/-- The method `NetworkVolumeResource.Read`, in the monad of the client call. -/
def NetworkVolumeResource.ReadM {m : Type → Type} [Monad m]
    (GetNetworkVolume : String → m (Except String NetworkVolume))
    (state : NetworkVolumeResourceModel) : m (Response NetworkVolumeResourceModel) := do
  let res ← GetNetworkVolume state.ID.ValueString
  match res with
  | .error err =>
    pure { Diagnostics :=
             [.error "Client Error" ("Unable to read network volume, got error: " ++ err)] }
  | .ok volume => pure { State := some (NetworkVolumeResource.assign state volume) }

/-- The method `NetworkVolumeResource.Update`, in the monad of the client call. -/
def NetworkVolumeResource.UpdateM {m : Type → Type} [Monad m]
    (UpdateNetworkVolume :
      String → NetworkVolumeUpdateInput → m (Except String NetworkVolume))
    (req : UpdateRequest NetworkVolumeResourceModel) :
    m (Response NetworkVolumeResourceModel) := do
  let res ← UpdateNetworkVolume req.Plan.ID.ValueString
    { Name := req.Plan.Name.ValueString, Size := req.Plan.Size.toPtr 0 }
  match res with
  | .error err =>
    pure { Diagnostics :=
             [.error "Client Error" ("Unable to update network volume, got error: " ++ err)] }
  | .ok volume => pure { State := some (NetworkVolumeResource.assign req.Plan volume) }

/-! ## provider.go -/

/-- The method `IsUnknown` of an attribute value. -/
def TfValue.IsUnknown {α : Type} : TfValue α → Bool
  | .unknown => true
  | _ => false

/-- The struct `runpodProviderModel`. -/
structure runpodProviderModel where
  ApiKey : TfString := .null
  deriving DecidableEq, Repr

/-- What `Configure` leaves in its response: the diagnostics, and the client stored as
`DataSourceData` and as `ResourceData` (`none` when the field was not assigned). -/
structure ConfigureResponse (m : Type → Type) where
  Diagnostics : List Diagnostic := []
  DataSourceData : Option (Client m) := none
  ResourceData : Option (Client m) := none

/-- The diagnostic `Configure` adds for an unknown `api_key` (the attribute path of
`AddAttributeError` is left out). -/
def unknownApiKey : Diagnostic :=
  .error "Unknown RunPod API Key"
    ("The provider cannot create the RunPod API client as there is an unknown configuration value for the RunPod API key. " ++
      "Either target apply the source of the value first, set the value statically in the configuration, or use the RUNPOD_API_KEY environment variable.")

/-- The diagnostic `Configure` adds for an empty key. -/
def missingApiKey : Diagnostic :=
  .error "Missing RunPod API Key"
    ("The provider cannot create the RunPod API client as there is a missing or empty value for the RunPod API key. " ++
      "Set the API key value in the configuration or use the RUNPOD_API_KEY environment variable. " ++
      "If either is already set, ensure the value is not empty.")

/-- The local variable `api_key` of `Configure` once it is resolved: the value of the
environment variable, overridden by the configured value if that is not null. -/
def runpodProvider.api_key (Getenv : String → String) (config : runpodProviderModel) : String :=
  if !config.ApiKey.IsNull then config.ApiKey.ValueString else Getenv "RUNPOD_API_KEY"

/-- The method `runpodProvider.Configure`, given the transport of the client it builds, the
environment (`os.Getenv`) and the configuration. -/
def runpodProvider.Configure {m : Type → Type} (transport : Transport m)
    (Getenv : String → String) (config : runpodProviderModel) : ConfigureResponse m :=
  let diags : List Diagnostic := if config.ApiKey.IsUnknown then [unknownApiKey] else []
  if HasError diags then { Diagnostics := diags }
  else
    let diags2 : List Diagnostic :=
      if runpodProvider.api_key Getenv config = "" then diags ++ [missingApiKey] else diags
    if HasError diags2 then { Diagnostics := diags2 }
    else
      { Diagnostics := diags2
        DataSourceData := some (NewClient transport (runpodProvider.api_key Getenv config))
        ResourceData := some (NewClient transport (runpodProvider.api_key Getenv config)) }

/-! ## The data sources

A Go slice is an `Option (List _)`, the nil slice being `none`: `State.Set` stores a null
list for a nil slice and a list of the elements for any other. -/

/-- The built-in `append(s, x)`: the result is never nil. -/
def appendSlice {α : Type} (s : Option (List α)) (x : α) : Option (List α) :=
  some (s.getD [] ++ [x])

/-- The list value `State.Set` stores for a slice field. -/
def sliceValue {α : Type} : Option (List α) → TfValue (List α)
  | none => .null
  | some xs => .known xs

/-- The struct `PodDataModel`. -/
structure PodDataModel where
  ID : TfString := .null
  Name : TfString := .null
  ImageName : TfString := .null
  DesiredStatus : TfString := .null
  PublicIp : TfString := .null
  MachineId : TfString := .null
  CostPerHr : TfFloat64 := .null
  AdjustedCostPerHr : TfFloat64 := .null
  MemoryInGb : TfFloat64 := .null
  VCPUCount : TfFloat64 := .null
  GPUCount : TfInt64 := .null
  deriving DecidableEq, Repr

/-- The struct `PodsDataSourceModel`. -/
structure PodsDataSourceModel where
  Pods : Option (List PodDataModel) := none
  deriving DecidableEq, Repr

/-- The element `podData` built in the loop of `PodsDataSource.Read`; `toFloat64` is the
conversion `float64(n)` of an `int`. -/
def PodsDataSource.podData (toFloat64 : Int → Float64) (pod : Pod) : PodDataModel :=
  { ID := .known pod.ID
    Name := .known pod.Name
    ImageName := .known pod.ImageName
    DesiredStatus := .known pod.DesiredStatus
    PublicIp := .known pod.PublicIp
    MachineId := .known pod.MachineId
    CostPerHr := .known pod.CostPerHr
    AdjustedCostPerHr := .known pod.AdjustedCostPerHr
    MemoryInGb := .known pod.MemoryInGb
    VCPUCount := .known (toFloat64 pod.VCPUCount)
    GPUCount := .known pod.GPUCount }

/-- The method `PodsDataSource.Read`, given the result of `ListPods`. -/
def PodsDataSource.Read (toFloat64 : Int → Float64) (ListPods : Except String (List Pod)) :
    Response PodsDataSourceModel :=
  match ListPods with
  | .error err =>
    { Diagnostics := [.error "Client Error" ("Unable to list pods, got error: " ++ err)] }
  | .ok pods =>
    { State := some (pods.foldl
        (fun data pod =>
          { data with Pods := appendSlice data.Pods (PodsDataSource.podData toFloat64 pod) })
        { Pods := some [] }) }

/-- The struct `EndpointDataModel`. -/
structure EndpointDataModel where
  ID : TfString := .null
  Name : TfString := .null
  TemplateId : TfString := .null
  ComputeType : TfString := .null
  GPUCount : TfInt64 := .null
  VCPUCount : TfInt64 := .null
  WorkersMin : TfInt64 := .null
  WorkersMax : TfInt64 := .null
  IdleTimeout : TfInt64 := .null
  ExecutionTimeoutMs : TfInt64 := .null
  ScalerType : TfString := .null
  ScalerValue : TfInt64 := .null
  CreatedAt : TfString := .null
  Version : TfInt64 := .null
  deriving DecidableEq, Repr

/-- The struct `EndpointsDataSourceModel`. -/
structure EndpointsDataSourceModel where
  Endpoints : Option (List EndpointDataModel) := none
  deriving DecidableEq, Repr

/-- The element `endpointData` built in the loop of `EndpointsDataSource.Read`. -/
def EndpointsDataSource.endpointData (endpoint : Endpoint) : EndpointDataModel :=
  { ID := .known endpoint.ID
    Name := .known endpoint.Name
    TemplateId := .known endpoint.TemplateId
    ComputeType := .known endpoint.ComputeType
    GPUCount := .known endpoint.GPUCount
    VCPUCount := .known endpoint.VCPUCount
    WorkersMin := .known endpoint.WorkersMin
    WorkersMax := .known endpoint.WorkersMax
    IdleTimeout := .known endpoint.IdleTimeout
    ExecutionTimeoutMs := .known endpoint.ExecutionTimeoutMs
    ScalerType := .known endpoint.ScalerType
    ScalerValue := .known endpoint.ScalerValue
    CreatedAt := .known endpoint.CreatedAt
    Version := .known endpoint.Version }

/-- The method `EndpointsDataSource.Read`, given the result of `ListEndpoints`.  The
variable `data` is declared and not assigned before the loop: its slice starts nil. -/
def EndpointsDataSource.Read (ListEndpoints : Except String (List Endpoint)) :
    Response EndpointsDataSourceModel :=
  match ListEndpoints with
  | .error err =>
    { Diagnostics := [.error "Client Error" ("Unable to list endpoints, got error: " ++ err)] }
  | .ok endpoints =>
    { State := some (endpoints.foldl
        (fun data endpoint =>
          { data with
            Endpoints :=
              appendSlice data.Endpoints (EndpointsDataSource.endpointData endpoint) })
        { Endpoints := none }) }

/-- The struct `NetworkVolumeDataModel`. -/
structure NetworkVolumeDataModel where
  ID : TfString := .null
  Name : TfString := .null
  Size : TfInt64 := .null
  DataCenterId : TfString := .null
  deriving DecidableEq, Repr

/-- The struct `NetworkVolumesDataSourceModel`. -/
structure NetworkVolumesDataSourceModel where
  NetworkVolumes : Option (List NetworkVolumeDataModel) := none
  deriving DecidableEq, Repr

/-- The element `volumeData` built in the loop of `NetworkVolumesDataSource.Read`. -/
def NetworkVolumesDataSource.volumeData (vol : NetworkVolume) : NetworkVolumeDataModel :=
  { ID := .known vol.ID
    Name := .known vol.Name
    Size := .known vol.Size
    DataCenterId := .known vol.DataCenterId }

/-- The method `NetworkVolumesDataSource.Read`, given the result of `ListNetworkVolumes`. -/
def NetworkVolumesDataSource.Read (ListNetworkVolumes : Except String (List NetworkVolume)) :
    Response NetworkVolumesDataSourceModel :=
  match ListNetworkVolumes with
  | .error err =>
    { Diagnostics :=
        [.error "Client Error" ("Unable to list network volumes, got error: " ++ err)] }
  | .ok volumes =>
    { State := some (volumes.foldl
        (fun data vol =>
          { data with
            NetworkVolumes :=
              appendSlice data.NetworkVolumes (NetworkVolumesDataSource.volumeData vol) })
        { NetworkVolumes := some [] }) }

/-- The struct `TemplateDataModel`. -/
structure TemplateDataModel where
  ID : TfString := .null
  Name : TfString := .null
  ImageName : TfString := .null
  IsServerless : TfBool := .null
  IsPublic : TfBool := .null
  IsRunpod : TfBool := .null
  deriving DecidableEq, Repr

/-- The struct `TemplatesDataSourceModel`. -/
structure TemplatesDataSourceModel where
  Templates : Option (List TemplateDataModel) := none
  deriving DecidableEq, Repr

/-- The element `templateData` built in the loop of `TemplatesDataSource.Read`. -/
def TemplatesDataSource.templateData (template : Template) : TemplateDataModel :=
  { ID := .known template.ID
    Name := .known template.Name
    ImageName := .known template.ImageName
    IsServerless := .known template.IsServerless
    IsPublic := .known template.IsPublic
    IsRunpod := .known template.IsRunpod }

/-- The method `TemplatesDataSource.Read`, given the result of `ListTemplates`. -/
def TemplatesDataSource.Read (ListTemplates : Except String (List Template)) :
    Response TemplatesDataSourceModel :=
  match ListTemplates with
  | .error err =>
    { Diagnostics := [.error "Client Error" ("Unable to list templates, got error: " ++ err)] }
  | .ok templates =>
    { State := some (templates.foldl
        (fun data template =>
          { data with
            Templates :=
              appendSlice data.Templates (TemplatesDataSource.templateData template) })
        { Templates := some [] }) }

/-! ## Example states -/

/-- A prior Pod state with every caller-settable attribute that the merge writes set. -/
def examplePodState : PodResourceModel :=
  { Name := .known "web", ImageName := .known "img", VolumeInGb := .known 20,
    ContainerDiskInGb := .known 50, VolumeMountPath := .known "/workspace" }

/-- A remote Pod record that reports nothing but its id. -/
def examplePodRecord : Pod := { ID := "p1" }

/-- A prior Endpoint state with the attributes guarded by the merge set. -/
def exampleEndpointState : EndpointResourceModel :=
  { GPUCount := .known 1, VCPUCount := .known 2, WorkersMax := .known 3,
    IdleTimeout := .known 5, ExecutionTimeoutMs := .known 600000,
    ScalerType := .known "QUEUE_DELAY", ScalerValue := .known 4,
    NetworkVolumeId := .known "vol-1" }

/-- A remote Endpoint record that reports nothing but its id. -/
def exampleEndpointRecord : Endpoint := { ID := "e1" }

/-- A client for the key "secret" whose transport accepts every URL and answers every
request with status 200 and an empty body. -/
def exampleClient : Client Id :=
  NewClient
    { NewRequestError := fun _ _ => none
      Do := fun _ => Except.ok { StatusCode := 200, Body := "" } }
    "secret"

/-- Decoders that return the zero value of each type for every body. -/
def exampleDecoders : Decoders :=
  { pod := fun _ => .ok {}
    pods := fun _ => .ok []
    endpoint := fun _ => .ok {}
    endpoints := fun _ => .ok []
    volume := fun _ => .ok {}
    volumes := fun _ => .ok []
    templates := fun _ => .ok [] }

/-! ## Theorems -/


/-- C1. Merge preservation for the Pod image reference: when the prior state holds the
non-empty image name `V` and the remote record reports an empty image, the state produced
by `updateStateFromPod` still holds `V`. -/
theorem updateStateFromPod_preserves_image (data : PodResourceModel) (pod : Pod) (V : String)
    (hprior : data.ImageName = .known V) (_hV : V ≠ "") (hremote : pod.ImageName = "") :
    (updateStateFromPod data pod).ImageName = .known V := by
  simp [updateStateFromPod, hremote, hprior]

/-- C1 at a concrete state and record. -/
theorem updateStateFromPod_preserves_image_witness :
    (updateStateFromPod { ImageName := .known "runpod/base:1" } { ID := "p1" }).ImageName
      = .known "runpod/base:1" :=
  updateStateFromPod_preserves_image { ImageName := .known "runpod/base:1" } { ID := "p1" }
    "runpod/base:1" rfl (by decide) rfl

/-- C2. Merge overwrite for computed fields: after `updateStateFromPod` the attributes
desired_status, public_ip, machine_id, cost_per_hr, adjusted_cost_per_hr, memory_in_gb and
last_started_at are the known values of the remote record, whatever the prior state held
and also when the remote value is empty or zero; likewise created_at, user_id and version
after `updateStateFromEndpoint`. -/
theorem merge_overwrites_computed :
    (∀ (data : PodResourceModel) (pod : Pod),
      (updateStateFromPod data pod).DesiredStatus = .known pod.DesiredStatus ∧
      (updateStateFromPod data pod).PublicIp = .known pod.PublicIp ∧
      (updateStateFromPod data pod).MachineId = .known pod.MachineId ∧
      (updateStateFromPod data pod).CostPerHr = .known pod.CostPerHr ∧
      (updateStateFromPod data pod).AdjustedCostPerHr = .known pod.AdjustedCostPerHr ∧
      (updateStateFromPod data pod).MemoryInGb = .known pod.MemoryInGb ∧
      (updateStateFromPod data pod).LastStartedAt = .known pod.LastStartedAt) ∧
    (∀ (data : EndpointResourceModel) (endpoint : Endpoint),
      (updateStateFromEndpoint data endpoint).CreatedAt = .known endpoint.CreatedAt ∧
      (updateStateFromEndpoint data endpoint).UserId = .known endpoint.UserId ∧
      (updateStateFromEndpoint data endpoint).Version = .known endpoint.Version) :=
  ⟨fun _ _ => ⟨rfl, rfl, rfl, rfl, rfl, rfl, rfl⟩, fun _ _ => ⟨rfl, rfl, rfl⟩⟩

/-- A property of every result of a conditional holds when it holds on both branches. -/
theorem option_ite_all {α : Type} {P : α → Prop} {c : Prop} [Decidable c] {a b : Option α}
    (ha : c → ∀ r, a = some r → P r) (hb : ¬c → ∀ r, b = some r → P r) :
    ∀ r, (if c then a else b) = some r → P r := by
  intro r h
  by_cases hc : c
  · rw [if_pos hc] at h
    exact ha hc r h
  · rw [if_neg hc] at h
    exact hb hc r h

/-- A property of every result of `Option.map f x` holds when it holds of every `f v`. -/
theorem option_map_all {α β : Type} {P : β → Prop} {f : α → β} {x : Option α}
    (hf : ∀ v, P (f v)) : ∀ r, x.map f = some r → P r := by
  intro r h
  cases x with
  | none => simp at h
  | some v =>
    simp only [Option.map_some', Option.some.injEq] at h
    rw [← h]
    exact hf v

/-- Decoding one member whose key does not name the field `workersMin` keeps
`WorkersMin`. -/
theorem Endpoint.decodeMember_workersMin (e : Endpoint) (m : String × JsonValue)
    (hkey : foldKey m.1 ≠ foldKey "workersMin") :
    ∀ e1, e.decodeMember m = some e1 → e1.WorkersMin = e.WorkersMin := by
  unfold Endpoint.decodeMember
  repeat (
    apply option_ite_all
    · intro hc
      first
      | exact absurd hc hkey
      | exact option_map_all (fun _ => rfl)
      | (intro r h; cases h; rfl)
    intro _)
  intro r h
  cases h
  rfl

/-- The fold of `decodeMember` keeps `WorkersMin` when no member of the object names the
field `workersMin`. -/
theorem Endpoint.decodeInto_workersMin (body : JsonObject) :
    ∀ e e1 : Endpoint, (∀ m ∈ body, foldKey m.1 ≠ foldKey "workersMin") →
      Endpoint.decodeInto e body = some e1 → e1.WorkersMin = e.WorkersMin := by
  induction body with
  | nil =>
    intro e e1 _ h
    simp only [Endpoint.decodeInto, Option.some.injEq] at h
    rw [h]
  | cons m rest ih =>
    intro e e1 hkeys h
    simp only [Endpoint.decodeInto] at h
    cases hm : e.decodeMember m with
    | none => simp [hm] at h
    | some e2 =>
      simp only [hm] at h
      have h2 := ih e2 e1 (fun x hx => hkeys x (List.mem_cons_of_mem _ hx)) h
      have h1 := Endpoint.decodeMember_workersMin e m (hkeys m (List.mem_cons_self _ _)) e2 hm
      rw [h2, h1]

/-- Decoding a member that names the field `workersMin` and holds an integer stores that
integer. -/
theorem Endpoint.decodeMember_workersMin_int (e e1 : Endpoint) (key : String) (v : Int)
    (hkey : foldKey key = foldKey "workersMin")
    (h : e.decodeMember (key, .int v) = some e1) : e1.WorkersMin = v := by
  have hid : ¬ foldKey "workersMin" = foldKey "id" := by decide
  have hname : ¬ foldKey "workersMin" = foldKey "name" := by decide
  have htemplateId : ¬ foldKey "workersMin" = foldKey "templateId" := by decide
  have hcomputeType : ¬ foldKey "workersMin" = foldKey "computeType" := by decide
  have hgpuCount : ¬ foldKey "workersMin" = foldKey "gpuCount" := by decide
  have hvcpuCount : ¬ foldKey "workersMin" = foldKey "vcpuCount" := by decide
  have hgpuTypeIds : ¬ foldKey "workersMin" = foldKey "gpuTypeIds" := by decide
  have hcpuFlavorIds : ¬ foldKey "workersMin" = foldKey "cpuFlavorIds" := by decide
  have hdataCenterIds : ¬ foldKey "workersMin" = foldKey "dataCenterIds" := by decide
  have hnetworkVolumeId : ¬ foldKey "workersMin" = foldKey "networkVolumeId" := by decide
  simp only [Endpoint.decodeMember, hkey, hid, hname, htemplateId, hcomputeType, hgpuCount,
    hvcpuCount, hgpuTypeIds, hcpuFlavorIds, hdataCenterIds, hnetworkVolumeId, if_false,
    if_true, JsonValue.asInt] at h
  have hnull : ¬ (JsonValue.int v = JsonValue.null) := by simp
  rw [if_neg hnull] at h
  by_cases hr : -9223372036854775808 ≤ v ∧ v ≤ 9223372036854775807
  · rw [if_pos hr] at h
    simp only [Option.map_some', Option.some.injEq] at h
    rw [← h]
  · rw [if_neg hr] at h
    simp at h

/-- The members of an object made of two parts are decoded part after part. -/
theorem Endpoint.decodeInto_append (a b : JsonObject) :
    ∀ e : Endpoint,
      Endpoint.decodeInto e (a ++ b)
        = (Endpoint.decodeInto e a).bind fun e1 => Endpoint.decodeInto e1 b := by
  induction a with
  | nil => intro e; rfl
  | cons m rest ih =>
    intro e
    simp only [List.cons_append, Endpoint.decodeInto]
    cases e.decodeMember m with
    | none => rfl
    | some e1 => exact ih e1

/-- C3, as stated, fails: the response object `{"id":"e1"}` has no `workersMin` member, it
decodes to an `Endpoint` whose `WorkersMin` is 0, and merging it into a state with
workers_min = 3 gives workers_min = 0, not 3. -/
theorem workersMin_absent_key_overwrites :
    (∀ m ∈ [("id", JsonValue.str "e1")], foldKey m.1 ≠ foldKey "workersMin") ∧
    decodeEndpoint [("id", JsonValue.str "e1")] = some { ID := "e1" } ∧
    (updateStateFromEndpoint { WorkersMin := .known 3 } { ID := "e1" }).WorkersMin = .known 0 ∧
    (updateStateFromEndpoint { WorkersMin := .known 3 } { ID := "e1" }).WorkersMin ≠ .known 3 := by
  refine ⟨by decide, by decide, by decide, by decide⟩

/-- C3, amended. `updateStateFromEndpoint` takes the remote `WorkersMin` whenever it is not
negative (zero included) and keeps the prior workers_min only when it is negative.  A
response object of which no member names the field `workersMin` (a key names it when it
equals `workersMin` up to the case of its letters, as `encoding/json` matches keys) decodes
to `WorkersMin = 0`, so that merging it sets workers_min to 0 whatever the prior state
held; a response object whose last member naming the field holds the integer `v` decodes
to `WorkersMin = v`, under whatever spelling of the key. -/
theorem workersMin_merge_rule (data : EndpointResourceModel) :
    (∀ endpoint : Endpoint, 0 ≤ endpoint.WorkersMin →
      (updateStateFromEndpoint data endpoint).WorkersMin = .known endpoint.WorkersMin) ∧
    (∀ endpoint : Endpoint, endpoint.WorkersMin < 0 →
      (updateStateFromEndpoint data endpoint).WorkersMin = data.WorkersMin) ∧
    (∀ (body : JsonObject) (endpoint : Endpoint),
      (∀ m ∈ body, foldKey m.1 ≠ foldKey "workersMin") →
      decodeEndpoint body = some endpoint →
      (updateStateFromEndpoint data endpoint).WorkersMin = .known 0) ∧
    (∀ (before after : JsonObject) (key : String) (v : Int) (endpoint : Endpoint),
      foldKey key = foldKey "workersMin" →
      (∀ m ∈ after, foldKey m.1 ≠ foldKey "workersMin") →
      decodeEndpoint (before ++ (key, .int v) :: after) = some endpoint →
      endpoint.WorkersMin = v) ∧
    decodeEndpoint [("Id", .str "e9"), ("WORKERSMIN", .int 5)]
      = some { ID := "e9", WorkersMin := 5 } := by
  refine ⟨?_, ?_, ?_, ?_, by decide⟩
  · intro endpoint h
    simp [updateStateFromEndpoint, h]
  · intro endpoint h
    simp [updateStateFromEndpoint, Int.not_le.mpr h]
  · intro body endpoint hkey hdec
    have hw : endpoint.WorkersMin = 0 :=
      Endpoint.decodeInto_workersMin body {} endpoint hkey hdec
    simp [updateStateFromEndpoint, hw]
  · intro before after key v endpoint hkey hafter hdec
    unfold decodeEndpoint at hdec
    rw [Endpoint.decodeInto_append] at hdec
    cases h1 : Endpoint.decodeInto {} before with
    | none => simp [h1] at hdec
    | some e1 =>
      simp only [h1, Option.some_bind, Endpoint.decodeInto] at hdec
      cases h2 : e1.decodeMember (key, .int v) with
      | none => simp [h2] at hdec
      | some e2 =>
        simp only [h2] at hdec
        rw [Endpoint.decodeInto_workersMin after e2 endpoint hafter hdec]
        exact Endpoint.decodeMember_workersMin_int e1 e2 key v hkey h2

/-- C3, amended, at concrete inputs: remote values 0 and -1 against a prior 3, the
response object `{"id":"e1"}`, and the response object `{"Id":"e9","WORKERSMIN":5}`. -/
theorem workersMin_merge_rule_witness :
    (updateStateFromEndpoint { WorkersMin := .known 3 } { WorkersMin := 0 }).WorkersMin
      = .known 0 ∧
    (updateStateFromEndpoint { WorkersMin := .known 3 } { WorkersMin := -1 }).WorkersMin
      = .known 3 ∧
    (updateStateFromEndpoint { WorkersMin := .known 3 } { ID := "e1" }).WorkersMin
      = .known 0 ∧
    ({ ID := "e9", WorkersMin := 5 } : Endpoint).WorkersMin = 5 :=
  ⟨(workersMin_merge_rule { WorkersMin := .known 3 }).1 { WorkersMin := 0 } (by decide),
   (workersMin_merge_rule { WorkersMin := .known 3 }).2.1 { WorkersMin := -1 } (by decide),
   (workersMin_merge_rule { WorkersMin := .known 3 }).2.2.1 [("id", JsonValue.str "e1")]
     { ID := "e1" } (by decide) (by decide),
   (workersMin_merge_rule { WorkersMin := .known 3 }).2.2.2.1 [("Id", .str "e9")] []
     "WORKERSMIN" 5 { ID := "e9", WorkersMin := 5 } (by decide) (by decide) (by decide)⟩

/-- C4, as stated, fails for `name`: a prior state named "web" merged with a remote record
whose name is empty ends with the empty name. -/
theorem updateStateFromPod_name_not_kept :
    (updateStateFromPod { Name := .known "web" } { ID := "p1", Name := "" }).Name = .known "" ∧
    (updateStateFromPod { Name := .known "web" } { ID := "p1", Name := "" }).Name
      ≠ .known "web" := by
  refine ⟨by decide, by decide⟩

/-- C4, amended. For image_name, volume_in_gb, container_disk_in_gb and volume_mount_path
`updateStateFromPod` keeps the prior value when the remote record reports the attribute
empty or zero; `name` is always taken from the remote record. -/
theorem updateStateFromPod_rule1 (data : PodResourceModel) (pod : Pod) :
    (pod.ImageName = "" → (updateStateFromPod data pod).ImageName = data.ImageName) ∧
    (pod.VolumeInGb = 0 → (updateStateFromPod data pod).VolumeInGb = data.VolumeInGb) ∧
    (pod.ContainerDiskInGb = 0 →
      (updateStateFromPod data pod).ContainerDiskInGb = data.ContainerDiskInGb) ∧
    (pod.VolumeMountPath = "" →
      (updateStateFromPod data pod).VolumeMountPath = data.VolumeMountPath) ∧
    (updateStateFromPod data pod).Name = .known pod.Name := by
  refine ⟨?_, ?_, ?_, ?_, rfl⟩ <;> intro h <;> simp [updateStateFromPod, h]

/-- C4, amended, at a concrete state and a remote record that reports everything empty:
the four guarded attributes keep their prior values and the name becomes empty. -/
theorem updateStateFromPod_rule1_witness :
    (updateStateFromPod examplePodState examplePodRecord).ImageName = .known "img" ∧
    (updateStateFromPod examplePodState examplePodRecord).VolumeInGb = .known 20 ∧
    (updateStateFromPod examplePodState examplePodRecord).ContainerDiskInGb = .known 50 ∧
    (updateStateFromPod examplePodState examplePodRecord).VolumeMountPath
      = .known "/workspace" ∧
    (updateStateFromPod examplePodState examplePodRecord).Name = .known "" :=
  ⟨(updateStateFromPod_rule1 examplePodState examplePodRecord).1 rfl,
   (updateStateFromPod_rule1 examplePodState examplePodRecord).2.1 rfl,
   (updateStateFromPod_rule1 examplePodState examplePodRecord).2.2.1 rfl,
   (updateStateFromPod_rule1 examplePodState examplePodRecord).2.2.2.1 rfl,
   (updateStateFromPod_rule1 examplePodState examplePodRecord).2.2.2.2⟩

/-- C5, as stated, fails for `name`, `template_id` and `compute_type`: a prior state holding
"api", "tpl-1" and "GPU" merged with a remote record that reports them empty ends with the
three attributes empty. -/
theorem updateStateFromEndpoint_strings_not_kept :
    (updateStateFromEndpoint
      { Name := .known "api", TemplateId := .known "tpl-1", ComputeType := .known "GPU" }
      { ID := "e1" }).Name = .known "" ∧
    (updateStateFromEndpoint
      { Name := .known "api", TemplateId := .known "tpl-1", ComputeType := .known "GPU" }
      { ID := "e1" }).TemplateId = .known "" ∧
    (updateStateFromEndpoint
      { Name := .known "api", TemplateId := .known "tpl-1", ComputeType := .known "GPU" }
      { ID := "e1" }).ComputeType = .known "" := by
  refine ⟨by decide, by decide, by decide⟩

/-- C5, amended. For gpu_count, vcpu_count, workers_max, idle_timeout, execution_timeout_ms,
scaler_type, scaler_value and network_volume_id `updateStateFromEndpoint` keeps the prior
value when the remote record reports the attribute empty or zero; `name`, `template_id` and
`compute_type` are always taken from the remote record. -/
theorem updateStateFromEndpoint_rule1 (data : EndpointResourceModel) (endpoint : Endpoint) :
    (endpoint.GPUCount = 0 → (updateStateFromEndpoint data endpoint).GPUCount = data.GPUCount) ∧
    (endpoint.VCPUCount = 0 →
      (updateStateFromEndpoint data endpoint).VCPUCount = data.VCPUCount) ∧
    (endpoint.WorkersMax = 0 →
      (updateStateFromEndpoint data endpoint).WorkersMax = data.WorkersMax) ∧
    (endpoint.IdleTimeout = 0 →
      (updateStateFromEndpoint data endpoint).IdleTimeout = data.IdleTimeout) ∧
    (endpoint.ExecutionTimeoutMs = 0 →
      (updateStateFromEndpoint data endpoint).ExecutionTimeoutMs = data.ExecutionTimeoutMs) ∧
    (endpoint.ScalerType = "" →
      (updateStateFromEndpoint data endpoint).ScalerType = data.ScalerType) ∧
    (endpoint.ScalerValue = 0 →
      (updateStateFromEndpoint data endpoint).ScalerValue = data.ScalerValue) ∧
    (endpoint.NetworkVolumeId = "" →
      (updateStateFromEndpoint data endpoint).NetworkVolumeId = data.NetworkVolumeId) ∧
    (updateStateFromEndpoint data endpoint).Name = .known endpoint.Name ∧
    (updateStateFromEndpoint data endpoint).TemplateId = .known endpoint.TemplateId ∧
    (updateStateFromEndpoint data endpoint).ComputeType = .known endpoint.ComputeType := by
  refine ⟨?_, ?_, ?_, ?_, ?_, ?_, ?_, ?_, rfl, rfl, rfl⟩ <;> intro h <;>
    simp [updateStateFromEndpoint, h]

/-- C5, amended, at a concrete state and a remote record that reports everything empty:
the eight guarded attributes keep their prior values. -/
theorem updateStateFromEndpoint_rule1_witness :
    (updateStateFromEndpoint exampleEndpointState exampleEndpointRecord).GPUCount = .known 1 ∧
    (updateStateFromEndpoint exampleEndpointState exampleEndpointRecord).VCPUCount = .known 2 ∧
    (updateStateFromEndpoint exampleEndpointState exampleEndpointRecord).WorkersMax = .known 3 ∧
    (updateStateFromEndpoint exampleEndpointState exampleEndpointRecord).IdleTimeout
      = .known 5 ∧
    (updateStateFromEndpoint exampleEndpointState exampleEndpointRecord).ExecutionTimeoutMs
      = .known 600000 ∧
    (updateStateFromEndpoint exampleEndpointState exampleEndpointRecord).ScalerType
      = .known "QUEUE_DELAY" ∧
    (updateStateFromEndpoint exampleEndpointState exampleEndpointRecord).ScalerValue
      = .known 4 ∧
    (updateStateFromEndpoint exampleEndpointState exampleEndpointRecord).NetworkVolumeId
      = .known "vol-1" :=
  ⟨(updateStateFromEndpoint_rule1 exampleEndpointState exampleEndpointRecord).1 rfl,
   (updateStateFromEndpoint_rule1 exampleEndpointState exampleEndpointRecord).2.1 rfl,
   (updateStateFromEndpoint_rule1 exampleEndpointState exampleEndpointRecord).2.2.1 rfl,
   (updateStateFromEndpoint_rule1 exampleEndpointState exampleEndpointRecord).2.2.2.1 rfl,
   (updateStateFromEndpoint_rule1 exampleEndpointState exampleEndpointRecord).2.2.2.2.1 rfl,
   (updateStateFromEndpoint_rule1 exampleEndpointState exampleEndpointRecord).2.2.2.2.2.1 rfl,
   (updateStateFromEndpoint_rule1 exampleEndpointState exampleEndpointRecord).2.2.2.2.2.2.1 rfl,
   (updateStateFromEndpoint_rule1 exampleEndpointState
      exampleEndpointRecord).2.2.2.2.2.2.2.1 rfl⟩

/-- C6, as stated, fails: a Read of the Pod with identity "p1" whose remote call succeeds
with a record carrying no id writes a state whose id is the empty string, not "p1"; the
same holds for a network volume. -/
theorem read_takes_remote_id :
    (PodResource.Read (fun _ => .ok { Name := "web" }) { ID := .known "p1" }).State.map
        (fun s => s.ID) = some (.known "") ∧
    (PodResource.Read (fun _ => .ok { Name := "web" }) { ID := .known "p1" }).State.map
        (fun s => s.ID) ≠ some (.known "p1") ∧
    (NetworkVolumeResource.Read (fun _ => .ok { Name := "data" }) { ID := .known "v1" }).State.map
        (fun s => s.ID) = some (.known "") := by
  refine ⟨by decide, by decide, by decide⟩

/-- C6, amended. After a successful Read or Update of a Pod, an Endpoint or a
NetworkVolume the state written has the id carried by the remote record (so the id stays
`I` exactly when the record returned for `I` carries `I`; a record without id leaves the
empty id). -/
theorem id_follows_remote :
    (∀ (GetPod : String → Except String Pod) (state : PodResourceModel) (pod : Pod),
      GetPod state.ID.ValueString = .ok pod →
      ∃ s, (PodResource.Read GetPod state).State = some s ∧ s.ID = .known pod.ID) ∧
    (∀ (UpdatePod : String → PodUpdateInput → Except String Pod) (plan : PodResourceModel)
        (pod : Pod),
      HasError (PodResource.updateInput plan).1 = false →
      UpdatePod plan.ID.ValueString (PodResource.updateInput plan).2 = .ok pod →
      ∃ s, (PodResource.Update UpdatePod plan).State = some s ∧ s.ID = .known pod.ID) ∧
    (∀ (GetEndpoint : String → Except String Endpoint) (state : EndpointResourceModel)
        (endpoint : Endpoint),
      GetEndpoint state.ID.ValueString = .ok endpoint →
      ∃ s, (EndpointResource.Read GetEndpoint state).State = some s ∧
        s.ID = .known endpoint.ID) ∧
    (∀ (UpdateEndpoint : String → EndpointUpdateInput → Except String Endpoint)
        (plan : EndpointResourceModel) (endpoint : Endpoint),
      HasError (EndpointResource.updateInput plan).1 = false →
      UpdateEndpoint plan.ID.ValueString (EndpointResource.updateInput plan).2 = .ok endpoint →
      ∃ s, (EndpointResource.Update UpdateEndpoint plan).State = some s ∧
        s.ID = .known endpoint.ID) ∧
    (∀ (GetNetworkVolume : String → Except String NetworkVolume)
        (state : NetworkVolumeResourceModel) (volume : NetworkVolume),
      GetNetworkVolume state.ID.ValueString = .ok volume →
      ∃ s, (NetworkVolumeResource.Read GetNetworkVolume state).State = some s ∧
        s.ID = .known volume.ID) ∧
    (∀ (UpdateNetworkVolume : String → NetworkVolumeUpdateInput → Except String NetworkVolume)
        (plan : NetworkVolumeResourceModel) (volume : NetworkVolume),
      UpdateNetworkVolume plan.ID.ValueString
          { Name := plan.Name.ValueString, Size := plan.Size.toPtr 0 } = .ok volume →
      ∃ s, (NetworkVolumeResource.Update UpdateNetworkVolume plan).State = some s ∧
        s.ID = .known volume.ID) := by
  refine ⟨?_, ?_, ?_, ?_, ?_, ?_⟩
  · intro GetPod state pod h
    exact ⟨updateStateFromPod state pod, by simp [PodResource.Read, h], rfl⟩
  · intro UpdatePod plan pod hd h
    exact ⟨updateStateFromPod plan pod, by simp [PodResource.Update, hd, h], rfl⟩
  · intro GetEndpoint state endpoint h
    exact ⟨updateStateFromEndpoint state endpoint, by simp [EndpointResource.Read, h], rfl⟩
  · intro UpdateEndpoint plan endpoint hd h
    exact ⟨updateStateFromEndpoint plan endpoint,
      by simp [EndpointResource.Update, hd, h], rfl⟩
  · intro GetNetworkVolume state volume h
    exact ⟨NetworkVolumeResource.assign state volume,
      by simp [NetworkVolumeResource.Read, h], rfl⟩
  · intro UpdateNetworkVolume plan volume h
    exact ⟨NetworkVolumeResource.assign plan volume,
      by simp [NetworkVolumeResource.Update, h], rfl⟩

/-- C6, amended, at concrete inputs: a Pod Read whose record carries the id "p1", and a
network volume Update whose record carries the id "v1". -/
theorem id_follows_remote_witness :
    (∃ s, (PodResource.Read (fun id => .ok { ID := id, Name := "web" })
        { ID := .known "p1" }).State = some s ∧ s.ID = .known "p1") ∧
    (∃ s, (NetworkVolumeResource.Update (fun id _ => .ok { ID := id, Name := "data", Size := 10 })
        { ID := .known "v1", Name := .known "data", Size := .known 10 }).State = some s ∧
      s.ID = .known "v1") :=
  ⟨id_follows_remote.1 (fun id => .ok { ID := id, Name := "web" }) { ID := .known "p1" }
      { ID := "p1", Name := "web" } rfl,
   id_follows_remote.2.2.2.2.2 (fun id _ => .ok { ID := id, Name := "data", Size := 10 })
      { ID := .known "v1", Name := .known "data", Size := .known 10 }
      { ID := "v1", Name := "data", Size := 10 } rfl⟩

/-! ### Keys of a marshalled body -/

@[simp] theorem JsonObject.keys_append (a b : JsonObject) :
    JsonObject.keys (a ++ b) = JsonObject.keys a ++ JsonObject.keys b := by
  simp [JsonObject.keys]

@[simp] theorem mem_keys_omitemptyString (k key v : String) :
    k ∈ JsonObject.keys (omitemptyString key v) ↔ k = key ∧ v ≠ "" := by
  by_cases h : v = "" <;> simp [omitemptyString, JsonObject.keys, h]

@[simp] theorem mem_keys_omitemptyIntPtr (k key : String) (v : Option Int) :
    k ∈ JsonObject.keys (omitemptyIntPtr key v) ↔ k = key ∧ v ≠ none := by
  cases v <;> simp [omitemptyIntPtr, JsonObject.keys]

@[simp] theorem mem_keys_omitemptyBoolPtr (k key : String) (v : Option Bool) :
    k ∈ JsonObject.keys (omitemptyBoolPtr key v) ↔ k = key ∧ v ≠ none := by
  cases v <;> simp [omitemptyBoolPtr, JsonObject.keys]

@[simp] theorem mem_keys_omitemptyFloatPtr (k key : String) (v : Option Float64) :
    k ∈ JsonObject.keys (omitemptyFloatPtr key v) ↔ k = key ∧ v ≠ none := by
  cases v <;> simp [omitemptyFloatPtr, JsonObject.keys]

@[simp] theorem mem_keys_omitemptyList (k key : String) (v : List String) :
    k ∈ JsonObject.keys (omitemptyList key v) ↔ k = key ∧ v ≠ [] := by
  by_cases h : v = [] <;> simp [omitemptyList, JsonObject.keys, h]

@[simp] theorem mem_keys_omitemptyMap (k key : String) (v : List (String × String)) :
    k ∈ JsonObject.keys (omitemptyMap key v) ↔ k = key ∧ v ≠ [] := by
  by_cases h : v = [] <;> simp [omitemptyMap, JsonObject.keys, h]

@[simp] theorem mem_keys_plainString (k key v : String) :
    k ∈ JsonObject.keys (plainString key v) ↔ k = key := by
  simp [plainString, JsonObject.keys]

@[simp] theorem mem_keys_plainInt (k key : String) (v : Int) :
    k ∈ JsonObject.keys (plainInt key v) ↔ k = key := by
  simp [plainInt, JsonObject.keys]

/-- The keys of a marshalled `PodCreateInput`: one per field that is not empty. -/
theorem PodCreateInput.mem_keys (i : PodCreateInput) (k : String) :
    k ∈ i.Marshal.keys ↔
      (k = "name" ∧ i.Name ≠ "") ∨
      (k = "imageName" ∧ i.ImageName ≠ "") ∨
      (k = "computeType" ∧ i.ComputeType ≠ "") ∨
      (k = "cloudType" ∧ i.CloudType ≠ "") ∨
      (k = "gpuCount" ∧ i.GPUCount ≠ none) ∨
      (k = "vcpuCount" ∧ i.VCPUCount ≠ none) ∨
      (k = "gpuTypeIds" ∧ i.GPUTypeIds ≠ []) ∨
      (k = "cpuFlavorIds" ∧ i.CPUFlavorIds ≠ []) ∨
      (k = "dataCenterIds" ∧ i.DataCenterIds ≠ []) ∨
      (k = "containerDiskInGb" ∧ i.ContainerDiskInGb ≠ none) ∨
      (k = "volumeInGb" ∧ i.VolumeInGb ≠ none) ∨
      (k = "volumeMountPath" ∧ i.VolumeMountPath ≠ "") ∨
      (k = "ports" ∧ i.Ports ≠ []) ∨
      (k = "env" ∧ i.Env ≠ []) ∨
      (k = "dockerEntrypoint" ∧ i.DockerEntrypoint ≠ []) ∨
      (k = "dockerStartCmd" ∧ i.DockerStartCmd ≠ []) ∨
      (k = "templateId" ∧ i.TemplateId ≠ "") ∨
      (k = "networkVolumeId" ∧ i.NetworkVolumeId ≠ "") ∨
      (k = "interruptible" ∧ i.Interruptible ≠ none) ∨
      (k = "locked" ∧ i.Locked ≠ none) ∨
      (k = "minVCPUPerGPU" ∧ i.MinVCPUPerGPU ≠ none) ∨
      (k = "minRAMPerGPU" ∧ i.MinRAMPerGPU ≠ none) ∨
      (k = "minDownloadMbps" ∧ i.MinDownloadMbps ≠ none) ∨
      (k = "minUploadMbps" ∧ i.MinUploadMbps ≠ none) ∨
      (k = "minDiskBandwidthMBps" ∧ i.MinDiskBandwidthMBps ≠ none) ∨
      (k = "supportPublicIp" ∧ i.SupportPublicIp ≠ none) ∨
      (k = "globalNetworking" ∧ i.GlobalNetworking ≠ none) ∨
      (k = "allowedCudaVersions" ∧ i.AllowedCudaVersions ≠ []) ∨
      (k = "countryCodes" ∧ i.CountryCodes ≠ []) ∨
      (k = "gpuTypePriority" ∧ i.GPUTypePriority ≠ "") ∨
      (k = "cpuFlavorPriority" ∧ i.CPUFlavorPriority ≠ "") ∨
      (k = "dataCenterPriority" ∧ i.DataCenterPriority ≠ "") ∨
      (k = "containerRegistryAuthId" ∧ i.ContainerRegistryAuthId ≠ "") := by
  simp only [PodCreateInput.Marshal, JsonObject.keys_append, List.mem_append,
    mem_keys_omitemptyString, mem_keys_omitemptyIntPtr, mem_keys_omitemptyBoolPtr,
    mem_keys_omitemptyFloatPtr, mem_keys_omitemptyList, mem_keys_omitemptyMap, or_assoc]

@[simp] theorem TfValue.toPtr_null {α : Type} (z : α) : (TfValue.null : TfValue α).toPtr z = none :=
  rfl

@[simp] theorem TfValue.ValueString_null : (TfValue.null : TfString).ValueString = "" := rfl

@[simp] theorem listElements_null : listElements .null = ([], []) := rfl

@[simp] theorem mapElements_null : mapElements .null = ([], []) := rfl

/-- C7. Unset fields are never transmitted: for every plan, each attribute that is null has
no key in the body `PodResource.Create` marshals for the create call; and the plan with
gpu_count = 1, ports = ["8080/http"] and everything else null builds without diagnostics
the body with the two members gpuCount 1 and ports ["8080/http"], whose text is
`{"gpuCount":1,"ports":["8080/http"]}`. -/
theorem create_payload_omits_unset :
    (∀ data : PodResourceModel,
      (data.Name = .null →
        "name" ∉ (PodResource.createInput data).2.Marshal.keys) ∧
      (data.ImageName = .null →
        "imageName" ∉ (PodResource.createInput data).2.Marshal.keys) ∧
      (data.ComputeType = .null →
        "computeType" ∉ (PodResource.createInput data).2.Marshal.keys) ∧
      (data.CloudType = .null →
        "cloudType" ∉ (PodResource.createInput data).2.Marshal.keys) ∧
      (data.GPUCount = .null →
        "gpuCount" ∉ (PodResource.createInput data).2.Marshal.keys) ∧
      (data.VCPUCount = .null →
        "vcpuCount" ∉ (PodResource.createInput data).2.Marshal.keys) ∧
      (data.GPUTypeIds = .null →
        "gpuTypeIds" ∉ (PodResource.createInput data).2.Marshal.keys) ∧
      (data.CPUFlavorIds = .null →
        "cpuFlavorIds" ∉ (PodResource.createInput data).2.Marshal.keys) ∧
      (data.DataCenterIds = .null →
        "dataCenterIds" ∉ (PodResource.createInput data).2.Marshal.keys) ∧
      (data.ContainerDiskInGb = .null →
        "containerDiskInGb" ∉ (PodResource.createInput data).2.Marshal.keys) ∧
      (data.VolumeInGb = .null →
        "volumeInGb" ∉ (PodResource.createInput data).2.Marshal.keys) ∧
      (data.VolumeMountPath = .null →
        "volumeMountPath" ∉ (PodResource.createInput data).2.Marshal.keys) ∧
      (data.Ports = .null →
        "ports" ∉ (PodResource.createInput data).2.Marshal.keys) ∧
      (data.Env = .null →
        "env" ∉ (PodResource.createInput data).2.Marshal.keys) ∧
      (data.DockerEntrypoint = .null →
        "dockerEntrypoint" ∉ (PodResource.createInput data).2.Marshal.keys) ∧
      (data.DockerStartCmd = .null →
        "dockerStartCmd" ∉ (PodResource.createInput data).2.Marshal.keys) ∧
      (data.TemplateId = .null →
        "templateId" ∉ (PodResource.createInput data).2.Marshal.keys) ∧
      (data.NetworkVolumeId = .null →
        "networkVolumeId" ∉ (PodResource.createInput data).2.Marshal.keys) ∧
      (data.Interruptible = .null →
        "interruptible" ∉ (PodResource.createInput data).2.Marshal.keys) ∧
      (data.Locked = .null →
        "locked" ∉ (PodResource.createInput data).2.Marshal.keys) ∧
      (data.MinVCPUPerGPU = .null →
        "minVCPUPerGPU" ∉ (PodResource.createInput data).2.Marshal.keys) ∧
      (data.MinRAMPerGPU = .null →
        "minRAMPerGPU" ∉ (PodResource.createInput data).2.Marshal.keys) ∧
      (data.MinDownloadMbps = .null →
        "minDownloadMbps" ∉ (PodResource.createInput data).2.Marshal.keys) ∧
      (data.MinUploadMbps = .null →
        "minUploadMbps" ∉ (PodResource.createInput data).2.Marshal.keys) ∧
      (data.MinDiskBandwidthMBps = .null →
        "minDiskBandwidthMBps" ∉ (PodResource.createInput data).2.Marshal.keys) ∧
      (data.SupportPublicIp = .null →
        "supportPublicIp" ∉ (PodResource.createInput data).2.Marshal.keys) ∧
      (data.GlobalNetworking = .null →
        "globalNetworking" ∉ (PodResource.createInput data).2.Marshal.keys) ∧
      (data.AllowedCudaVersions = .null →
        "allowedCudaVersions" ∉ (PodResource.createInput data).2.Marshal.keys) ∧
      (data.CountryCodes = .null →
        "countryCodes" ∉ (PodResource.createInput data).2.Marshal.keys) ∧
      (data.GPUTypePriority = .null →
        "gpuTypePriority" ∉ (PodResource.createInput data).2.Marshal.keys) ∧
      (data.CPUFlavorPriority = .null →
        "cpuFlavorPriority" ∉ (PodResource.createInput data).2.Marshal.keys) ∧
      (data.DataCenterPriority = .null →
        "dataCenterPriority" ∉ (PodResource.createInput data).2.Marshal.keys) ∧
      (data.ContainerRegistryAuthId = .null →
        "containerRegistryAuthId" ∉ (PodResource.createInput data).2.Marshal.keys)) ∧
    (PodResource.createInput
      { GPUCount := .known 1, Ports := .known [.known "8080/http"] }).1 = [] ∧
    (PodResource.createInput
      { GPUCount := .known 1, Ports := .known [.known "8080/http"] }).2.Marshal
      = [("gpuCount", .int 1), ("ports", .strList ["8080/http"])] ∧
    renderObject (PodResource.createInput
      { GPUCount := .known 1, Ports := .known [.known "8080/http"] }).2.Marshal
      = some "\x7b\"gpuCount\":1,\"ports\":[\"8080/http\"]\x7d" := by
  refine ⟨?_, by decide, by decide, by decide⟩
  intro data
  refine ⟨?_, ?_, ?_, ?_, ?_, ?_, ?_, ?_, ?_, ?_, ?_, ?_, ?_, ?_, ?_, ?_, ?_, ?_, ?_, ?_, ?_, ?_, ?_, ?_, ?_, ?_, ?_, ?_, ?_, ?_, ?_, ?_, ?_⟩ <;> intro h <;>
    simp [PodCreateInput.mem_keys, PodResource.createInput, h]

/-- C7 at a concrete plan: image_name is null in the plan that sets gpu_count and ports, and
the body has no `imageName` key. -/
theorem create_payload_omits_unset_witness :
    "imageName" ∉ (PodResource.createInput
      { GPUCount := .known 1, Ports := .known [.known "8080/http"] }).2.Marshal.keys :=
  (create_payload_omits_unset.1
    { GPUCount := .known 1, Ports := .known [.known "8080/http"] }).2.1 rfl

/-! ### Members of a marshalled body -/

theorem lookup_single_ne (k key : String) (v : JsonValue) (h : k ≠ key) :
    List.lookup k [(key, v)] = none := by
  have hb : (k == key) = false := by simpa using h
  simp [List.lookup, hb]

theorem lookup_single_self (key : String) (v : JsonValue) :
    List.lookup key [(key, v)] = some v := by
  simp [List.lookup]

theorem lookup_omitemptyString_ne (k key v : String) (h : k ≠ key) :
    (omitemptyString key v).lookup k = none := by
  unfold omitemptyString
  split
  · rfl
  · exact lookup_single_ne k key _ h

theorem lookup_plainString_ne (k key v : String) (h : k ≠ key) :
    (plainString key v).lookup k = none :=
  lookup_single_ne k key _ h

theorem lookup_omitemptyList_ne (k key : String) (v : List String) (h : k ≠ key) :
    (omitemptyList key v).lookup k = none := by
  unfold omitemptyList
  split
  · rfl
  · exact lookup_single_ne k key _ h

theorem lookup_omitemptyIntPtr_ne (k key : String) (v : Option Int) (h : k ≠ key) :
    (omitemptyIntPtr key v).lookup k = none := by
  cases v with
  | none => rfl
  | some n => exact lookup_single_ne k key _ h

theorem lookup_omitemptyBoolPtr_ne (k key : String) (v : Option Bool) (h : k ≠ key) :
    (omitemptyBoolPtr key v).lookup k = none := by
  cases v with
  | none => rfl
  | some n => exact lookup_single_ne k key _ h

theorem lookup_omitemptyIntPtr_self (key : String) (n : Int) :
    (omitemptyIntPtr key (some n)).lookup key = some (.int n) :=
  lookup_single_self key _

theorem lookup_omitemptyBoolPtr_self (key : String) (b : Bool) :
    (omitemptyBoolPtr key (some b)).lookup key = some (.bool b) :=
  lookup_single_self key _

theorem mem_omitemptyString (m : String × JsonValue) (key v : String) :
    m ∈ omitemptyString key v ↔ v ≠ "" ∧ m = (key, .str v) := by
  by_cases h : v = "" <;> simp [omitemptyString, h]

theorem mem_plainString (m : String × JsonValue) (key v : String) :
    m ∈ plainString key v ↔ m = (key, .str v) := by
  simp [plainString]

theorem mem_omitemptyList (m : String × JsonValue) (key : String) (v : List String) :
    m ∈ omitemptyList key v ↔ v ≠ [] ∧ m = (key, .strList v) := by
  by_cases h : v = [] <;> simp [omitemptyList, h]

theorem mem_omitemptyIntPtr (m : String × JsonValue) (key : String) (v : Option Int) :
    m ∈ omitemptyIntPtr key v ↔ ∃ n, v = some n ∧ m = (key, .int n) := by
  cases v <;> simp [omitemptyIntPtr]

theorem mem_omitemptyBoolPtr (m : String × JsonValue) (key : String) (v : Option Bool) :
    m ∈ omitemptyBoolPtr key v ↔ ∃ b, v = some b ∧ m = (key, .bool b) := by
  cases v <;> simp [omitemptyBoolPtr]

/-- C8. Explicit zero values are sent verbatim: when an integer attribute of the Endpoint
plan (gpu_count, vcpu_count, workers_min, workers_max, idle_timeout, execution_timeout_ms,
scaler_value) is set to `v`, zero included, or flashboot is set to `b`, false included, the
bodies marshalled for the create call and for the update call hold the attribute's key with
exactly that value, and no member with that key and another value. -/
theorem endpoint_payload_sends_set_values (data : EndpointResourceModel) :
    (∀ v : Int, data.GPUCount = .known v →
      (EndpointResource.createInput data).2.Marshal.lookup "gpuCount" = some (.int v) ∧
      (EndpointResource.updateInput data).2.Marshal.lookup "gpuCount" = some (.int v) ∧
      (∀ x, ("gpuCount", x) ∈ (EndpointResource.createInput data).2.Marshal → x = .int v) ∧
      (∀ x, ("gpuCount", x) ∈ (EndpointResource.updateInput data).2.Marshal → x = .int v)) ∧
    (∀ v : Int, data.VCPUCount = .known v →
      (EndpointResource.createInput data).2.Marshal.lookup "vcpuCount" = some (.int v) ∧
      (EndpointResource.updateInput data).2.Marshal.lookup "vcpuCount" = some (.int v) ∧
      (∀ x, ("vcpuCount", x) ∈ (EndpointResource.createInput data).2.Marshal → x = .int v) ∧
      (∀ x, ("vcpuCount", x) ∈ (EndpointResource.updateInput data).2.Marshal → x = .int v)) ∧
    (∀ v : Int, data.WorkersMin = .known v →
      (EndpointResource.createInput data).2.Marshal.lookup "workersMin" = some (.int v) ∧
      (EndpointResource.updateInput data).2.Marshal.lookup "workersMin" = some (.int v) ∧
      (∀ x, ("workersMin", x) ∈ (EndpointResource.createInput data).2.Marshal → x = .int v) ∧
      (∀ x, ("workersMin", x) ∈ (EndpointResource.updateInput data).2.Marshal → x = .int v)) ∧
    (∀ v : Int, data.WorkersMax = .known v →
      (EndpointResource.createInput data).2.Marshal.lookup "workersMax" = some (.int v) ∧
      (EndpointResource.updateInput data).2.Marshal.lookup "workersMax" = some (.int v) ∧
      (∀ x, ("workersMax", x) ∈ (EndpointResource.createInput data).2.Marshal → x = .int v) ∧
      (∀ x, ("workersMax", x) ∈ (EndpointResource.updateInput data).2.Marshal → x = .int v)) ∧
    (∀ v : Int, data.IdleTimeout = .known v →
      (EndpointResource.createInput data).2.Marshal.lookup "idleTimeout" = some (.int v) ∧
      (EndpointResource.updateInput data).2.Marshal.lookup "idleTimeout" = some (.int v) ∧
      (∀ x, ("idleTimeout", x) ∈ (EndpointResource.createInput data).2.Marshal → x = .int v) ∧
      (∀ x, ("idleTimeout", x) ∈ (EndpointResource.updateInput data).2.Marshal → x = .int v)) ∧
    (∀ v : Int, data.ExecutionTimeoutMs = .known v →
      (EndpointResource.createInput data).2.Marshal.lookup "executionTimeoutMs" = some (.int v) ∧
      (EndpointResource.updateInput data).2.Marshal.lookup "executionTimeoutMs" = some (.int v) ∧
      (∀ x, ("executionTimeoutMs", x) ∈ (EndpointResource.createInput data).2.Marshal → x = .int v) ∧
      (∀ x, ("executionTimeoutMs", x) ∈ (EndpointResource.updateInput data).2.Marshal → x = .int v)) ∧
    (∀ v : Int, data.ScalerValue = .known v →
      (EndpointResource.createInput data).2.Marshal.lookup "scalerValue" = some (.int v) ∧
      (EndpointResource.updateInput data).2.Marshal.lookup "scalerValue" = some (.int v) ∧
      (∀ x, ("scalerValue", x) ∈ (EndpointResource.createInput data).2.Marshal → x = .int v) ∧
      (∀ x, ("scalerValue", x) ∈ (EndpointResource.updateInput data).2.Marshal → x = .int v)) ∧
    (∀ v : Bool, data.Flashboot = .known v →
      (EndpointResource.createInput data).2.Marshal.lookup "flashboot" = some (.bool v) ∧
      (EndpointResource.updateInput data).2.Marshal.lookup "flashboot" = some (.bool v) ∧
      (∀ x, ("flashboot", x) ∈ (EndpointResource.createInput data).2.Marshal → x = .bool v) ∧
      (∀ x, ("flashboot", x) ∈ (EndpointResource.updateInput data).2.Marshal → x = .bool v)) := by
  refine ⟨?_, ?_, ?_, ?_, ?_, ?_, ?_, ?_⟩ <;> intro v h <;> refine ⟨?_, ?_, ?_, ?_⟩ <;>
    simp [EndpointResource.createInput, EndpointResource.updateInput,
      EndpointCreateInput.Marshal, EndpointUpdateInput.Marshal, List.lookup_append, h,
      TfValue.toPtr, lookup_omitemptyString_ne, lookup_plainString_ne, lookup_omitemptyList_ne,
      lookup_omitemptyIntPtr_ne, lookup_omitemptyBoolPtr_ne, lookup_omitemptyIntPtr_self,
      lookup_omitemptyBoolPtr_self, mem_omitemptyString, mem_plainString, mem_omitemptyList,
      mem_omitemptyIntPtr, mem_omitemptyBoolPtr]

/-- C8 at a concrete plan: workers_min = 0 and flashboot = false are in the create body. -/
theorem endpoint_payload_sends_set_values_witness :
    (EndpointResource.createInput
      { TemplateId := .known "tpl-1", WorkersMin := .known 0, Flashboot := .known false }).2.Marshal
      = [("templateId", .str "tpl-1"), ("workersMin", .int 0), ("flashboot", .bool false)] ∧
    (EndpointResource.createInput
      { TemplateId := .known "tpl-1", WorkersMin := .known 0, Flashboot := .known false }
      ).2.Marshal.lookup "workersMin" = some (.int 0) ∧
    (EndpointResource.updateInput
      { TemplateId := .known "tpl-1", WorkersMin := .known 0, Flashboot := .known false }
      ).2.Marshal.lookup "flashboot" = some (.bool false) :=
  ⟨by decide,
   ((endpoint_payload_sends_set_values
      { TemplateId := .known "tpl-1", WorkersMin := .known 0, Flashboot := .known false }
      ).2.2.1 0 rfl).1,
   ((endpoint_payload_sends_set_values
      { TemplateId := .known "tpl-1", WorkersMin := .known 0, Flashboot := .known false }
      ).2.2.2.2.2.2.2 false rfl).2.1⟩

theorem TfValue.toPtr_ne_none {α : Type} (z : α) (v : TfValue α) :
    v.toPtr z ≠ none ↔ v ≠ .null := by
  cases v <;> simp [TfValue.toPtr]

/-- The keys of the body built from a plan, attribute by attribute. -/
theorem PodResource.createInput_keys (data : PodResourceModel) :
    ("name" ∈ (PodResource.createInput data).2.Marshal.keys ↔ data.Name.ValueString ≠ "") ∧
    ("imageName" ∈ (PodResource.createInput data).2.Marshal.keys ↔ data.ImageName.ValueString ≠ "") ∧
    ("computeType" ∈ (PodResource.createInput data).2.Marshal.keys ↔ data.ComputeType.ValueString ≠ "") ∧
    ("cloudType" ∈ (PodResource.createInput data).2.Marshal.keys ↔ data.CloudType.ValueString ≠ "") ∧
    ("gpuCount" ∈ (PodResource.createInput data).2.Marshal.keys ↔ data.GPUCount ≠ .null) ∧
    ("vcpuCount" ∈ (PodResource.createInput data).2.Marshal.keys ↔ data.VCPUCount ≠ .null) ∧
    ("gpuTypeIds" ∈ (PodResource.createInput data).2.Marshal.keys ↔ (listElements data.GPUTypeIds).2 ≠ []) ∧
    ("cpuFlavorIds" ∈ (PodResource.createInput data).2.Marshal.keys ↔ (listElements data.CPUFlavorIds).2 ≠ []) ∧
    ("dataCenterIds" ∈ (PodResource.createInput data).2.Marshal.keys ↔ (listElements data.DataCenterIds).2 ≠ []) ∧
    ("containerDiskInGb" ∈ (PodResource.createInput data).2.Marshal.keys ↔ data.ContainerDiskInGb ≠ .null) ∧
    ("volumeInGb" ∈ (PodResource.createInput data).2.Marshal.keys ↔ data.VolumeInGb ≠ .null) ∧
    ("volumeMountPath" ∈ (PodResource.createInput data).2.Marshal.keys ↔ data.VolumeMountPath.ValueString ≠ "") ∧
    ("ports" ∈ (PodResource.createInput data).2.Marshal.keys ↔ (listElements data.Ports).2 ≠ []) ∧
    ("env" ∈ (PodResource.createInput data).2.Marshal.keys ↔ (mapElements data.Env).2 ≠ []) ∧
    ("dockerEntrypoint" ∈ (PodResource.createInput data).2.Marshal.keys ↔ (listElements data.DockerEntrypoint).2 ≠ []) ∧
    ("dockerStartCmd" ∈ (PodResource.createInput data).2.Marshal.keys ↔ (listElements data.DockerStartCmd).2 ≠ []) ∧
    ("templateId" ∈ (PodResource.createInput data).2.Marshal.keys ↔ data.TemplateId.ValueString ≠ "") ∧
    ("networkVolumeId" ∈ (PodResource.createInput data).2.Marshal.keys ↔ data.NetworkVolumeId.ValueString ≠ "") ∧
    ("interruptible" ∈ (PodResource.createInput data).2.Marshal.keys ↔ data.Interruptible ≠ .null) ∧
    ("locked" ∈ (PodResource.createInput data).2.Marshal.keys ↔ data.Locked ≠ .null) ∧
    ("minVCPUPerGPU" ∈ (PodResource.createInput data).2.Marshal.keys ↔ data.MinVCPUPerGPU ≠ .null) ∧
    ("minRAMPerGPU" ∈ (PodResource.createInput data).2.Marshal.keys ↔ data.MinRAMPerGPU ≠ .null) ∧
    ("minDownloadMbps" ∈ (PodResource.createInput data).2.Marshal.keys ↔ data.MinDownloadMbps ≠ .null) ∧
    ("minUploadMbps" ∈ (PodResource.createInput data).2.Marshal.keys ↔ data.MinUploadMbps ≠ .null) ∧
    ("minDiskBandwidthMBps" ∈ (PodResource.createInput data).2.Marshal.keys ↔ data.MinDiskBandwidthMBps ≠ .null) ∧
    ("supportPublicIp" ∈ (PodResource.createInput data).2.Marshal.keys ↔ data.SupportPublicIp ≠ .null) ∧
    ("globalNetworking" ∈ (PodResource.createInput data).2.Marshal.keys ↔ data.GlobalNetworking ≠ .null) ∧
    ("allowedCudaVersions" ∈ (PodResource.createInput data).2.Marshal.keys ↔ (listElements data.AllowedCudaVersions).2 ≠ []) ∧
    ("countryCodes" ∈ (PodResource.createInput data).2.Marshal.keys ↔ (listElements data.CountryCodes).2 ≠ []) ∧
    ("gpuTypePriority" ∈ (PodResource.createInput data).2.Marshal.keys ↔ data.GPUTypePriority.ValueString ≠ "") ∧
    ("cpuFlavorPriority" ∈ (PodResource.createInput data).2.Marshal.keys ↔ data.CPUFlavorPriority.ValueString ≠ "") ∧
    ("dataCenterPriority" ∈ (PodResource.createInput data).2.Marshal.keys ↔ data.DataCenterPriority.ValueString ≠ "") ∧
    ("containerRegistryAuthId" ∈ (PodResource.createInput data).2.Marshal.keys ↔ data.ContainerRegistryAuthId.ValueString ≠ "") := by
  refine ⟨?_, ?_, ?_, ?_, ?_, ?_, ?_, ?_, ?_, ?_, ?_, ?_, ?_, ?_, ?_, ?_, ?_, ?_, ?_, ?_, ?_, ?_, ?_, ?_, ?_, ?_, ?_, ?_, ?_, ?_, ?_, ?_, ?_⟩ <;>
    simp [PodCreateInput.mem_keys, PodResource.createInput, TfValue.toPtr_ne_none]

/-- Two attributes whose non-nullness is equivalent to the same key being present are null
together. -/
theorem null_iff_of_key {α β : Type} {K : List String} {k : String} {v1 : TfValue α}
    {v2 : TfValue β} (h1 : k ∈ K ↔ v1 ≠ .null) (h2 : k ∈ K ↔ v2 ≠ .null) :
    v1 = .null ↔ v2 = .null := by
  rw [← not_iff_not]
  exact h1.symm.trans h2

/-- C9, as stated, fails: a plan whose name is set to the empty string, one whose ports are
set to the empty list and one whose env is set to the empty map build, without diagnostics,
the same body as the plan in which the attribute is unset, and that body has no `name`,
`ports` or `env` key. -/
theorem empty_value_encodes_as_unset :
    (PodResource.createInput { Name := .known "" }).2.Marshal
      = (PodResource.createInput {}).2.Marshal ∧
    (PodResource.createInput { Ports := .known [] }).2.Marshal
      = (PodResource.createInput {}).2.Marshal ∧
    (PodResource.createInput { Env := .known [] }).2.Marshal
      = (PodResource.createInput {}).2.Marshal ∧
    (PodResource.createInput { Name := .known "" }).1 = [] ∧
    (PodResource.createInput { Ports := .known [] }).1 = [] ∧
    (PodResource.createInput { Env := .known [] }).1 = [] ∧
    (PodResource.createInput {}).1 = [] ∧
    "name" ∉ (PodResource.createInput { Name := .known "" }).2.Marshal.keys ∧
    "ports" ∉ (PodResource.createInput { Ports := .known [] }).2.Marshal.keys ∧
    "env" ∉ (PodResource.createInput { Env := .known [] }).2.Marshal.keys := by
  refine ⟨by decide, by decide, by decide, by decide, by decide, by decide, by decide,
    by decide, by decide, by decide⟩

/-- C9, amended. In the body built from a Pod plan, the key of an integer, boolean or float
attribute is present exactly when the attribute is not null (a zero or false is sent, and
two plans with the same keys have the same null pattern on these attributes); the key of a
string, list or map attribute is present exactly when its value is not empty. -/
theorem create_payload_presence (data : PodResourceModel) :
    (("name" ∈ (PodResource.createInput data).2.Marshal.keys ↔ data.Name.ValueString ≠ "") ∧
    ("imageName" ∈ (PodResource.createInput data).2.Marshal.keys ↔ data.ImageName.ValueString ≠ "") ∧
    ("computeType" ∈ (PodResource.createInput data).2.Marshal.keys ↔ data.ComputeType.ValueString ≠ "") ∧
    ("cloudType" ∈ (PodResource.createInput data).2.Marshal.keys ↔ data.CloudType.ValueString ≠ "") ∧
    ("gpuCount" ∈ (PodResource.createInput data).2.Marshal.keys ↔ data.GPUCount ≠ .null) ∧
    ("vcpuCount" ∈ (PodResource.createInput data).2.Marshal.keys ↔ data.VCPUCount ≠ .null) ∧
    ("gpuTypeIds" ∈ (PodResource.createInput data).2.Marshal.keys ↔ (listElements data.GPUTypeIds).2 ≠ []) ∧
    ("cpuFlavorIds" ∈ (PodResource.createInput data).2.Marshal.keys ↔ (listElements data.CPUFlavorIds).2 ≠ []) ∧
    ("dataCenterIds" ∈ (PodResource.createInput data).2.Marshal.keys ↔ (listElements data.DataCenterIds).2 ≠ []) ∧
    ("containerDiskInGb" ∈ (PodResource.createInput data).2.Marshal.keys ↔ data.ContainerDiskInGb ≠ .null) ∧
    ("volumeInGb" ∈ (PodResource.createInput data).2.Marshal.keys ↔ data.VolumeInGb ≠ .null) ∧
    ("volumeMountPath" ∈ (PodResource.createInput data).2.Marshal.keys ↔ data.VolumeMountPath.ValueString ≠ "") ∧
    ("ports" ∈ (PodResource.createInput data).2.Marshal.keys ↔ (listElements data.Ports).2 ≠ []) ∧
    ("env" ∈ (PodResource.createInput data).2.Marshal.keys ↔ (mapElements data.Env).2 ≠ []) ∧
    ("dockerEntrypoint" ∈ (PodResource.createInput data).2.Marshal.keys ↔ (listElements data.DockerEntrypoint).2 ≠ []) ∧
    ("dockerStartCmd" ∈ (PodResource.createInput data).2.Marshal.keys ↔ (listElements data.DockerStartCmd).2 ≠ []) ∧
    ("templateId" ∈ (PodResource.createInput data).2.Marshal.keys ↔ data.TemplateId.ValueString ≠ "") ∧
    ("networkVolumeId" ∈ (PodResource.createInput data).2.Marshal.keys ↔ data.NetworkVolumeId.ValueString ≠ "") ∧
    ("interruptible" ∈ (PodResource.createInput data).2.Marshal.keys ↔ data.Interruptible ≠ .null) ∧
    ("locked" ∈ (PodResource.createInput data).2.Marshal.keys ↔ data.Locked ≠ .null) ∧
    ("minVCPUPerGPU" ∈ (PodResource.createInput data).2.Marshal.keys ↔ data.MinVCPUPerGPU ≠ .null) ∧
    ("minRAMPerGPU" ∈ (PodResource.createInput data).2.Marshal.keys ↔ data.MinRAMPerGPU ≠ .null) ∧
    ("minDownloadMbps" ∈ (PodResource.createInput data).2.Marshal.keys ↔ data.MinDownloadMbps ≠ .null) ∧
    ("minUploadMbps" ∈ (PodResource.createInput data).2.Marshal.keys ↔ data.MinUploadMbps ≠ .null) ∧
    ("minDiskBandwidthMBps" ∈ (PodResource.createInput data).2.Marshal.keys ↔ data.MinDiskBandwidthMBps ≠ .null) ∧
    ("supportPublicIp" ∈ (PodResource.createInput data).2.Marshal.keys ↔ data.SupportPublicIp ≠ .null) ∧
    ("globalNetworking" ∈ (PodResource.createInput data).2.Marshal.keys ↔ data.GlobalNetworking ≠ .null) ∧
    ("allowedCudaVersions" ∈ (PodResource.createInput data).2.Marshal.keys ↔ (listElements data.AllowedCudaVersions).2 ≠ []) ∧
    ("countryCodes" ∈ (PodResource.createInput data).2.Marshal.keys ↔ (listElements data.CountryCodes).2 ≠ []) ∧
    ("gpuTypePriority" ∈ (PodResource.createInput data).2.Marshal.keys ↔ data.GPUTypePriority.ValueString ≠ "") ∧
    ("cpuFlavorPriority" ∈ (PodResource.createInput data).2.Marshal.keys ↔ data.CPUFlavorPriority.ValueString ≠ "") ∧
    ("dataCenterPriority" ∈ (PodResource.createInput data).2.Marshal.keys ↔ data.DataCenterPriority.ValueString ≠ "") ∧
    ("containerRegistryAuthId" ∈ (PodResource.createInput data).2.Marshal.keys ↔ data.ContainerRegistryAuthId.ValueString ≠ "")) ∧
    (∀ d1 d2 : PodResourceModel,
      (PodResource.createInput d1).2.Marshal.keys = (PodResource.createInput d2).2.Marshal.keys →
      (d1.GPUCount = .null ↔ d2.GPUCount = .null) ∧
      (d1.VCPUCount = .null ↔ d2.VCPUCount = .null) ∧
      (d1.ContainerDiskInGb = .null ↔ d2.ContainerDiskInGb = .null) ∧
      (d1.VolumeInGb = .null ↔ d2.VolumeInGb = .null) ∧
      (d1.Interruptible = .null ↔ d2.Interruptible = .null) ∧
      (d1.Locked = .null ↔ d2.Locked = .null) ∧
      (d1.MinVCPUPerGPU = .null ↔ d2.MinVCPUPerGPU = .null) ∧
      (d1.MinRAMPerGPU = .null ↔ d2.MinRAMPerGPU = .null) ∧
      (d1.MinDownloadMbps = .null ↔ d2.MinDownloadMbps = .null) ∧
      (d1.MinUploadMbps = .null ↔ d2.MinUploadMbps = .null) ∧
      (d1.MinDiskBandwidthMBps = .null ↔ d2.MinDiskBandwidthMBps = .null) ∧
      (d1.SupportPublicIp = .null ↔ d2.SupportPublicIp = .null) ∧
      (d1.GlobalNetworking = .null ↔ d2.GlobalNetworking = .null)) := by
  refine ⟨PodResource.createInput_keys data, ?_⟩
  intro d1 d2 h
  have h1 := PodResource.createInput_keys d1
  have h2 := PodResource.createInput_keys d2
  rw [h] at h1
  exact ⟨null_iff_of_key (h1.2.2.2.2.1) (h2.2.2.2.2.1),
    null_iff_of_key (h1.2.2.2.2.2.1) (h2.2.2.2.2.2.1),
    null_iff_of_key (h1.2.2.2.2.2.2.2.2.2.1) (h2.2.2.2.2.2.2.2.2.2.1),
    null_iff_of_key (h1.2.2.2.2.2.2.2.2.2.2.1) (h2.2.2.2.2.2.2.2.2.2.2.1),
    null_iff_of_key (h1.2.2.2.2.2.2.2.2.2.2.2.2.2.2.2.2.2.2.1) (h2.2.2.2.2.2.2.2.2.2.2.2.2.2.2.2.2.2.2.1),
    null_iff_of_key (h1.2.2.2.2.2.2.2.2.2.2.2.2.2.2.2.2.2.2.2.1) (h2.2.2.2.2.2.2.2.2.2.2.2.2.2.2.2.2.2.2.2.1),
    null_iff_of_key (h1.2.2.2.2.2.2.2.2.2.2.2.2.2.2.2.2.2.2.2.2.1) (h2.2.2.2.2.2.2.2.2.2.2.2.2.2.2.2.2.2.2.2.2.1),
    null_iff_of_key (h1.2.2.2.2.2.2.2.2.2.2.2.2.2.2.2.2.2.2.2.2.2.1) (h2.2.2.2.2.2.2.2.2.2.2.2.2.2.2.2.2.2.2.2.2.2.1),
    null_iff_of_key (h1.2.2.2.2.2.2.2.2.2.2.2.2.2.2.2.2.2.2.2.2.2.2.1) (h2.2.2.2.2.2.2.2.2.2.2.2.2.2.2.2.2.2.2.2.2.2.2.1),
    null_iff_of_key (h1.2.2.2.2.2.2.2.2.2.2.2.2.2.2.2.2.2.2.2.2.2.2.2.1) (h2.2.2.2.2.2.2.2.2.2.2.2.2.2.2.2.2.2.2.2.2.2.2.2.1),
    null_iff_of_key (h1.2.2.2.2.2.2.2.2.2.2.2.2.2.2.2.2.2.2.2.2.2.2.2.2.1) (h2.2.2.2.2.2.2.2.2.2.2.2.2.2.2.2.2.2.2.2.2.2.2.2.2.1),
    null_iff_of_key (h1.2.2.2.2.2.2.2.2.2.2.2.2.2.2.2.2.2.2.2.2.2.2.2.2.2.1) (h2.2.2.2.2.2.2.2.2.2.2.2.2.2.2.2.2.2.2.2.2.2.2.2.2.2.1),
    null_iff_of_key (h1.2.2.2.2.2.2.2.2.2.2.2.2.2.2.2.2.2.2.2.2.2.2.2.2.2.2.1) (h2.2.2.2.2.2.2.2.2.2.2.2.2.2.2.2.2.2.2.2.2.2.2.2.2.2.2.1)⟩

/-- C9, amended, at concrete plans: gpu_count = 0 puts the key in the body, and the plans
with gpu_count = 0 and gpu_count = 5 have the same keys and the same null pattern. -/
theorem create_payload_presence_witness :
    ("gpuCount" ∈ (PodResource.createInput { GPUCount := .known 0 }).2.Marshal.keys ↔
      ({ GPUCount := .known 0 } : PodResourceModel).GPUCount ≠ .null) ∧
    (({ GPUCount := .known 0 } : PodResourceModel).GPUCount = .null ↔
      ({ GPUCount := .known 5 } : PodResourceModel).GPUCount = .null) :=
  ⟨(create_payload_presence { GPUCount := .known 0 }).1.2.2.2.2.1,
   ((create_payload_presence {}).2 { GPUCount := .known 0 } { GPUCount := .known 5 }
      (by decide)).1⟩

/-- C10. Fields the remote response does not echo are preserved from the request:
`updateStateFromPod` takes id and name from the remote record and leaves ports, gpu_count
and every other attribute it does not assign as they were; and Create with the plan
gpu_count = 1, ports = ["8080/http"], answered by the record id "p1", name "my pod",
gpuCount 1, writes the state with id "p1", name "my pod", gpu_count 1 and ports
["8080/http"]. -/
theorem updateStateFromPod_frame :
    (∀ (data : PodResourceModel) (pod : Pod),
      (updateStateFromPod data pod).ID = .known pod.ID ∧
      (updateStateFromPod data pod).Name = .known pod.Name ∧
      (updateStateFromPod data pod).ComputeType = data.ComputeType ∧
      (updateStateFromPod data pod).CloudType = data.CloudType ∧
      (updateStateFromPod data pod).GPUCount = data.GPUCount ∧
      (updateStateFromPod data pod).VCPUCount = data.VCPUCount ∧
      (updateStateFromPod data pod).GPUTypeIds = data.GPUTypeIds ∧
      (updateStateFromPod data pod).CPUFlavorIds = data.CPUFlavorIds ∧
      (updateStateFromPod data pod).DataCenterIds = data.DataCenterIds ∧
      (updateStateFromPod data pod).Ports = data.Ports ∧
      (updateStateFromPod data pod).Env = data.Env ∧
      (updateStateFromPod data pod).DockerEntrypoint = data.DockerEntrypoint ∧
      (updateStateFromPod data pod).DockerStartCmd = data.DockerStartCmd ∧
      (updateStateFromPod data pod).TemplateId = data.TemplateId ∧
      (updateStateFromPod data pod).NetworkVolumeId = data.NetworkVolumeId ∧
      (updateStateFromPod data pod).Interruptible = data.Interruptible ∧
      (updateStateFromPod data pod).Locked = data.Locked ∧
      (updateStateFromPod data pod).MinVCPUPerGPU = data.MinVCPUPerGPU ∧
      (updateStateFromPod data pod).MinRAMPerGPU = data.MinRAMPerGPU ∧
      (updateStateFromPod data pod).MinDownloadMbps = data.MinDownloadMbps ∧
      (updateStateFromPod data pod).MinUploadMbps = data.MinUploadMbps ∧
      (updateStateFromPod data pod).MinDiskBandwidthMBps = data.MinDiskBandwidthMBps ∧
      (updateStateFromPod data pod).SupportPublicIp = data.SupportPublicIp ∧
      (updateStateFromPod data pod).GlobalNetworking = data.GlobalNetworking ∧
      (updateStateFromPod data pod).AllowedCudaVersions = data.AllowedCudaVersions ∧
      (updateStateFromPod data pod).CountryCodes = data.CountryCodes ∧
      (updateStateFromPod data pod).GPUTypePriority = data.GPUTypePriority ∧
      (updateStateFromPod data pod).CPUFlavorPriority = data.CPUFlavorPriority ∧
      (updateStateFromPod data pod).DataCenterPriority = data.DataCenterPriority ∧
      (updateStateFromPod data pod).ContainerRegistryAuthId = data.ContainerRegistryAuthId) ∧
    (updateStateFromPod { GPUCount := .known 1, Ports := .known [.known "8080/http"] }
        { ID := "p1", Name := "my pod", GPUCount := 1 })
      = { ID := .known "p1", Name := .known "my pod", GPUCount := .known 1,
          Ports := .known [.known "8080/http"], DesiredStatus := .known "",
          PublicIp := .known "", MachineId := .known "", ActualDataCenter := .known "",
          CostPerHr := .known Float64.zero, AdjustedCostPerHr := .known Float64.zero,
          MemoryInGb := .known Float64.zero, LastStartedAt := .known "" } ∧
    (PodResource.Create (fun _ => .ok { ID := "p1", Name := "my pod", GPUCount := 1 })
        { GPUCount := .known 1, Ports := .known [.known "8080/http"] })
      = { Diagnostics := [],
          State := some (updateStateFromPod
            { GPUCount := .known 1, Ports := .known [.known "8080/http"] }
            { ID := "p1", Name := "my pod", GPUCount := 1 }) } := by
  refine ⟨fun data pod => ?_, by decide, by decide⟩
  refine ⟨rfl, rfl, rfl, rfl, rfl, rfl, rfl, rfl, rfl, rfl, rfl, rfl, rfl, rfl, rfl, rfl, rfl, rfl, rfl, rfl, rfl, rfl, rfl, rfl, rfl, rfl, rfl, rfl, rfl, rfl⟩

/-- Merging the same Pod record a second time changes nothing. -/
theorem updateStateFromPod_idem (data : PodResourceModel) (pod : Pod) :
    updateStateFromPod (updateStateFromPod data pod) pod = updateStateFromPod data pod := by
  unfold updateStateFromPod
  congr 1 <;> split <;> rfl

/-- Merging the same Endpoint record a second time changes nothing. -/
theorem updateStateFromEndpoint_idem (data : EndpointResourceModel) (endpoint : Endpoint) :
    updateStateFromEndpoint (updateStateFromEndpoint data endpoint) endpoint
      = updateStateFromEndpoint data endpoint := by
  unfold updateStateFromEndpoint
  congr 1 <;> split <;> rfl

/-- C11. Create-then-Read idempotence: merging a remote record into the state already
obtained by merging that record gives the same state, for `updateStateFromPod` and for
`updateStateFromEndpoint`; hence a Read that fetches the record Create returned writes the
state Create wrote, without diagnostics. -/
theorem merge_idempotent :
    (∀ (s : PodResourceModel) (r : Pod),
      updateStateFromPod (updateStateFromPod s r) r = updateStateFromPod s r) ∧
    (∀ (s : EndpointResourceModel) (r : Endpoint),
      updateStateFromEndpoint (updateStateFromEndpoint s r) r = updateStateFromEndpoint s r) ∧
    (∀ (CreatePod : PodCreateInput → Except String Pod) (GetPod : String → Except String Pod)
        (plan : PodResourceModel) (pod : Pod),
      HasError (PodResource.createInput plan).1 = false →
      CreatePod (PodResource.createInput plan).2 = .ok pod →
      GetPod pod.ID = .ok pod →
      ∃ s, (PodResource.Create CreatePod plan).State = some s ∧
        PodResource.Read GetPod s = { Diagnostics := [], State := some s }) ∧
    (∀ (CreateEndpoint : EndpointCreateInput → Except String Endpoint)
        (GetEndpoint : String → Except String Endpoint)
        (plan : EndpointResourceModel) (endpoint : Endpoint),
      HasError (EndpointResource.createInput plan).1 = false →
      CreateEndpoint (EndpointResource.createInput plan).2 = .ok endpoint →
      GetEndpoint endpoint.ID = .ok endpoint →
      ∃ s, (EndpointResource.Create CreateEndpoint plan).State = some s ∧
        EndpointResource.Read GetEndpoint s = { Diagnostics := [], State := some s }) := by
  refine ⟨updateStateFromPod_idem, updateStateFromEndpoint_idem, ?_, ?_⟩
  · intro CreatePod GetPod plan pod hd hc hg
    refine ⟨updateStateFromPod plan pod, by simp [PodResource.Create, hd, hc], ?_⟩
    have hid : (updateStateFromPod plan pod).ID.ValueString = pod.ID := rfl
    simp only [PodResource.Read, hid, hg, updateStateFromPod_idem]
  · intro CreateEndpoint GetEndpoint plan endpoint hd hc hg
    refine ⟨updateStateFromEndpoint plan endpoint,
      by simp [EndpointResource.Create, hd, hc], ?_⟩
    have hid : (updateStateFromEndpoint plan endpoint).ID.ValueString = endpoint.ID := rfl
    simp only [EndpointResource.Read, hid, hg, updateStateFromEndpoint_idem]

/-- C11 at the scenario of the specification: Create answered by the record "p1", then a
Read that fetches the same record. -/
theorem merge_idempotent_witness :
    ∃ s, (PodResource.Create (fun _ => .ok { ID := "p1", Name := "my pod", GPUCount := 1 })
        { GPUCount := .known 1, Ports := .known [.known "8080/http"] }).State = some s ∧
      PodResource.Read (fun _ => .ok { ID := "p1", Name := "my pod", GPUCount := 1 }) s
        = { Diagnostics := [], State := some s } :=
  merge_idempotent.2.2.1 (fun _ => .ok { ID := "p1", Name := "my pod", GPUCount := 1 })
    (fun _ => .ok { ID := "p1", Name := "my pod", GPUCount := 1 })
    { GPUCount := .known 1, Ports := .known [.known "8080/http"] }
    { ID := "p1", Name := "my pod", GPUCount := 1 } (by decide) rfl rfl

/-- An error diagnostic appended to any list makes `HasError` true. -/
theorem HasError_append_error (ds : List Diagnostic) (summary detail : String) :
    HasError (ds ++ [.error summary detail]) = true := by
  simp [HasError, Diagnostic.isError]

/-- C12. A failed call does not change local state: when the remote call of a Create, Read
or Update of a Pod, an Endpoint or a NetworkVolume returns an error, the method leaves an
error diagnostic in the response and does not reach `resp.State.Set`. -/
theorem failed_call_writes_no_state :
    (∀ (CreatePod : PodCreateInput → Except String Pod) (plan : PodResourceModel) (err : String),
      CreatePod (PodResource.createInput plan).2 = .error err →
      (PodResource.Create CreatePod plan).State = none ∧
      HasError (PodResource.Create CreatePod plan).Diagnostics = true) ∧
    (∀ (GetPod : String → Except String Pod) (state : PodResourceModel) (err : String),
      GetPod state.ID.ValueString = .error err →
      PodResource.Read GetPod state =
        { Diagnostics := [.error "Client Error" ("Unable to read pod, got error: " ++ err)],
          State := none }) ∧
    (∀ (UpdatePod : String → PodUpdateInput → Except String Pod) (plan : PodResourceModel)
        (err : String),
      UpdatePod plan.ID.ValueString (PodResource.updateInput plan).2 = .error err →
      (PodResource.Update UpdatePod plan).State = none ∧
      HasError (PodResource.Update UpdatePod plan).Diagnostics = true) ∧
    (∀ (CreateEndpoint : EndpointCreateInput → Except String Endpoint)
        (plan : EndpointResourceModel) (err : String),
      CreateEndpoint (EndpointResource.createInput plan).2 = .error err →
      (EndpointResource.Create CreateEndpoint plan).State = none ∧
      HasError (EndpointResource.Create CreateEndpoint plan).Diagnostics = true) ∧
    (∀ (GetEndpoint : String → Except String Endpoint) (state : EndpointResourceModel)
        (err : String),
      GetEndpoint state.ID.ValueString = .error err →
      EndpointResource.Read GetEndpoint state =
        { Diagnostics := [.error "Client Error" ("Unable to read endpoint, got error: " ++ err)],
          State := none }) ∧
    (∀ (UpdateEndpoint : String → EndpointUpdateInput → Except String Endpoint)
        (plan : EndpointResourceModel) (err : String),
      UpdateEndpoint plan.ID.ValueString (EndpointResource.updateInput plan).2 = .error err →
      (EndpointResource.Update UpdateEndpoint plan).State = none ∧
      HasError (EndpointResource.Update UpdateEndpoint plan).Diagnostics = true) ∧
    (∀ (CreateNetworkVolume : NetworkVolumeCreateInput → Except String NetworkVolume)
        (plan : NetworkVolumeResourceModel) (err : String),
      CreateNetworkVolume
          { Name := plan.Name.ValueString, Size := plan.Size.ValueInt64,
            DataCenterId := plan.DataCenterId.ValueString } = .error err →
      NetworkVolumeResource.Create CreateNetworkVolume plan =
        { Diagnostics :=
            [.error "Client Error" ("Unable to create network volume, got error: " ++ err)],
          State := none }) ∧
    (∀ (GetNetworkVolume : String → Except String NetworkVolume)
        (state : NetworkVolumeResourceModel) (err : String),
      GetNetworkVolume state.ID.ValueString = .error err →
      NetworkVolumeResource.Read GetNetworkVolume state =
        { Diagnostics :=
            [.error "Client Error" ("Unable to read network volume, got error: " ++ err)],
          State := none }) ∧
    (∀ (UpdateNetworkVolume : String → NetworkVolumeUpdateInput → Except String NetworkVolume)
        (plan : NetworkVolumeResourceModel) (err : String),
      UpdateNetworkVolume plan.ID.ValueString
          { Name := plan.Name.ValueString, Size := plan.Size.toPtr 0 } = .error err →
      NetworkVolumeResource.Update UpdateNetworkVolume plan =
        { Diagnostics :=
            [.error "Client Error" ("Unable to update network volume, got error: " ++ err)],
          State := none }) := by
  refine ⟨?_, ?_, ?_, ?_, ?_, ?_, ?_, ?_, ?_⟩
  · intro f plan err h
    by_cases hd : HasError (PodResource.createInput plan).1 = true
    · simp [PodResource.Create, hd]
    · simp [PodResource.Create, hd, h, HasError_append_error]
  · intro f state err h
    simp [PodResource.Read, h]
  · intro f plan err h
    by_cases hd : HasError (PodResource.updateInput plan).1 = true
    · simp [PodResource.Update, hd]
    · simp [PodResource.Update, hd, h, HasError_append_error]
  · intro f plan err h
    by_cases hd : HasError (EndpointResource.createInput plan).1 = true
    · simp [EndpointResource.Create, hd]
    · simp [EndpointResource.Create, hd, h, HasError_append_error]
  · intro f state err h
    simp [EndpointResource.Read, h]
  · intro f plan err h
    by_cases hd : HasError (EndpointResource.updateInput plan).1 = true
    · simp [EndpointResource.Update, hd]
    · simp [EndpointResource.Update, hd, h, HasError_append_error]
  · intro f plan err h
    simp [NetworkVolumeResource.Create, h]
  · intro f state err h
    simp [NetworkVolumeResource.Read, h]
  · intro f plan err h
    simp [NetworkVolumeResource.Update, h]

/-- C12 at concrete inputs: a Pod Create and a Pod Read whose remote call fails. -/
theorem failed_call_writes_no_state_witness :
    ((PodResource.Create (fun _ => .error "API request failed with status 500: oops")
        { GPUCount := .known 1 }).State = none ∧
      HasError (PodResource.Create (fun _ => .error "API request failed with status 500: oops")
        { GPUCount := .known 1 }).Diagnostics = true) ∧
    PodResource.Read (fun _ => .error "API request failed with status 404: gone")
        { ID := .known "p1" } =
      { Diagnostics := [.error "Client Error"
          ("Unable to read pod, got error: " ++ "API request failed with status 404: gone")],
        State := none } :=
  ⟨failed_call_writes_no_state.1 (fun _ => .error "API request failed with status 500: oops")
      { GPUCount := .known 1 } "API request failed with status 500: oops" rfl,
   failed_call_writes_no_state.2.1 (fun _ => .error "API request failed with status 404: gone")
      { ID := .known "p1" } "API request failed with status 404: gone" rfl⟩

/-- C13, as stated, fails: an Update whose plan moves the volume from "US-KS-2" (the prior
state) to "EU-RO-1" raises no fault of its own: it issues the update call, writes the
answer of the remote service to the state when the call succeeds, and reports the error of
the remote service when the call fails. -/
theorem networkVolume_update_has_no_guard :
    ({ ID := .known "v1", Name := .known "data", Size := .known 10,
       DataCenterId := .known "EU-RO-1" } : NetworkVolumeResourceModel).DataCenterId
      ≠ ({ ID := .known "v1", Name := .known "data", Size := .known 10,
           DataCenterId := .known "US-KS-2" } : NetworkVolumeResourceModel).DataCenterId ∧
    NetworkVolumeResource.Update
        (fun id input => .ok { ID := id, Name := input.Name, Size := 10,
                               DataCenterId := "US-KS-2" })
        { ID := .known "v1", Name := .known "data", Size := .known 10,
          DataCenterId := .known "EU-RO-1" }
      = { Diagnostics := [],
          State := some { ID := .known "v1", Name := .known "data", Size := .known 10,
                          DataCenterId := .known "US-KS-2" } } ∧
    NetworkVolumeResource.Update (fun _ _ => .error "API request failed with status 400: no")
        { ID := .known "v1", Name := .known "data", Size := .known 10,
          DataCenterId := .known "EU-RO-1" }
      = { Diagnostics := [.error "Client Error"
            "Unable to update network volume, got error: API request failed with status 400: no"],
          State := none } := by
  refine ⟨by decide, by decide, by decide⟩

/-- C13, amended. `NetworkVolumeResource.Update` does not look at the prior state: for
every plan, also one whose data_center_id differs from the prior one, it issues the update
call with the name and size of the plan, writes the remote record to the state when the
call succeeds, and fails exactly when the call fails, with the error of the call. -/
theorem networkVolume_update_always_calls (prior plan : NetworkVolumeResourceModel)
    (UpdateNetworkVolume : String → NetworkVolumeUpdateInput → Except String NetworkVolume)
    (_hdiff : plan.DataCenterId ≠ prior.DataCenterId) :
    (∀ volume : NetworkVolume,
      UpdateNetworkVolume plan.ID.ValueString
          { Name := plan.Name.ValueString, Size := plan.Size.toPtr 0 } = .ok volume →
      NetworkVolumeResource.Update UpdateNetworkVolume plan =
        { Diagnostics := [],
          State := some { ID := .known volume.ID, Name := .known volume.Name,
                          Size := .known volume.Size,
                          DataCenterId := .known volume.DataCenterId } }) ∧
    (∀ err : String,
      UpdateNetworkVolume plan.ID.ValueString
          { Name := plan.Name.ValueString, Size := plan.Size.toPtr 0 } = .error err →
      NetworkVolumeResource.Update UpdateNetworkVolume plan =
        { Diagnostics :=
            [.error "Client Error" ("Unable to update network volume, got error: " ++ err)],
          State := none }) := by
  refine ⟨?_, ?_⟩
  · intro volume h
    simp [NetworkVolumeResource.Update, h, NetworkVolumeResource.assign]
  · intro err h
    simp [NetworkVolumeResource.Update, h]

/-- C13, amended, at the plan that moves the volume "v1" from "US-KS-2" to "EU-RO-1". -/
theorem networkVolume_update_always_calls_witness :
    NetworkVolumeResource.Update
        (fun id input => .ok { ID := id, Name := input.Name, Size := 10,
                               DataCenterId := "US-KS-2" })
        { ID := .known "v1", Name := .known "data", Size := .known 10,
          DataCenterId := .known "EU-RO-1" }
      = { Diagnostics := [],
          State := some { ID := .known "v1", Name := .known "data", Size := .known 10,
                          DataCenterId := .known "US-KS-2" } } :=
  (networkVolume_update_always_calls
      { ID := .known "v1", Name := .known "data", Size := .known 10,
        DataCenterId := .known "US-KS-2" }
      { ID := .known "v1", Name := .known "data", Size := .known 10,
        DataCenterId := .known "EU-RO-1" }
      (fun id input => .ok { ID := id, Name := input.Name, Size := 10,
                             DataCenterId := "US-KS-2" })
      (by decide)).1
    { ID := "v1", Name := "data", Size := 10, DataCenterId := "US-KS-2" } rfl

/-- C14. Immutable-after-create fields never appear in an Update payload: the body built by
Pod Update has no `networkVolumeId` and no `dataCenterIds` key and does not depend on the
plan's network_volume_id or data_center_ids; the body built by NetworkVolume Update has no
key other than `name` and `size`, so no `dataCenterId`, whatever the plan holds. -/
theorem update_payload_has_no_immutable_keys :
    (∀ plan : PodResourceModel,
      "networkVolumeId" ∉ (PodResource.updateInput plan).2.Marshal.keys ∧
      "dataCenterIds" ∉ (PodResource.updateInput plan).2.Marshal.keys) ∧
    (∀ (plan : PodResourceModel) (v : TfString) (l : TfList),
      PodResource.updateInput { plan with NetworkVolumeId := v, DataCenterIds := l }
        = PodResource.updateInput plan) ∧
    (∀ (plan : NetworkVolumeResourceModel) (k : String),
      k ∈ (NetworkVolumeUpdateInput.Marshal
            { Name := plan.Name.ValueString, Size := plan.Size.toPtr 0 }).keys →
      k = "name" ∨ k = "size") ∧
    (∀ plan : NetworkVolumeResourceModel,
      "dataCenterId" ∉ (NetworkVolumeUpdateInput.Marshal
            { Name := plan.Name.ValueString, Size := plan.Size.toPtr 0 }).keys) := by
  refine ⟨?_, ?_, ?_, ?_⟩
  · intro plan
    constructor <;> simp [PodUpdateInput.Marshal]
  · intro plan v l
    rfl
  · intro plan k hk
    simp only [NetworkVolumeUpdateInput.Marshal, JsonObject.keys_append, List.mem_append,
      mem_keys_omitemptyString, mem_keys_omitemptyIntPtr] at hk
    rcases hk with h | h
    · exact Or.inl h.1
    · exact Or.inr h.1
  · intro plan
    simp [NetworkVolumeUpdateInput.Marshal]

/-- C14 at a concrete network volume plan: the update body is name and size only. -/
theorem update_payload_has_no_immutable_keys_witness :
    (NetworkVolumeUpdateInput.Marshal
        { Name := (TfValue.known "data" : TfString).ValueString,
          Size := (TfValue.known 10 : TfInt64).toPtr 0 })
      = [("name", .str "data"), ("size", .int 10)] ∧
    ("size" = "name" ∨ "size" = "size") :=
  ⟨by decide,
   update_payload_has_no_immutable_keys.2.2.1
     { ID := .known "v1", Name := .known "data", Size := .known 10,
       DataCenterId := .known "EU-RO-1" } "size" (by decide)⟩

/-! ### The wait for deletion -/

theorem pollInterval_val : pollInterval = 5000000000 := by decide

theorem deleteTimeout_val : deleteTimeout = 300000000000 := by decide

theorem WaitState.wake_ge_now (st : WaitState) : st.now ≤ st.wake := by
  unfold WaitState.wake
  rw [pollInterval_val, deleteTimeout_val]
  split
  · exact Nat.le_refl _
  · rename_i h
    simp only [not_or, Nat.not_lt, ge_iff_le, Nat.not_le] at h
    rw [Nat.min_def]
    split <;> omega

/-- When `select` does not take the timer case, a tick is received. -/
theorem WaitState.tick_of_not_timeout (env : WaitEnv) (st : WaitState)
    (h : takesTimeout env st = false) : st.received < st.wake / pollInterval := by
  by_contra hc
  have ht : st.tickReady = false := by simp [WaitState.tickReady, hc]
  have hto : st.timeoutReady = false := by
    simpa [takesTimeout, ht] using h
  have hw : st.wake < deleteTimeout := by
    simpa [WaitState.timeoutReady] using hto
  revert hc hw
  unfold WaitState.wake
  rw [pollInterval_val, deleteTimeout_val]
  split
  · rename_i h1
    intro hc hw
    omega
  · rename_i h1
    simp only [not_or, Nat.not_lt, ge_iff_le, Nat.not_le] at h1
    rw [Nat.min_def]
    split <;> intro hc hw <;> omega

/-- The invariant holds at the start and is kept by every poll. -/
theorem WaitState.Inv_init : WaitState.Inv {} := by
  simp [WaitState.Inv]

theorem WaitState.Inv_next (env : WaitEnv) (st : WaitState) (d : Nat) (hinv : st.Inv)
    (h : takesTimeout env st = false) : (st.next d).Inv := by
  have ht := WaitState.tick_of_not_timeout env st h
  have hd : st.wake / pollInterval * pollInterval ≤ st.wake := Nat.div_mul_le_self _ _
  refine ⟨?_, ?_⟩
  · show st.wake / pollInterval * pollInterval ≤ st.wake + d
    omega
  · show st.polls + 1 ≤ st.wake / pollInterval
    have := hinv.2
    omega

/-- A poll is issued only after one more interval than the polls made before it. -/
theorem WaitState.wake_ge_of_poll (env : WaitEnv) (st : WaitState) (hinv : st.Inv)
    (h : takesTimeout env st = false) : (st.polls + 1) * pollInterval ≤ st.wake := by
  have ht := WaitState.tick_of_not_timeout env st h
  have hd : st.wake / pollInterval * pollInterval ≤ st.wake := Nat.div_mul_le_self _ _
  have h2 := hinv.2
  have h3 : (st.polls + 1) * pollInterval ≤ st.wake / pollInterval * pollInterval :=
    Nat.mul_le_mul_right _ (by omega)
  omega

/-! One iteration of the loop. -/

theorem waitForDeletion_timeout (env : WaitEnv) (id : String) (fuel : Nat) (st : WaitState)
    (h : takesTimeout env st = true) :
    waitForDeletion env id (fuel + 1) st = some { Diagnostics := [timeoutWarning] } := by
  simp [waitForDeletion, h]

theorem waitForDeletion_error (env : WaitEnv) (id : String) (fuel : Nat) (st : WaitState)
    (e : String) (d : Nat) (h : takesTimeout env st = false)
    (hg : env.GetPod st.polls st.wake id = (.error e, d)) :
    waitForDeletion env id (fuel + 1) st
      = some { Calls := [pollCall id], PollTimes := [st.wake] } := by
  simp [waitForDeletion, h, hg]

theorem waitForDeletion_ok (env : WaitEnv) (id : String) (fuel : Nat) (st : WaitState)
    (p : Pod) (d : Nat) (h : takesTimeout env st = false)
    (hg : env.GetPod st.polls st.wake id = (.ok p, d)) :
    waitForDeletion env id (fuel + 1) st
      = (waitForDeletion env id fuel (st.next d)).map fun r =>
          { r with Calls := pollCall id :: r.Calls, PollTimes := st.wake :: r.PollTimes } := by
  simp only [waitForDeletion, h, hg]
  cases waitForDeletion env id fuel (st.next d) <;> rfl

/-- The poll of index `j` is issued after `j + 1` intervals at the earliest. -/
theorem waitForDeletion_pollTimes (env : WaitEnv) (id : String) :
    ∀ (fuel : Nat) (st : WaitState) (r : DeleteResult), st.Inv →
      waitForDeletion env id fuel st = some r →
      ∀ j t, r.PollTimes[j]? = some t → (st.polls + j + 1) * pollInterval ≤ t := by
  intro fuel
  induction fuel with
  | zero =>
    intro st r _ h
    simp [waitForDeletion] at h
  | succ fuel ih =>
    intro st r hinv h j t hj
    by_cases hto : takesTimeout env st = true
    · rw [waitForDeletion_timeout env id fuel st hto] at h
      cases h
      simp at hj
    · have hto2 : takesTimeout env st = false := by simpa using hto
      have hw := WaitState.wake_ge_of_poll env st hinv hto2
      rcases hg : env.GetPod st.polls st.wake id with ⟨e | p, d⟩
      · rw [waitForDeletion_error env id fuel st e d hto2 hg] at h
        cases h
        cases j with
        | zero =>
          simp only [List.getElem?_cons_zero, Option.some.injEq] at hj
          subst hj
          simpa using hw
        | succ j => simp at hj
      · rw [waitForDeletion_ok env id fuel st p d hto2 hg] at h
        cases hr : waitForDeletion env id fuel (st.next d) with
        | none => simp [hr] at h
        | some r1 =>
          simp only [hr, Option.map_some', Option.some.injEq] at h
          subst h
          cases j with
          | zero =>
            simp only [List.getElem?_cons_zero, Option.some.injEq] at hj
            subst hj
            simpa using hw
          | succ j =>
            simp only [List.getElem?_cons_succ] at hj
            have h3 := ih (st.next d) r1 (WaitState.Inv_next env st d hinv hto2) hr j t hj
            have h4 : (st.next d).polls = st.polls + 1 := rfl
            rw [h4] at h3
            have h5 : st.polls + (j + 1) + 1 = st.polls + 1 + j + 1 := by omega
            rw [h5]
            exact h3

/-- The requests of the wait are its polls. -/
theorem waitForDeletion_calls (env : WaitEnv) (id : String) :
    ∀ (fuel : Nat) (st : WaitState) (r : DeleteResult),
      waitForDeletion env id fuel st = some r →
      r.Calls = List.replicate r.PollTimes.length (pollCall id) := by
  intro fuel
  induction fuel with
  | zero =>
    intro st r h
    simp [waitForDeletion] at h
  | succ fuel ih =>
    intro st r h
    by_cases hto : takesTimeout env st = true
    · rw [waitForDeletion_timeout env id fuel st hto] at h
      cases h
      rfl
    · have hto2 : takesTimeout env st = false := by simpa using hto
      rcases hg : env.GetPod st.polls st.wake id with ⟨e | p, d⟩
      · rw [waitForDeletion_error env id fuel st e d hto2 hg] at h
        cases h
        rfl
      · rw [waitForDeletion_ok env id fuel st p d hto2 hg] at h
        cases hr : waitForDeletion env id fuel (st.next d) with
        | none => simp [hr] at h
        | some r1 =>
          simp only [hr, Option.map_some', Option.some.injEq] at h
          subst h
          simp [List.replicate_succ, ih (st.next d) r1 hr]

/-- A poll whose `GetPod` fails, with whatever error, is the last one, and the wait then
ends without diagnostic. -/
theorem waitForDeletion_failure_last (env : WaitEnv) (id : String) :
    ∀ (fuel : Nat) (st : WaitState) (r : DeleteResult),
      waitForDeletion env id fuel st = some r →
      ∀ j t e d, r.PollTimes[j]? = some t →
        env.GetPod (st.polls + j) t id = (.error e, d) →
        j + 1 = r.PollTimes.length ∧ r.Diagnostics = [] := by
  intro fuel
  induction fuel with
  | zero =>
    intro st r h
    simp [waitForDeletion] at h
  | succ fuel ih =>
    intro st r h j t e d hj hge
    by_cases hto : takesTimeout env st = true
    · rw [waitForDeletion_timeout env id fuel st hto] at h
      cases h
      simp at hj
    · have hto2 : takesTimeout env st = false := by simpa using hto
      rcases hg : env.GetPod st.polls st.wake id with ⟨e1 | p, d1⟩
      · rw [waitForDeletion_error env id fuel st e1 d1 hto2 hg] at h
        cases h
        cases j with
        | zero => exact ⟨rfl, rfl⟩
        | succ j => simp at hj
      · rw [waitForDeletion_ok env id fuel st p d1 hto2 hg] at h
        cases hr : waitForDeletion env id fuel (st.next d1) with
        | none => simp [hr] at h
        | some r1 =>
          simp only [hr, Option.map_some', Option.some.injEq] at h
          subst h
          cases j with
          | zero =>
            simp only [List.getElem?_cons_zero, Option.some.injEq] at hj
            subst hj
            rw [Nat.add_zero, hg] at hge
            cases hge
          | succ j =>
            simp only [List.getElem?_cons_succ] at hj
            have h4 : st.polls + (j + 1) = (st.next d1).polls + j := by
              show st.polls + (j + 1) = st.polls + 1 + j
              omega
            rw [h4] at hge
            have h3 := ih (st.next d1) r1 hr j t e d hj hge
            exact ⟨by simp [h3.1], h3.2⟩

/-- The wait ends with no diagnostic, after a poll that failed, or with the timeout warning
alone, after polls that all succeeded. -/
theorem waitForDeletion_outcome (env : WaitEnv) (id : String) :
    ∀ (fuel : Nat) (st : WaitState) (r : DeleteResult),
      waitForDeletion env id fuel st = some r →
      (r.Diagnostics = [] ∧ ∃ n t e d, r.PollTimes.length = n + 1 ∧
          r.PollTimes[n]? = some t ∧ env.GetPod (st.polls + n) t id = (.error e, d)) ∨
      (r.Diagnostics = [timeoutWarning] ∧ ∀ j t, r.PollTimes[j]? = some t →
          ∃ p d, env.GetPod (st.polls + j) t id = (.ok p, d)) := by
  intro fuel
  induction fuel with
  | zero =>
    intro st r h
    simp [waitForDeletion] at h
  | succ fuel ih =>
    intro st r h
    by_cases hto : takesTimeout env st = true
    · rw [waitForDeletion_timeout env id fuel st hto] at h
      cases h
      right
      refine ⟨rfl, ?_⟩
      intro j t hj
      simp at hj
    · have hto2 : takesTimeout env st = false := by simpa using hto
      rcases hg : env.GetPod st.polls st.wake id with ⟨e1 | p, d1⟩
      · rw [waitForDeletion_error env id fuel st e1 d1 hto2 hg] at h
        cases h
        left
        exact ⟨rfl, 0, st.wake, e1, d1, rfl, rfl, hg⟩
      · rw [waitForDeletion_ok env id fuel st p d1 hto2 hg] at h
        cases hr : waitForDeletion env id fuel (st.next d1) with
        | none => simp [hr] at h
        | some r1 =>
          simp only [hr, Option.map_some', Option.some.injEq] at h
          subst h
          have hp : ∀ n, (st.next d1).polls + n = st.polls + (n + 1) := by
            intro n
            show st.polls + 1 + n = st.polls + (n + 1)
            omega
          rcases ih (st.next d1) r1 hr with ⟨hd, n, t, e, d, hlen, hget, herr⟩ | ⟨hd, hall⟩
          · left
            refine ⟨hd, n + 1, t, e, d, by simp [hlen], by simpa using hget, ?_⟩
            rw [← hp n]
            exact herr
          · right
            refine ⟨hd, ?_⟩
            intro j t hj
            cases j with
            | zero =>
              simp only [List.getElem?_cons_zero, Option.some.injEq] at hj
              subst hj
              exact ⟨p, d1, hg⟩
            | succ j =>
              simp only [List.getElem?_cons_succ] at hj
              rw [← hp j]
              exact hall j t hj

/-! Runs in which every poll returns before the next firing of the ticker. -/

theorem WaitState.OnTime_init : WaitState.OnTime {} := by
  refine ⟨rfl, ?_, ?_⟩
  · show 0 * pollInterval ≤ 0
    omega
  · show 0 < (0 + 1) * pollInterval
    rw [pollInterval_val]
    omega

theorem WaitState.OnTime_wake (st : WaitState) (h : st.OnTime) (hp : st.polls < 60) :
    st.wake = (st.polls + 1) * pollInterval := by
  obtain ⟨h1, h2, h3⟩ := h
  unfold WaitState.wake
  rw [pollInterval_val, deleteTimeout_val] at *
  rw [h1]
  split
  · rename_i hc
    omega
  · rw [Nat.min_def]
    split <;> omega

theorem WaitState.OnTime_not_timeout (env : WaitEnv) (st : WaitState) (h : st.OnTime)
    (hp : st.polls + 1 < 60) : takesTimeout env st = false := by
  have hw := WaitState.OnTime_wake st h (by omega)
  have hlt : ¬ (st.wake ≥ deleteTimeout) := by
    rw [hw, pollInterval_val, deleteTimeout_val]
    omega
  simp [takesTimeout, WaitState.timeoutReady, hlt]

theorem WaitState.OnTime_timeout (env : WaitEnv) (st : WaitState) (h : st.OnTime)
    (hp : 60 ≤ st.polls) : takesTimeout env st = true := by
  obtain ⟨h1, h2, h3⟩ := h
  have hw : st.wake = st.now := by
    unfold WaitState.wake
    rw [pollInterval_val, deleteTimeout_val] at *
    rw [if_pos]
    right
    omega
  have hto : st.wake ≥ deleteTimeout := by
    rw [hw]
    rw [pollInterval_val] at h2
    rw [deleteTimeout_val]
    omega
  have htk : ¬ (st.wake / pollInterval > st.received) := by
    rw [hw, h1]
    rw [pollInterval_val] at *
    omega
  simp [takesTimeout, WaitState.timeoutReady, WaitState.tickReady, hto, htk]

theorem WaitState.OnTime_next (st : WaitState) (d : Nat) (h : st.OnTime) (hp : st.polls < 60)
    (hd : d < pollInterval) : (st.next d).OnTime := by
  have hw := WaitState.OnTime_wake st h hp
  refine ⟨?_, ?_, ?_⟩
  · show st.wake / pollInterval = st.polls + 1
    rw [hw, pollInterval_val]
    omega
  · show (st.polls + 1) * pollInterval ≤ st.wake + d
    omega
  · show st.wake + d < (st.polls + 1 + 1) * pollInterval
    rw [hw]
    rw [pollInterval_val] at *
    omega

/-- When every poll returns before the next firing of the ticker, the wait ends within 60
polls. -/
theorem waitForDeletion_onTime_bounded (env : WaitEnv) (id : String)
    (htimely : ∀ j t, (env.GetPod j t id).2 < pollInterval) :
    ∀ (fuel : Nat) (st : WaitState), st.OnTime → st.polls ≤ 60 → 61 ≤ st.polls + fuel →
      ∃ r, waitForDeletion env id fuel st = some r ∧ st.polls + r.PollTimes.length ≤ 60 := by
  intro fuel
  induction fuel with
  | zero =>
    intro st _ h1 h2
    omega
  | succ fuel ih =>
    intro st hon h1 h2
    by_cases hto : takesTimeout env st = true
    · rw [waitForDeletion_timeout env id fuel st hto]
      exact ⟨_, rfl, by simpa using h1⟩
    · have hto2 : takesTimeout env st = false := by simpa using hto
      have hlt : st.polls < 60 := by
        by_contra hc
        have := WaitState.OnTime_timeout env st hon (by omega)
        rw [this] at hto2
        cases hto2
      rcases hg : env.GetPod st.polls st.wake id with ⟨e | p, d⟩
      · rw [waitForDeletion_error env id fuel st e d hto2 hg]
        refine ⟨_, rfl, ?_⟩
        show st.polls + 1 ≤ 60
        omega
      · rw [waitForDeletion_ok env id fuel st p d hto2 hg]
        have hd : d < pollInterval := by
          have := htimely st.polls st.wake
          rw [hg] at this
          exact this
        have hp1 : (st.next d).polls = st.polls + 1 := rfl
        obtain ⟨r1, hr1, hlen⟩ := ih (st.next d) (WaitState.OnTime_next st d hon hlt hd)
          (by rw [hp1]; omega) (by rw [hp1]; omega)
        rw [hr1]
        refine ⟨_, rfl, ?_⟩
        rw [hp1] at hlen
        show st.polls + (r1.PollTimes.length + 1) ≤ 60
        omega

theorem range_map_succ (c m n : Nat) :
    (List.range (n + 1)).map (fun j => (m + j + 1) * c)
      = (m + 1) * c :: (List.range n).map (fun j => (m + 1 + j + 1) * c) := by
  rw [List.range_succ_eq_map, List.map_cons, List.map_map]
  refine congrArg₂ List.cons rfl ?_
  apply List.map_congr_left
  intro j _
  have h : m + (j + 1) + 1 = m + 1 + j + 1 := by omega
  show (m + (j + 1) + 1) * c = (m + 1 + j + 1) * c
  rw [h]

/-- The instants of the first `n` firings of the ticker after `m` of them. -/
theorem tickTimes_succ (m n : Nat) :
    (List.range (n + 1)).map (fun j => (m + j + 1) * pollInterval)
      = (m + 1) * pollInterval ::
        (List.range n).map (fun j => (m + 1 + j + 1) * pollInterval) :=
  range_map_succ pollInterval m n

/-- When the polls at the first `k` firings succeed, each before the next firing, and the
poll at the next firing, still before the bound, fails, the wait ends there: `k + 1` polls,
one per firing, and no diagnostic. -/
theorem waitForDeletion_first_failure (env : WaitEnv) (id : String) :
    ∀ (k fuel : Nat) (st : WaitState) (e : String) (d : Nat), st.OnTime →
      st.polls + k + 1 < 60 →
      (∀ j, j < k → ∃ p dj,
        env.GetPod (st.polls + j) ((st.polls + j + 1) * pollInterval) id = (.ok p, dj) ∧
        dj < pollInterval) →
      env.GetPod (st.polls + k) ((st.polls + k + 1) * pollInterval) id = (.error e, d) →
      k + 1 ≤ fuel →
      waitForDeletion env id fuel st
        = some { Diagnostics := []
                 Calls := List.replicate (k + 1) (pollCall id)
                 PollTimes :=
                   (List.range (k + 1)).map (fun j => (st.polls + j + 1) * pollInterval) } := by
  intro k
  induction k with
  | zero =>
    intro fuel st e d hon hlt _ herr hfuel
    obtain ⟨f, rfl⟩ : ∃ f, fuel = f + 1 := ⟨fuel - 1, by omega⟩
    have hw := WaitState.OnTime_wake st hon (by omega)
    have hto := WaitState.OnTime_not_timeout env st hon (by omega)
    rw [Nat.add_zero, ← hw] at herr
    rw [waitForDeletion_error env id f st e d hto herr, hw]
    rfl
  | succ k ih =>
    intro fuel st e d hon hlt hok herr hfuel
    obtain ⟨f, rfl⟩ : ∃ f, fuel = f + 1 := ⟨fuel - 1, by omega⟩
    have hw := WaitState.OnTime_wake st hon (by omega)
    have hto := WaitState.OnTime_not_timeout env st hon (by omega)
    obtain ⟨p, d0, hg0, hd0⟩ := hok 0 (by omega)
    rw [Nat.add_zero, ← hw] at hg0
    rw [waitForDeletion_ok env id f st p d0 hto hg0]
    have hp1 : (st.next d0).polls = st.polls + 1 := rfl
    have hrec := ih f (st.next d0) e d (WaitState.OnTime_next st d0 hon (by omega) hd0)
      (by rw [hp1]; omega)
      (by
        intro j hj
        rw [hp1]
        have h1 : st.polls + 1 + j = st.polls + (j + 1) := by omega
        rw [h1]
        exact hok (j + 1) (by omega))
      (by
        rw [hp1]
        have h1 : st.polls + 1 + k = st.polls + (k + 1) := by omega
        rw [h1]
        exact herr)
      (by omega)
    rw [hrec, hp1, tickTimes_succ st.polls (k + 1), hw]
    rfl

/-- Once 60 polls are made the timer has fired. -/
theorem WaitState.Inv_timeoutReady (st : WaitState) (hinv : st.Inv) (hp : 60 ≤ st.polls) :
    st.timeoutReady = true := by
  obtain ⟨h1, h2⟩ := hinv
  have hn : deleteTimeout ≤ st.now := by
    have h3 : 60 * pollInterval ≤ st.received * pollInterval :=
      Nat.mul_le_mul_right _ (by omega)
    rw [pollInterval_val] at h3 h1
    rw [deleteTimeout_val]
    omega
  have hw := WaitState.wake_ge_now st
  simp only [WaitState.timeoutReady, decide_eq_true_eq, ge_iff_le]
  omega

/-- If the select reached after `N` polls, `N` at least 60, takes the timer case when both
cases are ready, the wait ends within `N` polls, however long the polls take. -/
theorem waitForDeletion_fair_bounded (env : WaitEnv) (id : String) (N : Nat) (hN : 60 ≤ N)
    (hpick : env.pick N = false) :
    ∀ (fuel : Nat) (st : WaitState), st.Inv → st.polls ≤ N → N + 1 ≤ st.polls + fuel →
      ∃ r, waitForDeletion env id fuel st = some r ∧ st.polls + r.PollTimes.length ≤ N := by
  intro fuel
  induction fuel with
  | zero =>
    intro st _ h1 h2
    omega
  | succ fuel ih =>
    intro st hinv h1 h2
    by_cases hto : takesTimeout env st = true
    · rw [waitForDeletion_timeout env id fuel st hto]
      exact ⟨_, rfl, by simpa using h1⟩
    · have hto2 : takesTimeout env st = false := by simpa using hto
      have hlt : st.polls < N := by
        by_contra hc
        have hp : st.polls = N := by omega
        have hr := WaitState.Inv_timeoutReady st hinv (by omega)
        rw [← hp] at hpick
        simp [takesTimeout, hr, hpick] at hto2
      rcases hg : env.GetPod st.polls st.wake id with ⟨e | p, d⟩
      · rw [waitForDeletion_error env id fuel st e d hto2 hg]
        refine ⟨_, rfl, ?_⟩
        show st.polls + 1 ≤ N
        omega
      · rw [waitForDeletion_ok env id fuel st p d hto2 hg]
        have hp1 : (st.next d).polls = st.polls + 1 := rfl
        obtain ⟨r1, hr1, hlen⟩ := ih (st.next d) (WaitState.Inv_next env st d hinv hto2)
          (by rw [hp1]; omega) (by rw [hp1]; omega)
        rw [hr1]
        refine ⟨_, rfl, ?_⟩
        rw [hp1] at hlen
        show st.polls + (r1.PollTimes.length + 1) ≤ N
        omega

/-- The wait makes at least one poll. -/
theorem waitForDeletion_polls_once (env : WaitEnv) (id : String) (fuel : Nat)
    (r : DeleteResult) (h : waitForDeletion env id fuel {} = some r) :
    r.PollTimes.head? = some pollInterval := by
  cases fuel with
  | zero => simp [waitForDeletion] at h
  | succ fuel =>
    have hto := WaitState.OnTime_not_timeout env {} WaitState.OnTime_init (by decide)
    have hw : ({} : WaitState).wake = pollInterval := by
      rw [WaitState.OnTime_wake {} WaitState.OnTime_init (by decide)]
      show (0 + 1) * pollInterval = pollInterval
      omega
    rcases hg : env.GetPod ({} : WaitState).polls ({} : WaitState).wake id with ⟨e | p, d⟩
    · rw [waitForDeletion_error env id fuel {} e d hto hg] at h
      cases h
      simp [hw]
    · rw [waitForDeletion_ok env id fuel {} p d hto hg] at h
      cases hr : waitForDeletion env id fuel (({} : WaitState).next d) with
      | none => simp [hr] at h
      | some r1 =>
        simp only [hr, Option.map_some', Option.some.injEq] at h
        subst h
        simp [hw]

/-- After an acknowledged delete call, `PodResource.Delete` is the wait, with the delete
request in front of its polls. -/
theorem PodResource.Delete_ok (DeletePod : String → Except String Unit) (env : WaitEnv)
    (fuel : Nat) (state : PodResourceModel) (h : DeletePod state.ID.ValueString = .ok ()) :
    PodResource.Delete DeletePod env fuel state
      = (waitForDeletion env state.ID.ValueString fuel {}).map fun r =>
          { r with
            Calls := { Method := "DELETE", Path := "/pods/" ++ state.ID.ValueString } ::
              r.Calls } := by
  simp only [PodResource.Delete, h]
  cases waitForDeletion env state.ID.ValueString fuel {} <;> rfl

/-- The wait that starts with `k` polls that succeed on time and a poll that fails. -/
theorem waitForDeletion_first_failure_init (env : WaitEnv) (id : String) (k fuel : Nat)
    (e : String) (d : Nat) (hk : k + 1 < 60)
    (hok : ∀ j, j < k → ∃ p dj,
      env.GetPod j ((j + 1) * pollInterval) id = (.ok p, dj) ∧ dj < pollInterval)
    (herr : env.GetPod k ((k + 1) * pollInterval) id = (.error e, d)) (hfuel : k + 1 ≤ fuel) :
    waitForDeletion env id fuel {}
      = some { Diagnostics := []
               Calls := List.replicate (k + 1) (pollCall id)
               PollTimes := (List.range (k + 1)).map (fun j => (j + 1) * pollInterval) } := by
  have h := waitForDeletion_first_failure env id k fuel {} e d WaitState.OnTime_init
    (by show 0 + k + 1 < 60; omega)
    (by
      intro j hj
      show ∃ p dj, env.GetPod (0 + j) ((0 + j + 1) * pollInterval) id = (.ok p, dj) ∧
        dj < pollInterval
      rw [Nat.zero_add]
      exact hok j hj)
    (by
      show env.GetPod (0 + k) ((0 + k + 1) * pollInterval) id = (.error e, d)
      rw [Nat.zero_add]
      exact herr)
    hfuel
  rw [h]
  have hm : (List.range (k + 1)).map (fun j => (({} : WaitState).polls + j + 1) * pollInterval)
      = (List.range (k + 1)).map (fun j => (j + 1) * pollInterval) := by
    apply List.map_congr_left
    intro j _
    show (0 + j + 1) * pollInterval = (j + 1) * pollInterval
    rw [Nat.zero_add]
  rw [hm]

/-- The diagnostics and polls of `PodResource.Delete` after an acknowledged delete call are
those of the wait. -/
theorem PodResource.Delete_ok_wait (DeletePod : String → Except String Unit) (env : WaitEnv)
    (fuel : Nat) (state : PodResourceModel) (r : DeleteResult)
    (hack : DeletePod state.ID.ValueString = .ok ())
    (h : PodResource.Delete DeletePod env fuel state = some r) :
    ∃ r1, waitForDeletion env state.ID.ValueString fuel {} = some r1 ∧
      r.Diagnostics = r1.Diagnostics ∧ r.PollTimes = r1.PollTimes ∧
      r.Calls = { Method := "DELETE", Path := "/pods/" ++ state.ID.ValueString } :: r1.Calls := by
  rw [PodResource.Delete_ok DeletePod env fuel state hack] at h
  cases hw : waitForDeletion env state.ID.ValueString fuel {} with
  | none => simp [hw] at h
  | some r1 =>
    simp only [hw, Option.map_some', Option.some.injEq] at h
    subst h
    exact ⟨r1, rfl, rfl, rfl, rfl⟩

theorem tickTimes_one :
    (List.range 1).map (fun j => (j + 1) * pollInterval) = [pollInterval] := by
  have h : List.range 1 = [0] := rfl
  rw [h, List.map_cons, List.map_nil, Nat.zero_add, Nat.one_mul]

theorem WaitState.after_polls (env : WaitEnv) (id : String) :
    ∀ (n : Nat) (st : WaitState), (st.after env id n).polls = st.polls + n := by
  intro n
  induction n with
  | zero => intro st; rfl
  | succ n ih =>
    intro st
    show ((st.next (env.GetPod st.polls st.wake id).2).after env id n).polls = _
    rw [ih]
    show st.polls + 1 + n = st.polls + (n + 1)
    omega

/-- The instant at which `select` proceeds does not decrease along the wait. -/
theorem WaitState.wake_le_after (env : WaitEnv) (id : String) :
    ∀ (n : Nat) (st : WaitState), st.wake ≤ (st.after env id n).wake := by
  intro n
  induction n with
  | zero => intro st; exact Nat.le_refl _
  | succ n ih =>
    intro st
    have h1 := ih (st.next (env.GetPod st.polls st.wake id).2)
    have h2 := WaitState.wake_ge_now (st.next (env.GetPod st.polls st.wake id).2)
    have h3 : (st.next (env.GetPod st.polls st.wake id).2).now
        = st.wake + (env.GetPod st.polls st.wake id).2 := rfl
    show st.wake ≤ ((st.next (env.GetPod st.polls st.wake id).2).after env id n).wake
    omega

/-- While the timer has not fired `select` cannot take its case. -/
theorem takesTimeout_of_wake_lt (env : WaitEnv) (st : WaitState)
    (h : st.wake < deleteTimeout) : takesTimeout env st = false := by
  have hn : ¬ st.wake ≥ deleteTimeout := Nat.not_le.mpr h
  simp [takesTimeout, WaitState.timeoutReady, hn]

/-- When the polls made from `st` succeed `k` times, however long they take, and the next
one, issued before the timer fires, fails, the wait ends there: `k + 1` polls, at the
instants of the run, and no diagnostic. -/
theorem waitForDeletion_failure_at (env : WaitEnv) (id : String) :
    ∀ (k fuel : Nat) (st : WaitState) (e : String) (d : Nat),
      (∀ j, j < k → ∃ p dj,
        env.GetPod (st.polls + j) (st.after env id j).wake id = (.ok p, dj)) →
      env.GetPod (st.polls + k) (st.after env id k).wake id = (.error e, d) →
      (st.after env id k).wake < deleteTimeout →
      k + 1 ≤ fuel →
      waitForDeletion env id fuel st
        = some { Diagnostics := []
                 Calls := List.replicate (k + 1) (pollCall id)
                 PollTimes := (List.range (k + 1)).map (fun j => (st.after env id j).wake) } := by
  intro k
  induction k with
  | zero =>
    intro fuel st e d _ herr hlt hfuel
    obtain ⟨f, rfl⟩ : ∃ f, fuel = f + 1 := ⟨fuel - 1, by omega⟩
    have hto := takesTimeout_of_wake_lt env st hlt
    rw [Nat.add_zero] at herr
    rw [waitForDeletion_error env id f st e d hto herr]
    rfl
  | succ k ih =>
    intro fuel st e d hok herr hlt hfuel
    obtain ⟨f, rfl⟩ : ∃ f, fuel = f + 1 := ⟨fuel - 1, by omega⟩
    have hto := takesTimeout_of_wake_lt env st
      (Nat.lt_of_le_of_lt (WaitState.wake_le_after env id (k + 1) st) hlt)
    obtain ⟨p, d0, hg0⟩ := hok 0 (by omega)
    rw [Nat.add_zero] at hg0
    have hg00 : env.GetPod st.polls st.wake id = (.ok p, d0) := hg0
    have hnext : ∀ j, (st.next d0).after env id j = st.after env id (j + 1) := by
      intro j
      show _ = WaitState.after env id (st.next (env.GetPod st.polls st.wake id).2) j
      rw [hg00]
    have hp1 : (st.next d0).polls = st.polls + 1 := rfl
    rw [waitForDeletion_ok env id f st p d0 hto hg00]
    have hrec := ih f (st.next d0) e d
      (by
        intro j hj
        rw [hp1, hnext]
        have h1 : st.polls + 1 + j = st.polls + (j + 1) := by omega
        rw [h1]
        exact hok (j + 1) (by omega))
      (by
        rw [hp1, hnext]
        have h1 : st.polls + 1 + k = st.polls + (k + 1) := by omega
        rw [h1]
        exact herr)
      (by rw [hnext]; exact hlt)
      (by omega)
    rw [hrec]
    have hm : (List.range (k + 1 + 1)).map (fun j => (st.after env id j).wake)
        = st.wake :: (List.range (k + 1)).map (fun j => ((st.next d0).after env id j).wake) := by
      rw [List.range_succ_eq_map, List.map_cons, List.map_map]
      refine congrArg₂ List.cons rfl ?_
      apply List.map_congr_left
      intro j _
      show (st.after env id (j + 1)).wake = ((st.next d0).after env id j).wake
      rw [hnext]
    rw [hm]
    rfl

/-- C15. Delete confirmation success: after an acknowledged delete call, if the first
poll's `GetPod` fails (a NotFound failure is such an error), `PodResource.Delete` returns
after that single poll with no diagnostic.  More generally, if the first `k` polls of the
run succeed, however long each takes, and poll `k + 1`, issued before the timer of the
bound has fired, fails, Delete returns after exactly `k + 1` polls, with no error and no
warning; poll `j` is issued at the instant `select` proceeds after `j` polls, which is the
firing `j + 1` of the ticker when every poll returns before the next firing.  In every
run a poll that fails is the last one and leaves no diagnostic. -/
theorem delete_confirmed_at_first_failure (DeletePod : String → Except String Unit)
    (env : WaitEnv) (state : PodResourceModel)
    (hack : DeletePod state.ID.ValueString = .ok ()) :
    (∀ (fuel : Nat) (e : String) (d : Nat),
      env.GetPod 0 pollInterval state.ID.ValueString = (.error e, d) →
      PodResource.Delete DeletePod env (fuel + 1) state
        = some { Diagnostics := []
                 Calls := [{ Method := "DELETE", Path := "/pods/" ++ state.ID.ValueString },
                           { Method := "GET", Path := "/pods/" ++ state.ID.ValueString }]
                 PollTimes := [pollInterval] }) ∧
    (∀ (k fuel : Nat) (e : String) (d : Nat),
      (∀ j, j < k → ∃ p dj,
        env.GetPod j (WaitState.after env state.ID.ValueString {} j).wake
          state.ID.ValueString = (.ok p, dj)) →
      env.GetPod k (WaitState.after env state.ID.ValueString {} k).wake
        state.ID.ValueString = (.error e, d) →
      (WaitState.after env state.ID.ValueString {} k).wake < deleteTimeout →
      k + 1 ≤ fuel →
      PodResource.Delete DeletePod env fuel state
        = some { Diagnostics := []
                 Calls := { Method := "DELETE", Path := "/pods/" ++ state.ID.ValueString } ::
                   List.replicate (k + 1)
                     { Method := "GET", Path := "/pods/" ++ state.ID.ValueString }
                 PollTimes := (List.range (k + 1)).map
                   (fun j => (WaitState.after env state.ID.ValueString {} j).wake) }) ∧
    (∀ (k fuel : Nat) (e : String) (d : Nat), (k + 1) * pollInterval < deleteTimeout →
      (∀ j, j < k → ∃ p dj,
        env.GetPod j ((j + 1) * pollInterval) state.ID.ValueString = (.ok p, dj) ∧
        dj < pollInterval) →
      env.GetPod k ((k + 1) * pollInterval) state.ID.ValueString = (.error e, d) →
      k + 1 ≤ fuel →
      PodResource.Delete DeletePod env fuel state
        = some { Diagnostics := []
                 Calls := { Method := "DELETE", Path := "/pods/" ++ state.ID.ValueString } ::
                   List.replicate (k + 1)
                     { Method := "GET", Path := "/pods/" ++ state.ID.ValueString }
                 PollTimes := (List.range (k + 1)).map (fun j => (j + 1) * pollInterval) }) ∧
    (∀ (fuel : Nat) (r : DeleteResult) (k t : Nat) (e : String) (d : Nat),
      PodResource.Delete DeletePod env fuel state = some r →
      r.PollTimes[k]? = some t →
      env.GetPod k t state.ID.ValueString = (.error e, d) →
      r.PollTimes.length = k + 1 ∧ r.Diagnostics = []) := by
  refine ⟨?_, ?_, ?_, ?_⟩
  · intro fuel e d herr
    have h := waitForDeletion_first_failure_init env state.ID.ValueString 0 (fuel + 1) e d
      (by decide) (by intro j hj; omega)
      (by
        show env.GetPod 0 ((0 + 1) * pollInterval) state.ID.ValueString = (.error e, d)
        rw [Nat.zero_add, Nat.one_mul]
        exact herr)
      (by omega)
    rw [PodResource.Delete_ok DeletePod env (fuel + 1) state hack, h]
    simp [pollCall, tickTimes_one]
  · intro k fuel e d hok herr hlt hfuel
    have h := waitForDeletion_failure_at env state.ID.ValueString k fuel {} e d
      (by
        intro j hj
        show ∃ p dj, env.GetPod (0 + j) _ _ = (.ok p, dj)
        rw [Nat.zero_add]
        exact hok j hj)
      (by
        show env.GetPod (0 + k) _ _ = (.error e, d)
        rw [Nat.zero_add]
        exact herr)
      hlt hfuel
    rw [PodResource.Delete_ok DeletePod env fuel state hack, h]
    rfl
  · intro k fuel e d hk hok herr hfuel
    have hk2 : k + 1 < 60 := by
      rw [pollInterval_val, deleteTimeout_val] at hk
      omega
    have h := waitForDeletion_first_failure_init env state.ID.ValueString k fuel e d hk2 hok
      herr hfuel
    rw [PodResource.Delete_ok DeletePod env fuel state hack, h]
    rfl
  · intro fuel r k t e d h hk herr
    obtain ⟨r1, hw, hd, hp, _⟩ := PodResource.Delete_ok_wait DeletePod env fuel state r hack h
    rw [hp] at hk
    have h0 : ({} : WaitState).polls + k = k := Nat.zero_add k
    have h1 := waitForDeletion_failure_last env state.ID.ValueString fuel {} r1 hw k t e d hk
      (by rw [h0]; exact herr)
    rw [hd, hp]
    exact ⟨h1.1.symm, h1.2⟩

/-- C15 at a concrete run: the Pod "p1" is still there at the first poll, which takes six
seconds, longer than the period of the ticker, and gone at the second, issued as soon as
the first has returned: Delete returns after these two polls, with no diagnostic. -/
theorem delete_confirmed_at_first_failure_witness :
    PodResource.Delete (fun _ => .ok ())
        { GetPod := fun j _ _ =>
            if j < 1 then (.ok { ID := "p1" }, 6 * Second)
            else (.error "API request failed with status 404: pod not found", 1000)
          pick := fun _ => true }
        2 { ID := .known "p1" }
      = some { Diagnostics := []
               Calls := [{ Method := "DELETE", Path := "/pods/p1" },
                         { Method := "GET", Path := "/pods/p1" },
                         { Method := "GET", Path := "/pods/p1" }]
               PollTimes := [5000000000, 11000000000] } :=
  ((delete_confirmed_at_first_failure (fun _ => .ok ())
      { GetPod := fun j _ _ =>
          if j < 1 then (.ok { ID := "p1" }, 6 * Second)
          else (.error "API request failed with status 404: pod not found", 1000)
        pick := fun _ => true }
      { ID := .known "p1" } rfl).2.1 1 2
    "API request failed with status 404: pod not found" 1000
    (by
      intro j hj
      exact ⟨{ ID := "p1" }, 6 * Second, by simp [hj]⟩)
    rfl (by decide) (by decide)).trans (by decide)

/-- C16, as stated, fails: the first poll fails with a status 500 (the second would report
the Pod gone); the failure is not swallowed: Delete returns after that single poll,
without diagnostic, and the second poll is never made. -/
theorem transient_error_ends_wait :
    PodResource.Delete (fun _ => .ok ())
        { GetPod := fun j _ _ =>
            if j = 0 then (.error "API request failed with status 500: internal error", 0)
            else (.error "API request failed with status 404: pod not found", 0)
          pick := fun _ => true }
        10 { ID := .known "p1" }
      = some { Diagnostics := []
               Calls := [{ Method := "DELETE", Path := "/pods/p1" },
                         { Method := "GET", Path := "/pods/p1" }]
               PollTimes := [5000000000] } := by
  decide

/-- C16, amended. During the wait of Pod Delete a poll whose `GetPod` fails, with whatever
error (NotFound, transport failure, 5xx rejection, decode failure), is the last poll and
ends the wait without diagnostic; a further poll is made only after a poll that
succeeded; and a failure of the first poll makes Delete return after that poll. -/
theorem any_failure_ends_wait (DeletePod : String → Except String Unit) (env : WaitEnv)
    (state : PodResourceModel) (hack : DeletePod state.ID.ValueString = .ok ()) :
    (∀ (fuel : Nat) (r : DeleteResult),
      PodResource.Delete DeletePod env fuel state = some r →
      (∀ j t e d, r.PollTimes[j]? = some t →
        env.GetPod j t state.ID.ValueString = (.error e, d) →
        j + 1 = r.PollTimes.length ∧ r.Diagnostics = []) ∧
      (∀ j t, r.PollTimes[j]? = some t → j + 1 < r.PollTimes.length →
        ∃ p d, env.GetPod j t state.ID.ValueString = (.ok p, d))) ∧
    (∀ (fuel : Nat) (e : String) (d : Nat),
      env.GetPod 0 pollInterval state.ID.ValueString = (.error e, d) →
      ∃ r, PodResource.Delete DeletePod env (fuel + 1) state = some r ∧
        r.Diagnostics = [] ∧ r.PollTimes = [pollInterval]) := by
  refine ⟨?_, ?_⟩
  · intro fuel r h
    rw [PodResource.Delete_ok DeletePod env fuel state hack] at h
    cases hw : waitForDeletion env state.ID.ValueString fuel {} with
    | none => simp [hw] at h
    | some r1 =>
      simp only [hw, Option.map_some', Option.some.injEq] at h
      subst h
      have hlast : ∀ j t e d, r1.PollTimes[j]? = some t →
          env.GetPod j t state.ID.ValueString = (.error e, d) →
          j + 1 = r1.PollTimes.length ∧ r1.Diagnostics = [] := by
        intro j t e d hj hge
        have h0 : ({} : WaitState).polls + j = j := Nat.zero_add j
        exact waitForDeletion_failure_last env state.ID.ValueString fuel {} r1 hw j t e d hj
          (by rw [h0]; exact hge)
      refine ⟨hlast, ?_⟩
      intro j t hj hlt
      rcases hg : env.GetPod j t state.ID.ValueString with ⟨e | p, d⟩
      · have := (hlast j t e d hj hg).1
        have hlt2 : j + 1 < r1.PollTimes.length := hlt
        omega
      · exact ⟨p, d, rfl⟩
  · intro fuel e d herr
    have h := waitForDeletion_first_failure_init env state.ID.ValueString 0 (fuel + 1) e d
      (by decide) (by intro j hj; omega)
      (by
        show env.GetPod 0 ((0 + 1) * pollInterval) state.ID.ValueString = (.error e, d)
        rw [Nat.zero_add, Nat.one_mul]
        exact herr)
      (by omega)
    rw [PodResource.Delete_ok DeletePod env (fuel + 1) state hack, h]
    exact ⟨_, rfl, rfl, tickTimes_one⟩

/-- C16, amended, at the run whose first poll fails with a status 500. -/
theorem any_failure_ends_wait_witness :
    ∃ r, PodResource.Delete (fun _ => .ok ())
        { GetPod := fun j _ _ =>
            if j = 0 then (.error "API request failed with status 500: internal error", 0)
            else (.error "API request failed with status 404: pod not found", 0)
          pick := fun _ => true }
        (9 + 1) { ID := .known "p1" } = some r ∧
      r.Diagnostics = [] ∧ r.PollTimes = [pollInterval] :=
  (any_failure_ends_wait (fun _ => .ok ())
      { GetPod := fun j _ _ =>
          if j = 0 then (.error "API request failed with status 500: internal error", 0)
          else (.error "API request failed with status 404: pod not found", 0)
        pick := fun _ => true }
      { ID := .known "p1" } rfl).2 9 "API request failed with status 500: internal error" 0 rfl

/-- C17. Delete confirmation timeout is a warning, not an error: after an acknowledged
delete call, if every poll's `GetPod` succeeds, whatever Delete returns carries exactly one
diagnostic, the warning "Timeout", and no error; and Delete does return, within 60 polls
when every poll returns before the next firing of the ticker, and within `N` polls when
the select reached after `N` polls (60 or more) takes the timer case. -/
theorem delete_timeout_is_warning (DeletePod : String → Except String Unit) (env : WaitEnv)
    (state : PodResourceModel) (hack : DeletePod state.ID.ValueString = .ok ())
    (hok : ∀ j t, ∃ p d, env.GetPod j t state.ID.ValueString = (.ok p, d)) :
    (∀ (fuel : Nat) (r : DeleteResult),
      PodResource.Delete DeletePod env fuel state = some r →
      r.Diagnostics = [.warning "Timeout" "Timed out waiting for pod to be deleted"] ∧
      HasError r.Diagnostics = false) ∧
    ((∀ j t, (env.GetPod j t state.ID.ValueString).2 < pollInterval) →
      ∀ fuel, 61 ≤ fuel →
      ∃ r, PodResource.Delete DeletePod env fuel state = some r ∧
        r.Diagnostics = [.warning "Timeout" "Timed out waiting for pod to be deleted"] ∧
        r.PollTimes.length ≤ 60) ∧
    (∀ N, 60 ≤ N → env.pick N = false → ∀ fuel, N + 1 ≤ fuel →
      ∃ r, PodResource.Delete DeletePod env fuel state = some r ∧
        r.Diagnostics = [.warning "Timeout" "Timed out waiting for pod to be deleted"] ∧
        r.PollTimes.length ≤ N) := by
  have hpartial : ∀ (fuel : Nat) (r1 : DeleteResult),
      waitForDeletion env state.ID.ValueString fuel {} = some r1 →
      r1.Diagnostics = [.warning "Timeout" "Timed out waiting for pod to be deleted"] := by
    intro fuel r1 hw
    rcases waitForDeletion_outcome env state.ID.ValueString fuel {} r1 hw with
      ⟨_, n, t, e, d, _, _, herr⟩ | ⟨hd, _⟩
    · obtain ⟨p, d2, hp⟩ := hok (({} : WaitState).polls + n) t
      rw [hp] at herr
      cases herr
    · exact hd
  refine ⟨?_, ?_, ?_⟩
  · intro fuel r h
    obtain ⟨r1, hw, hd, _, _⟩ := PodResource.Delete_ok_wait DeletePod env fuel state r hack h
    have := hpartial fuel r1 hw
    rw [hd, this]
    exact ⟨rfl, by decide⟩
  · intro htimely fuel hfuel
    obtain ⟨r1, hw, hlen⟩ := waitForDeletion_onTime_bounded env state.ID.ValueString htimely
      fuel {} WaitState.OnTime_init (by decide) (by show 61 ≤ 0 + fuel; omega)
    rw [PodResource.Delete_ok DeletePod env fuel state hack, hw]
    refine ⟨_, rfl, hpartial fuel r1 hw, ?_⟩
    have h0 : ({} : WaitState).polls = 0 := rfl
    rw [h0] at hlen
    show r1.PollTimes.length ≤ 60
    omega
  · intro N hN hpick fuel hfuel
    obtain ⟨r1, hw, hlen⟩ := waitForDeletion_fair_bounded env state.ID.ValueString N hN hpick
      fuel {} WaitState.Inv_init (by show 0 ≤ N; omega) (by show N + 1 ≤ 0 + fuel; omega)
    rw [PodResource.Delete_ok DeletePod env fuel state hack, hw]
    refine ⟨_, rfl, hpartial fuel r1 hw, ?_⟩
    have h0 : ({} : WaitState).polls = 0 := rfl
    rw [h0] at hlen
    show r1.PollTimes.length ≤ N
    omega

/-- C17 at a concrete run: the Pod "p1" never disappears and every poll takes one
second. -/
theorem delete_timeout_is_warning_witness :
    ∃ r, PodResource.Delete (fun _ => .ok ())
        { GetPod := fun _ _ _ => (.ok { ID := "p1" }, Second), pick := fun _ => true }
        61 { ID := .known "p1" } = some r ∧
      r.Diagnostics = [.warning "Timeout" "Timed out waiting for pod to be deleted"] ∧
      r.PollTimes.length ≤ 60 :=
  (delete_timeout_is_warning (fun _ => .ok ())
      { GetPod := fun _ _ _ => (.ok { ID := "p1" }, Second), pick := fun _ => true }
      { ID := .known "p1" } rfl (fun _ _ => ⟨{ ID := "p1" }, Second, rfl⟩)).2.1
    (fun _ _ => (by decide : Second < pollInterval)) 61 (by decide)

/-- C18, as stated, fails for Endpoint and NetworkVolume: after an acknowledged delete call
their Delete returns at once; the only request issued is the delete, no Read follows. -/
theorem endpoint_and_volume_delete_do_not_poll :
    EndpointResource.Delete (fun _ => .ok ()) { ID := .known "e1" }
      = { Diagnostics := [], Calls := [{ Method := "DELETE", Path := "/endpoints/e1" }],
          PollTimes := [] } ∧
    NetworkVolumeResource.Delete (fun _ => .ok ()) { ID := .known "v1" }
      = { Diagnostics := [], Calls := [{ Method := "DELETE", Path := "/networkvolumes/v1" }],
          PollTimes := [] } := by
  refine ⟨by decide, by decide⟩

/-- C18, amended. Only Pod Delete waits for the deletion: after an acknowledged delete call
it polls `GET /pods/{id}`, at least once, and returns once a poll has failed or the timer
case is taken; Endpoint Delete and NetworkVolume Delete issue the delete request alone and
return, whatever the answer. -/
theorem only_pod_delete_polls :
    (∀ (DeletePod : String → Except String Unit) (env : WaitEnv) (fuel : Nat)
        (state : PodResourceModel) (r : DeleteResult),
      DeletePod state.ID.ValueString = .ok () →
      PodResource.Delete DeletePod env fuel state = some r →
      r.Calls = { Method := "DELETE", Path := "/pods/" ++ state.ID.ValueString } ::
        List.replicate r.PollTimes.length
          { Method := "GET", Path := "/pods/" ++ state.ID.ValueString } ∧
      r.PollTimes.head? = some pollInterval ∧
      ((r.Diagnostics = [] ∧ ∃ n t e d, r.PollTimes.length = n + 1 ∧
          r.PollTimes[n]? = some t ∧
          env.GetPod n t state.ID.ValueString = (.error e, d)) ∨
        r.Diagnostics = [.warning "Timeout" "Timed out waiting for pod to be deleted"])) ∧
    (∀ (DeleteEndpoint : String → Except String Unit) (state : EndpointResourceModel),
      (EndpointResource.Delete DeleteEndpoint state).Calls
        = [{ Method := "DELETE", Path := "/endpoints/" ++ state.ID.ValueString }] ∧
      (EndpointResource.Delete DeleteEndpoint state).PollTimes = []) ∧
    (∀ (DeleteNetworkVolume : String → Except String Unit)
        (state : NetworkVolumeResourceModel),
      (NetworkVolumeResource.Delete DeleteNetworkVolume state).Calls
        = [{ Method := "DELETE", Path := "/networkvolumes/" ++ state.ID.ValueString }] ∧
      (NetworkVolumeResource.Delete DeleteNetworkVolume state).PollTimes = []) := by
  refine ⟨?_, ?_, ?_⟩
  · intro DeletePod env fuel state r hack h
    obtain ⟨r1, hw, hd, hp, hc⟩ := PodResource.Delete_ok_wait DeletePod env fuel state r hack h
    refine ⟨?_, ?_, ?_⟩
    · rw [hc, hp, waitForDeletion_calls env state.ID.ValueString fuel {} r1 hw]
      rfl
    · rw [hp]
      exact waitForDeletion_polls_once env state.ID.ValueString fuel r1 hw
    · rw [hd, hp]
      rcases waitForDeletion_outcome env state.ID.ValueString fuel {} r1 hw with
        ⟨hd1, n, t, e, d, hlen, hget, herr⟩ | ⟨hd1, _⟩
      · left
        refine ⟨hd1, n, t, e, d, hlen, hget, ?_⟩
        have h0 : ({} : WaitState).polls + n = n := Nat.zero_add n
        rw [h0] at herr
        exact herr
      · right
        exact hd1
  · intro f state
    unfold EndpointResource.Delete
    split <;> exact ⟨rfl, rfl⟩
  · intro f state
    unfold NetworkVolumeResource.Delete
    split <;> exact ⟨rfl, rfl⟩

/-- C18, amended, at a concrete Pod run: the Pod "p1" is gone at the second poll. -/
theorem only_pod_delete_polls_witness :
    PodResource.Delete (fun _ => .ok ())
        { GetPod := fun j _ _ =>
            if j < 1 then (.ok { ID := "p1" }, 0)
            else (.error "API request failed with status 404: pod not found", 0)
          pick := fun _ => true }
        5 { ID := .known "p1" }
      = some { Diagnostics := []
               Calls := [{ Method := "DELETE", Path := "/pods/p1" },
                         { Method := "GET", Path := "/pods/p1" },
                         { Method := "GET", Path := "/pods/p1" }]
               PollTimes := [5000000000, 10000000000] } ∧
    ({ Diagnostics := []
       Calls := [{ Method := "DELETE", Path := "/pods/p1" },
                 { Method := "GET", Path := "/pods/p1" },
                 { Method := "GET", Path := "/pods/p1" }]
       PollTimes := [5000000000, 10000000000] } : DeleteResult).PollTimes.head?
      = some pollInterval :=
  ⟨by decide,
   (only_pod_delete_polls.1 (fun _ => .ok ())
      { GetPod := fun j _ _ =>
          if j < 1 then (.ok { ID := "p1" }, 0)
          else (.error "API request failed with status 404: pod not found", 0)
        pick := fun _ => true }
      5 { ID := .known "p1" } _ rfl (by decide)).2.1⟩

/-- A request issued once the context is done, or in flight when it becomes done, fails. -/
theorem underContext_error (c : Nat) (GetPod : Nat → Nat → String → Except String Pod × Nat)
    (j t : Nat) (id : String) (h : c ≤ t ∨ c < t + (GetPod j t id).2) :
    ∃ e d, underContext c GetPod j t id = (.error e, d) := by
  unfold underContext
  by_cases h1 : c ≤ t
  · rw [if_pos h1]
    exact ⟨_, _, rfl⟩
  · rw [if_neg h1]
    have h2 : c < t + (GetPod j t id).2 := by
      rcases h with h | h
      · exact absurd h h1
      · exact h
    rw [if_pos h2]
    exact ⟨_, _, rfl⟩

/-- C19, as stated, fails: the context is cancelled 7 seconds into the wait, while the
Pod "p1" is still there; the poll at 10 seconds fails under the cancelled context and
Delete returns with no diagnostic at all, as for a confirmed deletion, not with a
warning. -/
theorem cancellation_looks_like_confirmation :
    PodResource.Delete (fun _ => .ok ())
        { GetPod := underContext (7 * Second) (fun _ _ _ => (.ok { ID := "p1" }, 0))
          pick := fun _ => true }
        10 { ID := .known "p1" }
      = some { Diagnostics := []
               Calls := [{ Method := "DELETE", Path := "/pods/p1" },
                         { Method := "GET", Path := "/pods/p1" },
                         { Method := "GET", Path := "/pods/p1" }]
               PollTimes := [5000000000, 10000000000] } := by
  decide

/-- C19, amended. The loop of Pod Delete does not watch the context: a cancellation takes
effect through the next poll only.  A poll issued once the context is done, or in flight
when it becomes done, fails and is the last poll, and Delete then returns without
diagnostic, as for a confirmed deletion; from a select reached once the context is done
the loop exits in one iteration, with the timeout warning only if the bound has elapsed by
then; and a cancellation before the first firing of the ticker makes Delete return after
one poll with no diagnostic. -/
theorem cancellation_ends_wait_silently (DeletePod : String → Except String Unit)
    (GetPod : Nat → Nat → String → Except String Pod × Nat) (pick : Nat → Bool) (c : Nat)
    (state : PodResourceModel) (hack : DeletePod state.ID.ValueString = .ok ()) :
    (∀ (fuel : Nat) (r : DeleteResult),
      PodResource.Delete DeletePod { GetPod := underContext c GetPod, pick := pick } fuel state
        = some r →
      ∀ j t, r.PollTimes[j]? = some t →
        (c ≤ t ∨ c < t + (GetPod j t state.ID.ValueString).2) →
        j + 1 = r.PollTimes.length ∧ r.Diagnostics = []) ∧
    (∀ (fuel : Nat) (st : WaitState), c ≤ st.wake →
      ∃ r, waitForDeletion { GetPod := underContext c GetPod, pick := pick }
          state.ID.ValueString (fuel + 1) st = some r ∧
        ((r.Diagnostics = [] ∧ r.PollTimes = [st.wake]) ∨
         (r.Diagnostics = [.warning "Timeout" "Timed out waiting for pod to be deleted"] ∧
           r.PollTimes = [] ∧ deleteTimeout ≤ st.wake))) ∧
    (c ≤ pollInterval → ∀ fuel : Nat,
      PodResource.Delete DeletePod { GetPod := underContext c GetPod, pick := pick }
          (fuel + 1) state
        = some { Diagnostics := []
                 Calls := [{ Method := "DELETE", Path := "/pods/" ++ state.ID.ValueString },
                           { Method := "GET", Path := "/pods/" ++ state.ID.ValueString }]
                 PollTimes := [pollInterval] }) := by
  refine ⟨?_, ?_, ?_⟩
  · intro fuel r h j t hj hc
    obtain ⟨r1, hw, hd, hp, _⟩ := PodResource.Delete_ok_wait DeletePod _ fuel state r hack h
    obtain ⟨e, d, herr⟩ := underContext_error c GetPod j t state.ID.ValueString hc
    rw [hd, hp]
    rw [hp] at hj
    have h0 : ({} : WaitState).polls + j = j := Nat.zero_add j
    exact waitForDeletion_failure_last { GetPod := underContext c GetPod, pick := pick }
      state.ID.ValueString fuel {} r1 hw j t e d hj (by rw [h0]; exact herr)
  · intro fuel st hc
    by_cases hto : takesTimeout { GetPod := underContext c GetPod, pick := pick } st = true
    · rw [waitForDeletion_timeout _ _ fuel st hto]
      refine ⟨_, rfl, Or.inr ⟨rfl, rfl, ?_⟩⟩
      have hr : st.timeoutReady = true := by
        simp only [takesTimeout, Bool.and_eq_true] at hto
        exact hto.1
      simpa [WaitState.timeoutReady] using hr
    · have hto2 : takesTimeout { GetPod := underContext c GetPod, pick := pick } st = false := by
        simpa using hto
      obtain ⟨e, d, herr⟩ :=
        underContext_error c GetPod st.polls st.wake state.ID.ValueString (Or.inl hc)
      rw [waitForDeletion_error _ _ fuel st e d hto2 herr]
      exact ⟨_, rfl, Or.inl ⟨rfl, rfl⟩⟩
  · intro hc fuel
    obtain ⟨e, d, herr⟩ :=
      underContext_error c GetPod 0 pollInterval state.ID.ValueString (Or.inl hc)
    have h := waitForDeletion_first_failure_init
      { GetPod := underContext c GetPod, pick := pick } state.ID.ValueString 0 (fuel + 1) e d
      (by decide) (by intro j hj; omega)
      (by
        show underContext c GetPod 0 ((0 + 1) * pollInterval) state.ID.ValueString
          = (.error e, d)
        rw [Nat.zero_add, Nat.one_mul]
        exact herr)
      (by omega)
    rw [PodResource.Delete_ok DeletePod _ (fuel + 1) state hack, h]
    simp [pollCall, tickTimes_one]

/-- C19, amended, at a concrete run: the context is cancelled 3 seconds into the wait. -/
theorem cancellation_ends_wait_silently_witness :
    PodResource.Delete (fun _ => .ok ())
        { GetPod := underContext (3 * Second) (fun _ _ _ => (.ok { ID := "p1" }, 0))
          pick := fun _ => true }
        (0 + 1) { ID := .known "p1" }
      = some { Diagnostics := []
               Calls := [{ Method := "DELETE", Path := "/pods/" ++ "p1" },
                         { Method := "GET", Path := "/pods/" ++ "p1" }]
               PollTimes := [pollInterval] } :=
  (cancellation_ends_wait_silently (fun _ => .ok ()) (fun _ _ _ => (.ok { ID := "p1" }, 0))
      (fun _ => true) (3 * Second) { ID := .known "p1" } rfl).2.2 (by decide) 0

/-- C20, as stated, fails: each `GetPod` succeeds but takes 6 seconds, so a tick is pending
whenever a poll returns; the select takes the ticker case whenever both cases are ready
until 61 polls are made: Delete issues 61 polls before it returns with the warning. -/
theorem slow_polls_exceed_sixty :
    (PodResource.Delete (fun _ => .ok ())
        { GetPod := fun _ _ _ => (.ok { ID := "p1" }, 6 * Second)
          pick := fun n => decide (n < 61) }
        100 { ID := .known "p1" }).map (fun r => (r.Diagnostics, r.PollTimes.length))
      = some ([.warning "Timeout" "Timed out waiting for pod to be deleted"], 61) := by
  decide

/-- C20, amended. Pod Delete issues no poll before the first interval has elapsed: the poll
of index `j` is issued after `j + 1` intervals at the earliest, so that the polls issued up
to the bound are among the first 60.  When every `GetPod` returns before the next firing
of the ticker, Delete returns after at most 60 polls; in general it returns within `N`
polls as soon as the select reached after `N` polls (60 or more) takes the timer case. -/
theorem delete_polls_bounded (DeletePod : String → Except String Unit) (env : WaitEnv)
    (state : PodResourceModel) (hack : DeletePod state.ID.ValueString = .ok ()) :
    (∀ (fuel : Nat) (r : DeleteResult),
      PodResource.Delete DeletePod env fuel state = some r →
      (∀ j t, r.PollTimes[j]? = some t → (j + 1) * pollInterval ≤ t) ∧
      (∀ t, t ∈ r.PollTimes → pollInterval ≤ t) ∧
      (∀ j t, r.PollTimes[j]? = some t → t ≤ deleteTimeout → j < 60)) ∧
    ((∀ j t, (env.GetPod j t state.ID.ValueString).2 < pollInterval) →
      ∀ fuel, 61 ≤ fuel →
      ∃ r, PodResource.Delete DeletePod env fuel state = some r ∧ r.PollTimes.length ≤ 60) ∧
    (∀ N, 60 ≤ N → env.pick N = false → ∀ fuel, N + 1 ≤ fuel →
      ∃ r, PodResource.Delete DeletePod env fuel state = some r ∧ r.PollTimes.length ≤ N) := by
  refine ⟨?_, ?_, ?_⟩
  · intro fuel r h
    obtain ⟨r1, hw, _, hp, _⟩ := PodResource.Delete_ok_wait DeletePod env fuel state r hack h
    have hidx : ∀ j t, r.PollTimes[j]? = some t → (j + 1) * pollInterval ≤ t := by
      intro j t hj
      rw [hp] at hj
      have h1 := waitForDeletion_pollTimes env state.ID.ValueString fuel {} r1
        WaitState.Inv_init hw j t hj
      have h0 : ({} : WaitState).polls + j + 1 = j + 1 := by
        show 0 + j + 1 = j + 1
        omega
      rw [h0] at h1
      exact h1
    refine ⟨hidx, ?_, ?_⟩
    · intro t ht
      obtain ⟨j, hj⟩ := List.mem_iff_getElem?.mp ht
      have h1 := hidx j t hj
      have h2 : 1 * pollInterval ≤ (j + 1) * pollInterval := Nat.mul_le_mul_right _ (by omega)
      omega
    · intro j t hj ht
      have h1 := hidx j t hj
      rw [pollInterval_val] at h1
      rw [deleteTimeout_val] at ht
      omega
  · intro htimely fuel hfuel
    obtain ⟨r1, hw, hlen⟩ := waitForDeletion_onTime_bounded env state.ID.ValueString htimely
      fuel {} WaitState.OnTime_init (by decide) (by show 61 ≤ 0 + fuel; omega)
    rw [PodResource.Delete_ok DeletePod env fuel state hack, hw]
    refine ⟨_, rfl, ?_⟩
    have h0 : ({} : WaitState).polls = 0 := rfl
    rw [h0] at hlen
    show r1.PollTimes.length ≤ 60
    omega
  · intro N hN hpick fuel hfuel
    obtain ⟨r1, hw, hlen⟩ := waitForDeletion_fair_bounded env state.ID.ValueString N hN hpick
      fuel {} WaitState.Inv_init (by show 0 ≤ N; omega) (by show N + 1 ≤ 0 + fuel; omega)
    rw [PodResource.Delete_ok DeletePod env fuel state hack, hw]
    refine ⟨_, rfl, ?_⟩
    have h0 : ({} : WaitState).polls = 0 := rfl
    rw [h0] at hlen
    show r1.PollTimes.length ≤ N
    omega

/-- C20, amended, at a concrete run: the Pod "p1" never disappears and every poll takes
one second. -/
theorem delete_polls_bounded_witness :
    ∃ r, PodResource.Delete (fun _ => .ok ())
        { GetPod := fun _ _ _ => (.ok { ID := "p1" }, Second), pick := fun _ => true }
        61 { ID := .known "p1" } = some r ∧ r.PollTimes.length ≤ 60 :=
  (delete_polls_bounded (fun _ => .ok ())
      { GetPod := fun _ _ _ => (.ok { ID := "p1" }, Second), pick := fun _ => true }
      { ID := .known "p1" } rfl).2.1
    (fun _ _ => (by decide : Second < pollInterval)) 61 (by decide)

/-! ### The transport, the provider and the data sources -/

@[simp] theorem Traced.pure_value {ε α : Type} (a : α) : (pure a : Traced ε α).value = a := rfl

@[simp] theorem Traced.pure_sent {ε α : Type} (a : α) : (pure a : Traced ε α).sent = [] := rfl

@[simp] theorem Traced.bind_value {ε α β : Type} (x : Traced ε α) (f : α → Traced ε β) :
    (x >>= f).value = (f x.value).value := rfl

@[simp] theorem Traced.bind_sent {ε α β : Type} (x : Traced ε α) (f : α → Traced ε β) :
    (x >>= f).sent = x.sent ++ (f x.value).sent := rfl

@[simp] theorem traced_value {α β : Type} (f : α → β) (a : α) : (traced f a).value = f a := rfl

@[simp] theorem traced_sent {α β : Type} (f : α → β) (a : α) : (traced f a).sent = [a] := rfl

/-- C27. For every prior state, whatever its actual_data_center, and every remote Pod
record, the state `updateStateFromPod` returns has actual_data_center set to the empty
string: the value is a constant of the merge, read from neither argument. -/
theorem actual_data_center_always_empty (data : PodResourceModel) (pod : Pod) :
    (updateStateFromPod data pod).ActualDataCenter = .known "" := rfl

/-- C30. When the delete call returns an error, Pod Delete returns at once, whatever the
surroundings of the wait and the fuel: its response holds exactly one diagnostic, the error
that carries the text of the client, it has issued the DELETE request alone and no poll,
and the timeout warning is absent.  Endpoint and NetworkVolume Delete likewise report
exactly that one error diagnostic. -/
theorem rejected_delete_is_not_polled
    (DeletePod : String → Except String Unit) (env : WaitEnv) (fuel : Nat)
    (state : PodResourceModel) (err : String)
    (DeleteEndpoint : String → Except String Unit) (endpointState : EndpointResourceModel)
    (endpointErr : String)
    (DeleteNetworkVolume : String → Except String Unit)
    (volumeState : NetworkVolumeResourceModel) (volumeErr : String)
    (hpod : DeletePod state.ID.ValueString = .error err)
    (hendpoint : DeleteEndpoint endpointState.ID.ValueString = .error endpointErr)
    (hvolume : DeleteNetworkVolume volumeState.ID.ValueString = .error volumeErr) :
    (∃ r, PodResource.Delete DeletePod env fuel state = some r ∧
      r.Diagnostics = [.error "Client Error" ("Unable to delete pod, got error: " ++ err)] ∧
      (r.Diagnostics.filter Diagnostic.isError).length = 1 ∧
      timeoutWarning ∉ r.Diagnostics ∧
      r.PollTimes = [] ∧
      r.Calls = [{ Method := "DELETE", Path := "/pods/" ++ state.ID.ValueString }]) ∧
    ((EndpointResource.Delete DeleteEndpoint endpointState).Diagnostics
        = [.error "Client Error" ("Unable to delete endpoint, got error: " ++ endpointErr)] ∧
      ((EndpointResource.Delete DeleteEndpoint endpointState).Diagnostics.filter
        Diagnostic.isError).length = 1) ∧
    ((NetworkVolumeResource.Delete DeleteNetworkVolume volumeState).Diagnostics
        = [.error "Client Error"
            ("Unable to delete network volume, got error: " ++ volumeErr)] ∧
      ((NetworkVolumeResource.Delete DeleteNetworkVolume volumeState).Diagnostics.filter
        Diagnostic.isError).length = 1) := by
  refine ⟨⟨{ Diagnostics :=
                [.error "Client Error" ("Unable to delete pod, got error: " ++ err)],
              Calls := [{ Method := "DELETE", Path := "/pods/" ++ state.ID.ValueString }] },
            by simp only [PodResource.Delete, hpod], rfl, rfl, ?_, rfl, rfl⟩, ?_, ?_⟩
  · simp [timeoutWarning]
  · simp [EndpointResource.Delete, hendpoint, Diagnostic.isError]
  · simp [NetworkVolumeResource.Delete, hvolume, Diagnostic.isError]

/-- C30 at a Pod, an Endpoint and a NetworkVolume whose delete call is rejected with
status 403, under a wait whose polls would all succeed: Pod Delete, started with no fuel
at all, has sent the DELETE request only. -/
theorem rejected_delete_is_not_polled_witness :
    ∃ r, PodResource.Delete (fun _ => .error "API request failed with status 403: no")
        { GetPod := fun _ _ _ => (.ok { ID := "p1" }, 0), pick := fun _ => true } 0
        { ID := .known "p1" } = some r ∧
      r.Diagnostics = [.error "Client Error"
        ("Unable to delete pod, got error: " ++ "API request failed with status 403: no")] ∧
      (r.Diagnostics.filter Diagnostic.isError).length = 1 ∧
      timeoutWarning ∉ r.Diagnostics ∧
      r.PollTimes = [] ∧
      r.Calls = [{ Method := "DELETE",
                   Path := "/pods/" ++ (TfValue.known "p1" : TfString).ValueString }] :=
  (rejected_delete_is_not_polled (fun _ => .error "API request failed with status 403: no")
    { GetPod := fun _ _ _ => (.ok { ID := "p1" }, 0), pick := fun _ => true } 0
    { ID := .known "p1" } "API request failed with status 403: no"
    (fun _ => .error "API request failed with status 403: no") { ID := .known "e1" }
    "API request failed with status 403: no"
    (fun _ => .error "API request failed with status 403: no") { ID := .known "v1" }
    "API request failed with status 403: no" rfl rfl rfl).1

/-- C29. A successful Pod or Endpoint Update writes the merge of the remote record onto
the plan: every attribute the merge does not write has the value of the plan in the state
written, and so has every attribute the merge keeps when the record reports it empty or
zero; the response is the same whatever prior state the request carries. -/
theorem update_folds_onto_plan
    (UpdatePod : String → PodUpdateInput → Except String Pod)
    (req : UpdateRequest PodResourceModel) (pod : Pod)
    (UpdateEndpoint : String → EndpointUpdateInput → Except String Endpoint)
    (endpointReq : UpdateRequest EndpointResourceModel) (endpoint : Endpoint)
    (hplan : HasError (PodResource.updateInput req.Plan).1 = false)
    (hcall : UpdatePod req.Plan.ID.ValueString (PodResource.updateInput req.Plan).2 = .ok pod)
    (hendpointPlan : HasError (EndpointResource.updateInput endpointReq.Plan).1 = false)
    (hendpointCall : UpdateEndpoint endpointReq.Plan.ID.ValueString
      (EndpointResource.updateInput endpointReq.Plan).2 = .ok endpoint) :
    (∃ s, (Id.run (@PodResource.UpdateM Id _ UpdatePod req)).State = some s ∧
      s = updateStateFromPod req.Plan pod ∧
      s.ComputeType = req.Plan.ComputeType ∧
      s.CloudType = req.Plan.CloudType ∧
      s.GPUCount = req.Plan.GPUCount ∧
      s.VCPUCount = req.Plan.VCPUCount ∧
      s.GPUTypeIds = req.Plan.GPUTypeIds ∧
      s.CPUFlavorIds = req.Plan.CPUFlavorIds ∧
      s.DataCenterIds = req.Plan.DataCenterIds ∧
      s.Ports = req.Plan.Ports ∧
      s.Env = req.Plan.Env ∧
      s.DockerEntrypoint = req.Plan.DockerEntrypoint ∧
      s.DockerStartCmd = req.Plan.DockerStartCmd ∧
      s.TemplateId = req.Plan.TemplateId ∧
      s.NetworkVolumeId = req.Plan.NetworkVolumeId ∧
      s.Interruptible = req.Plan.Interruptible ∧
      s.Locked = req.Plan.Locked ∧
      s.MinVCPUPerGPU = req.Plan.MinVCPUPerGPU ∧
      s.MinRAMPerGPU = req.Plan.MinRAMPerGPU ∧
      s.MinDownloadMbps = req.Plan.MinDownloadMbps ∧
      s.MinUploadMbps = req.Plan.MinUploadMbps ∧
      s.MinDiskBandwidthMBps = req.Plan.MinDiskBandwidthMBps ∧
      s.SupportPublicIp = req.Plan.SupportPublicIp ∧
      s.GlobalNetworking = req.Plan.GlobalNetworking ∧
      s.AllowedCudaVersions = req.Plan.AllowedCudaVersions ∧
      s.CountryCodes = req.Plan.CountryCodes ∧
      s.GPUTypePriority = req.Plan.GPUTypePriority ∧
      s.CPUFlavorPriority = req.Plan.CPUFlavorPriority ∧
      s.DataCenterPriority = req.Plan.DataCenterPriority ∧
      s.ContainerRegistryAuthId = req.Plan.ContainerRegistryAuthId ∧
      (pod.ImageName = "" → s.ImageName = req.Plan.ImageName) ∧
      (pod.VolumeInGb = 0 → s.VolumeInGb = req.Plan.VolumeInGb) ∧
      (pod.ContainerDiskInGb = 0 → s.ContainerDiskInGb = req.Plan.ContainerDiskInGb) ∧
      (pod.VolumeMountPath = "" → s.VolumeMountPath = req.Plan.VolumeMountPath)) ∧
    (∀ prior : PodResourceModel,
      Id.run (@PodResource.UpdateM Id _ UpdatePod { req with State := prior })
        = Id.run (@PodResource.UpdateM Id _ UpdatePod req)) ∧
    (∃ s, (Id.run (@EndpointResource.UpdateM Id _ UpdateEndpoint endpointReq)).State = some s ∧
      s = updateStateFromEndpoint endpointReq.Plan endpoint ∧
      s.GPUTypeIds = endpointReq.Plan.GPUTypeIds ∧
      s.CPUFlavorIds = endpointReq.Plan.CPUFlavorIds ∧
      s.DataCenterIds = endpointReq.Plan.DataCenterIds ∧
      s.AllowedCudaVersions = endpointReq.Plan.AllowedCudaVersions ∧
      s.Flashboot = endpointReq.Plan.Flashboot ∧
      (endpoint.GPUCount = 0 → s.GPUCount = endpointReq.Plan.GPUCount) ∧
      (endpoint.VCPUCount = 0 → s.VCPUCount = endpointReq.Plan.VCPUCount) ∧
      (endpoint.WorkersMax = 0 → s.WorkersMax = endpointReq.Plan.WorkersMax) ∧
      (endpoint.IdleTimeout = 0 → s.IdleTimeout = endpointReq.Plan.IdleTimeout) ∧
      (endpoint.ExecutionTimeoutMs = 0 → s.ExecutionTimeoutMs = endpointReq.Plan.ExecutionTimeoutMs) ∧
      (endpoint.ScalerType = "" → s.ScalerType = endpointReq.Plan.ScalerType) ∧
      (endpoint.ScalerValue = 0 → s.ScalerValue = endpointReq.Plan.ScalerValue) ∧
      (endpoint.NetworkVolumeId = "" → s.NetworkVolumeId = endpointReq.Plan.NetworkVolumeId)) ∧
    (∀ prior : EndpointResourceModel,
      Id.run (@EndpointResource.UpdateM Id _ UpdateEndpoint { endpointReq with State := prior })
        = Id.run (@EndpointResource.UpdateM Id _ UpdateEndpoint endpointReq)) := by
  refine ⟨⟨updateStateFromPod req.Plan pod, ?_, rfl, rfl, rfl, rfl, rfl, rfl, rfl, rfl, rfl, rfl, rfl, rfl, rfl, rfl, rfl, rfl, rfl, rfl, rfl, rfl, rfl, rfl, rfl, rfl, rfl, rfl, rfl, rfl, rfl, ?_, ?_, ?_, ?_⟩,
    fun _ => rfl,
    ⟨updateStateFromEndpoint endpointReq.Plan endpoint, ?_, rfl, rfl, rfl, rfl, rfl, rfl,
      ?_, ?_, ?_, ?_, ?_, ?_, ?_, ?_⟩, fun _ => rfl⟩
  · simp [PodResource.UpdateM, hplan, hcall, Id.run]
  · intro h; simp [updateStateFromPod, h]
  · intro h; simp [updateStateFromPod, h]
  · intro h; simp [updateStateFromPod, h]
  · intro h; simp [updateStateFromPod, h]
  · simp [EndpointResource.UpdateM, hendpointPlan, hendpointCall, Id.run]
  · intro h; simp [updateStateFromEndpoint, h]
  · intro h; simp [updateStateFromEndpoint, h]
  · intro h; simp [updateStateFromEndpoint, h]
  · intro h; simp [updateStateFromEndpoint, h]
  · intro h; simp [updateStateFromEndpoint, h]
  · intro h; simp [updateStateFromEndpoint, h]
  · intro h; simp [updateStateFromEndpoint, h]
  · intro h; simp [updateStateFromEndpoint, h]

/-- C29 at a plan that sets image "img" and sizes, a prior state that held image "old",
and a response that reports nothing but the id: the state written holds the image of the
plan. -/
theorem update_folds_onto_plan_witness :
    ∃ s, (Id.run (@PodResource.UpdateM Id _ (fun _ _ => .ok examplePodRecord)
        { Plan := examplePodState, State := { ImageName := .known "old" } })).State = some s ∧
      s.ImageName = .known "img" ∧ s.VolumeInGb = .known 20 := by
  obtain ⟨s, h1, h2, -⟩ :=
    (update_folds_onto_plan (fun _ _ => .ok examplePodRecord)
      { Plan := examplePodState, State := { ImageName := .known "old" } } examplePodRecord
      (fun _ _ => .ok exampleEndpointRecord)
      { Plan := exampleEndpointState, State := {} } exampleEndpointRecord
      (by decide) rfl (by decide) rfl).1
  exact ⟨s, h1, by rw [h2]; decide, by rw [h2]; decide⟩

/-- The requests `doRequest` hands to a recording transport: the one it has built, if it
has built one. -/
theorem Client.doRequest_recorded_sent (c : Client Id) (method path : String)
    (body : Option JsonObject) :
    (c.recorded.doRequest method path body).sent
      = (c.newRequest method path body).toOption.toList := by
  have h : c.recorded.newRequest method path body = c.newRequest method path body := rfl
  unfold Client.doRequest
  rw [h]
  cases c.newRequest method path body with
  | error e => rfl
  | ok req =>
    simp only [Traced.bind_sent, Client.recorded, traced_sent, traced_value, Except.toOption,
      Option.toList]
    cases c.HTTPClient.Do req <;> rfl

/-- The answer `doRequest` gives with a recording transport is the answer it gives with
the transport recorded. -/
theorem Client.doRequest_recorded_value (c : Client Id) (method path : String)
    (body : Option JsonObject) :
    (c.recorded.doRequest method path body).value = Id.run (c.doRequest method path body) := by
  have h : c.recorded.newRequest method path body = c.newRequest method path body := rfl
  unfold Client.doRequest
  rw [h]
  cases c.newRequest method path body with
  | error e => rfl
  | ok req =>
    simp only [Traced.bind_value, Client.recorded, traced_value]
    cases hdo : c.HTTPClient.Do req with
    | error e => simp [hdo, Id.run, bind, pure]
    | ok resp => simp [hdo, Id.run, bind, pure]

/-- A request `newRequest` returns has the method given, the URL `c.BaseURL ++ path`, the
body given and the two header fields. -/
theorem Client.newRequest_ok {m : Type → Type} (c : Client m) (method path : String)
    (body : Option JsonObject) (req : Request) (h : c.newRequest method path body = .ok req) :
    req = { Method := method
            URL := c.BaseURL ++ path
            Header := [("Authorization", "Bearer " ++ c.APIKey),
                       ("Content-Type", "application/json")]
            Body := body } := by
  unfold Client.newRequest at h
  split at h
  · exact absurd h (by simp)
  · split at h
    · exact absurd h (by simp)
    · exact (Except.ok.inj h).symm

/-- C21. For every response the transport returns to `doRequest`: `doRequest` fails
exactly when the status code is at least 400; its error is then the text "API request
failed with status ", the status in decimal, ": " and the text of the body, the same for
every such status; and for a status below 400 it returns the response and no error. -/
theorem doRequest_fails_iff_status_ge_400 (c : Client Id) (method path : String)
    (body : Option JsonObject) (req : Request) (resp : HttpResponse)
    (hreq : c.newRequest method path body = .ok req)
    (hresp : c.HTTPClient.Do req = Except.ok resp) :
    ((∃ err, Id.run (c.doRequest method path body) = .error err) ↔ resp.StatusCode ≥ 400) ∧
    (resp.StatusCode ≥ 400 →
      Id.run (c.doRequest method path body)
        = .error ("API request failed with status " ++ toString resp.StatusCode ++ ": " ++
            resp.Body)) ∧
    (resp.StatusCode < 400 → Id.run (c.doRequest method path body) = .ok resp) := by
  have h : Id.run (c.doRequest method path body) = checkStatus resp := by
    unfold Client.doRequest
    rw [hreq]
    simp [hresp, Id.run, bind, pure]
  rw [h]
  unfold checkStatus
  by_cases hs : resp.StatusCode ≥ 400
  · simp [hs]
  · have hlt : resp.StatusCode < 400 := by omega
    simp [hs, hlt]

/-- C21 at the status 404 with the body "pod not found", for `GET /pods/p1`. -/
theorem doRequest_fails_iff_status_ge_400_witness :
    Id.run ((NewClient
        { NewRequestError := fun _ _ => none
          Do := fun _ => Except.ok { StatusCode := 404, Body := "pod not found" } }
        "key" : Client Id).doRequest "GET" "/pods/p1" none)
      = .error ("API request failed with status " ++ toString (404 : Int) ++ ": " ++
          "pod not found") :=
  (doRequest_fails_iff_status_ge_400
    (NewClient
      { NewRequestError := fun _ _ => none
        Do := fun _ => Except.ok { StatusCode := 404, Body := "pod not found" } } "key")
    "GET" "/pods/p1" none
    { Method := "GET", URL := defaultBaseURL ++ "/pods/p1"
      Header := [("Authorization", "Bearer " ++ "key"), ("Content-Type", "application/json")]
      Body := none }
    { StatusCode := 404, Body := "pod not found" } rfl rfl).2.1 (by decide)

/-- C24. Every request that `doRequest` of the client `NewClient` returns for the key
`apiKey` hands to the transport, for every method, path and body, carries the header
Authorization with the value "Bearer " followed by `apiKey`, and the header Content-Type
with the value application/json; the API key of that client is `apiKey`, and the request
is the only one handed over. -/
theorem every_request_is_authenticated (transport : Transport Id)
    (apiKey method path : String) (body : Option JsonObject) (req : Request)
    (hsent : req ∈ ((NewClient transport apiKey).recorded.doRequest method path body).sent) :
    (NewClient transport apiKey).APIKey = apiKey ∧
    req.Header.lookup "Authorization" = some ("Bearer " ++ apiKey) ∧
    req.Header.lookup "Content-Type" = some "application/json" ∧
    ((NewClient transport apiKey).recorded.doRequest method path body).sent = [req] := by
  rw [Client.doRequest_recorded_sent] at hsent ⊢
  cases hnr : (NewClient transport apiKey).newRequest method path body with
  | error e => simp [hnr, Except.toOption] at hsent
  | ok r =>
    have hr : req = r := by simpa [hnr, Except.toOption] using hsent
    subst hr
    have hshape := Client.newRequest_ok _ method path body req hnr
    refine ⟨rfl, ?_, ?_, by simp [Except.toOption]⟩
    · rw [hshape]
      simp [List.lookup, NewClient]
    · rw [hshape]
      have hne : ("Content-Type" == "Authorization") = false := by decide
      simp [List.lookup, hne]

/-- C24 for `GET /pods/p1` of the client made for the key "secret": the request recorded
carries "Bearer secret". -/
theorem every_request_is_authenticated_witness :
    (({ Method := "GET", URL := defaultBaseURL ++ "/pods/p1"
        Header := [("Authorization", "Bearer " ++ "secret"),
                   ("Content-Type", "application/json")]
        Body := none } : Request).Header.lookup "Authorization"
      = some ("Bearer " ++ "secret")) ∧
    ((NewClient
        { NewRequestError := fun _ _ => none
          Do := fun _ => Except.ok { StatusCode := 200, Body := "" } }
        "secret" : Client Id).recorded.doRequest "GET" "/pods/p1" none).sent
      = [{ Method := "GET", URL := defaultBaseURL ++ "/pods/p1"
           Header := [("Authorization", "Bearer " ++ "secret"),
                      ("Content-Type", "application/json")]
           Body := none }] :=
  ⟨(every_request_is_authenticated
      { NewRequestError := fun _ _ => none
        Do := fun _ => Except.ok { StatusCode := 200, Body := "" } }
      "secret" "GET" "/pods/p1" none _ (List.mem_singleton.2 rfl)).2.1,
   (every_request_is_authenticated
      { NewRequestError := fun _ _ => none
        Do := fun _ => Except.ok { StatusCode := 200, Body := "" } }
      "secret" "GET" "/pods/p1" none _ (List.mem_singleton.2 rfl)).2.2.2⟩

theorem marshalError_append (a b : JsonObject) :
    marshalError (a ++ b) = (marshalError a).or (marshalError b) := by
  simp [marshalError, List.findSome?_append]

@[simp] theorem marshalError_omitemptyString (key v : String) :
    marshalError (omitemptyString key v) = none := by
  unfold omitemptyString
  split <;> rfl

@[simp] theorem marshalError_omitemptyIntPtr (key : String) (v : Option Int) :
    marshalError (omitemptyIntPtr key v) = none := by
  cases v <;> rfl

@[simp] theorem marshalError_omitemptyBoolPtr (key : String) (v : Option Bool) :
    marshalError (omitemptyBoolPtr key v) = none := by
  cases v <;> rfl

@[simp] theorem marshalError_omitemptyList (key : String) (v : List String) :
    marshalError (omitemptyList key v) = none := by
  unfold omitemptyList
  split <;> rfl

@[simp] theorem marshalError_omitemptyMap (key : String) (v : List (String × String)) :
    marshalError (omitemptyMap key v) = none := by
  unfold omitemptyMap
  split <;> rfl

/-- The body of a Pod update always encodes: it holds no float. -/
theorem PodUpdateInput.marshalError_none (i : PodUpdateInput) :
    marshalError i.Marshal = none := by
  simp [PodUpdateInput.Marshal, marshalError_append]

/-- The requests `UpdatePod` hands to a recording transport. -/
theorem Client.UpdatePod_recorded_sent (c : Client Id) (json : Decoders) (id : String)
    (input : PodUpdateInput) :
    (c.recorded.UpdatePod json id input).sent
      = (c.newRequest "PUT" ("/pods/" ++ id) (some input.Marshal)).toOption.toList := by
  simp [Client.UpdatePod, Client.doRequest_recorded_sent]

/-- The requests Pod Update hands to a recording transport. -/
theorem PodResource.UpdateM_recorded_sent (c : Client Id) (json : Decoders)
    (req : UpdateRequest PodResourceModel) :
    (PodResource.UpdateM (c.recorded.UpdatePod json) req).sent
      = if HasError (PodResource.updateInput req.Plan).1 then []
        else (c.newRequest "PUT" ("/pods/" ++ req.Plan.ID.ValueString)
          (some (PodResource.updateInput req.Plan).2.Marshal)).toOption.toList := by
  unfold PodResource.UpdateM
  generalize PodResource.updateInput req.Plan = built
  generalize req.Plan.ID.ValueString = id
  by_cases hconv : HasError built.1 = true
  · simp [hconv]
  · simp only [hconv, Bool.false_eq_true, if_false, Traced.bind_sent,
      Client.UpdatePod_recorded_sent]
    cases (c.recorded.UpdatePod json id built.2).value <;> simp

/-- A request in the list made of the result of `newRequest`. -/
theorem Client.mem_newRequest {m : Type → Type} (c : Client m) (method path : String)
    (body : Option JsonObject) (r : Request)
    (h : r ∈ (c.newRequest method path body).toOption.toList) :
    r = { Method := method
          URL := c.BaseURL ++ path
          Header := [("Authorization", "Bearer " ++ c.APIKey),
                     ("Content-Type", "application/json")]
          Body := body } := by
  cases hnr : c.newRequest method path body with
  | error e => simp [hnr, Except.toOption] at h
  | ok built =>
    have hrb : r = built := by simpa [hnr, Except.toOption] using h
    subst hrb
    exact Client.newRequest_ok c method path body r hnr

/-- C26. For every plan, Pod Update hands to the transport nothing but the request of the
full update, `PUT` on the base URL followed by `/pods/` and the id of the plan: none at
all when the plan cannot be converted or the URL is refused, exactly that one otherwise.
No request it sends has the method `PATCH`, and the response and the requests are the same
whatever prior state the request of the framework carries. -/
theorem pod_update_issues_put (c : Client Id) (json : Decoders)
    (req : UpdateRequest PodResourceModel) :
    (∀ r ∈ (PodResource.UpdateM (c.recorded.UpdatePod json) req).sent,
      r.Method = "PUT" ∧ r.Method ≠ "PATCH" ∧
      r.URL = c.BaseURL ++ ("/pods/" ++ req.Plan.ID.ValueString)) ∧
    (HasError (PodResource.updateInput req.Plan).1 = false →
      c.HTTPClient.NewRequestError "PUT" (c.BaseURL ++ ("/pods/" ++ req.Plan.ID.ValueString))
        = none →
      (PodResource.UpdateM (c.recorded.UpdatePod json) req).sent
        = [{ Method := "PUT"
             URL := c.BaseURL ++ ("/pods/" ++ req.Plan.ID.ValueString)
             Header := [("Authorization", "Bearer " ++ c.APIKey),
                        ("Content-Type", "application/json")]
             Body := some (PodResource.updateInput req.Plan).2.Marshal }]) ∧
    (∀ prior : PodResourceModel,
      PodResource.UpdateM (c.recorded.UpdatePod json) { req with State := prior }
        = PodResource.UpdateM (c.recorded.UpdatePod json) req) := by
  refine ⟨?_, ?_, fun prior => by simp only [PodResource.UpdateM]⟩
  · intro r hr
    rw [PodResource.UpdateM_recorded_sent] at hr
    generalize PodResource.updateInput req.Plan = built at hr
    generalize req.Plan.ID.ValueString = id at hr ⊢
    by_cases hconv : HasError built.1 = true
    · simp [hconv] at hr
    · simp only [hconv, Bool.false_eq_true, if_false] at hr
      rw [Client.mem_newRequest c _ _ _ r hr]
      exact ⟨rfl, (by decide : "PUT" ≠ "PATCH"), rfl⟩
  · rw [PodResource.UpdateM_recorded_sent]
    generalize PodResource.updateInput req.Plan = built
    generalize req.Plan.ID.ValueString = id
    intro hconv hurl
    have hm : marshalError built.2.Marshal = none := PodUpdateInput.marshalError_none built.2
    simp [hconv, Client.newRequest, hm, hurl, Except.toOption]

/-- C26 at a plan for the pod "p1" that changes the image, a field outside the in-place
set: the one request recorded is `PUT https://rest.runpod.io/v1/pods/p1`. -/
theorem pod_update_issues_put_witness :
    (PodResource.UpdateM (exampleClient.recorded.UpdatePod exampleDecoders)
        { Plan := { ID := .known "p1", Name := .known "web", ImageName := .known "img2" }
          State := { ID := .known "p1", Name := .known "web", ImageName := .known "img1" } }).sent
      = [{ Method := "PUT"
           URL := "https://rest.runpod.io/v1/pods/p1"
           Header := [("Authorization", "Bearer secret"),
                      ("Content-Type", "application/json")]
           Body := some [("name", .str "web"), ("imageName", .str "img2")] }] :=
  ((pod_update_issues_put exampleClient exampleDecoders
    { Plan := { ID := .known "p1", Name := .known "web", ImageName := .known "img2" }
      State := { ID := .known "p1", Name := .known "web", ImageName := .known "img1" } }).2.1
    (by decide) rfl).trans (by decide)

/-- C25. No automatic retry.  Run with a client call that records its arguments, each
Create, Read and Update of a Pod, an Endpoint and a NetworkVolume returns what the method
returns and has made exactly one call, with the input built from the plan or the id of the
state, whether the call succeeded or failed (and none at all when the plan could not be
converted, the only case in which the client is not reached).  Each Delete issues exactly
one DELETE request.  When the call fails, the diagnostic of the method ends with the error
text of the client. -/
theorem no_automatic_retry :
    (∀ (CreatePod : PodCreateInput → Except String Pod) (plan : PodResourceModel),
      (PodResource.CreateM (traced CreatePod) plan).value
        = PodResource.Create CreatePod plan ∧
      (PodResource.CreateM (traced CreatePod) plan).sent
        = (if HasError (PodResource.createInput plan).1 then [] else [(PodResource.createInput plan).2]) ∧
      ∀ err, HasError (PodResource.createInput plan).1 = false →
        CreatePod (PodResource.createInput plan).2 = .error err →
        (PodResource.Create CreatePod plan).Diagnostics
          = (PodResource.createInput plan).1 ++
            [.error "Client Error" ("Unable to create pod, got error: " ++ err)]) ∧
    (∀ (UpdatePod : String → PodUpdateInput → Except String Pod) (req : UpdateRequest PodResourceModel),
      (PodResource.UpdateM (fun id input => traced (fun call => UpdatePod call.1 call.2) (id, input)) req).value
        = PodResource.Update UpdatePod req.Plan ∧
      (PodResource.UpdateM (fun id input => traced (fun call => UpdatePod call.1 call.2) (id, input)) req).sent
        = (if HasError (PodResource.updateInput req.Plan).1 then [] else [(req.Plan.ID.ValueString, (PodResource.updateInput req.Plan).2)]) ∧
      ∀ err, HasError (PodResource.updateInput req.Plan).1 = false →
        UpdatePod req.Plan.ID.ValueString (PodResource.updateInput req.Plan).2 = .error err →
        (PodResource.Update UpdatePod req.Plan).Diagnostics
          = (PodResource.updateInput req.Plan).1 ++
            [.error "Client Error" ("Unable to update pod, got error: " ++ err)]) ∧
    (∀ (CreateEndpoint : EndpointCreateInput → Except String Endpoint) (plan : EndpointResourceModel),
      (EndpointResource.CreateM (traced CreateEndpoint) plan).value
        = EndpointResource.Create CreateEndpoint plan ∧
      (EndpointResource.CreateM (traced CreateEndpoint) plan).sent
        = (if HasError (EndpointResource.createInput plan).1 then [] else [(EndpointResource.createInput plan).2]) ∧
      ∀ err, HasError (EndpointResource.createInput plan).1 = false →
        CreateEndpoint (EndpointResource.createInput plan).2 = .error err →
        (EndpointResource.Create CreateEndpoint plan).Diagnostics
          = (EndpointResource.createInput plan).1 ++
            [.error "Client Error" ("Unable to create endpoint, got error: " ++ err)]) ∧
    (∀ (UpdateEndpoint : String → EndpointUpdateInput → Except String Endpoint) (req : UpdateRequest EndpointResourceModel),
      (EndpointResource.UpdateM (fun id input => traced (fun call => UpdateEndpoint call.1 call.2) (id, input)) req).value
        = EndpointResource.Update UpdateEndpoint req.Plan ∧
      (EndpointResource.UpdateM (fun id input => traced (fun call => UpdateEndpoint call.1 call.2) (id, input)) req).sent
        = (if HasError (EndpointResource.updateInput req.Plan).1 then [] else [(req.Plan.ID.ValueString, (EndpointResource.updateInput req.Plan).2)]) ∧
      ∀ err, HasError (EndpointResource.updateInput req.Plan).1 = false →
        UpdateEndpoint req.Plan.ID.ValueString (EndpointResource.updateInput req.Plan).2 = .error err →
        (EndpointResource.Update UpdateEndpoint req.Plan).Diagnostics
          = (EndpointResource.updateInput req.Plan).1 ++
            [.error "Client Error" ("Unable to update endpoint, got error: " ++ err)]) ∧
    (∀ (GetPod : String → Except String Pod) (state : PodResourceModel),
      (PodResource.ReadM (traced GetPod) state).value = PodResource.Read GetPod state ∧
      (PodResource.ReadM (traced GetPod) state).sent = [state.ID.ValueString] ∧
      ∀ err, GetPod state.ID.ValueString = .error err →
        (PodResource.Read GetPod state).Diagnostics
          = [.error "Client Error" ("Unable to read pod, got error: " ++ err)]) ∧
    (∀ (GetEndpoint : String → Except String Endpoint) (state : EndpointResourceModel),
      (EndpointResource.ReadM (traced GetEndpoint) state).value = EndpointResource.Read GetEndpoint state ∧
      (EndpointResource.ReadM (traced GetEndpoint) state).sent = [state.ID.ValueString] ∧
      ∀ err, GetEndpoint state.ID.ValueString = .error err →
        (EndpointResource.Read GetEndpoint state).Diagnostics
          = [.error "Client Error" ("Unable to read endpoint, got error: " ++ err)]) ∧
    (∀ (GetNetworkVolume : String → Except String NetworkVolume) (state : NetworkVolumeResourceModel),
      (NetworkVolumeResource.ReadM (traced GetNetworkVolume) state).value = NetworkVolumeResource.Read GetNetworkVolume state ∧
      (NetworkVolumeResource.ReadM (traced GetNetworkVolume) state).sent = [state.ID.ValueString] ∧
      ∀ err, GetNetworkVolume state.ID.ValueString = .error err →
        (NetworkVolumeResource.Read GetNetworkVolume state).Diagnostics
          = [.error "Client Error" ("Unable to read network volume, got error: " ++ err)]) ∧
    (∀ (CreateNetworkVolume : NetworkVolumeCreateInput → Except String NetworkVolume)
        (plan : NetworkVolumeResourceModel),
      (NetworkVolumeResource.CreateM (traced CreateNetworkVolume) plan).value
        = NetworkVolumeResource.Create CreateNetworkVolume plan ∧
      (NetworkVolumeResource.CreateM (traced CreateNetworkVolume) plan).sent
        = [{ Name := plan.Name.ValueString, Size := plan.Size.ValueInt64,
             DataCenterId := plan.DataCenterId.ValueString }] ∧
      ∀ err, CreateNetworkVolume
          { Name := plan.Name.ValueString, Size := plan.Size.ValueInt64,
            DataCenterId := plan.DataCenterId.ValueString } = .error err →
        (NetworkVolumeResource.Create CreateNetworkVolume plan).Diagnostics
          = [.error "Client Error" ("Unable to create network volume, got error: " ++ err)]) ∧
    (∀ (UpdateNetworkVolume :
          String → NetworkVolumeUpdateInput → Except String NetworkVolume)
        (req : UpdateRequest NetworkVolumeResourceModel),
      (NetworkVolumeResource.UpdateM
          (fun id input => traced (fun call => UpdateNetworkVolume call.1 call.2) (id, input))
          req).value
        = NetworkVolumeResource.Update UpdateNetworkVolume req.Plan ∧
      (NetworkVolumeResource.UpdateM
          (fun id input => traced (fun call => UpdateNetworkVolume call.1 call.2) (id, input))
          req).sent
        = [(req.Plan.ID.ValueString,
            { Name := req.Plan.Name.ValueString, Size := req.Plan.Size.toPtr 0 })] ∧
      ∀ err, UpdateNetworkVolume req.Plan.ID.ValueString
          { Name := req.Plan.Name.ValueString, Size := req.Plan.Size.toPtr 0 } = .error err →
        (NetworkVolumeResource.Update UpdateNetworkVolume req.Plan).Diagnostics
          = [.error "Client Error" ("Unable to update network volume, got error: " ++ err)]) ∧
    (∀ (DeletePod : String → Except String Unit) (env : WaitEnv) (fuel : Nat)
        (state : PodResourceModel) (r : DeleteResult),
      PodResource.Delete DeletePod env fuel state = some r →
      r.Calls.filter (fun call => call.Method == "DELETE")
        = [{ Method := "DELETE", Path := "/pods/" ++ state.ID.ValueString }] ∧
      ∀ err, DeletePod state.ID.ValueString = .error err →
        r.Diagnostics
          = [.error "Client Error" ("Unable to delete pod, got error: " ++ err)]) ∧
    (∀ (DeleteEndpoint : String → Except String Unit) (state : EndpointResourceModel),
      (EndpointResource.Delete DeleteEndpoint state).Calls
        = [{ Method := "DELETE", Path := "/endpoints/" ++ state.ID.ValueString }] ∧
      ∀ err, DeleteEndpoint state.ID.ValueString = .error err →
        (EndpointResource.Delete DeleteEndpoint state).Diagnostics
          = [.error "Client Error" ("Unable to delete endpoint, got error: " ++ err)]) ∧
    (∀ (DeleteNetworkVolume : String → Except String Unit) (state : NetworkVolumeResourceModel),
      (NetworkVolumeResource.Delete DeleteNetworkVolume state).Calls
        = [{ Method := "DELETE", Path := "/networkvolumes/" ++ state.ID.ValueString }] ∧
      ∀ err, DeleteNetworkVolume state.ID.ValueString = .error err →
        (NetworkVolumeResource.Delete DeleteNetworkVolume state).Diagnostics
          = [.error "Client Error" ("Unable to delete network volume, got error: " ++ err)]) := by
  refine ⟨?_, ?_, ?_, ?_, ?_, ?_, ?_, ?_, ?_, ?_, ?_, ?_⟩
  · intro CreatePod plan
    unfold PodResource.CreateM PodResource.Create
    generalize PodResource.createInput plan = built
    by_cases hconv : HasError built.1 = true
    · simp [hconv]
    · simp only [hconv, Bool.false_eq_true, if_false, Traced.bind_value, Traced.bind_sent,
        traced_value, traced_sent]
      cases hcall : CreatePod built.2 <;> simp
  · intro UpdatePod req
    unfold PodResource.UpdateM PodResource.Update
    generalize PodResource.updateInput req.Plan = built
    generalize req.Plan.ID.ValueString = id
    by_cases hconv : HasError built.1 = true
    · simp [hconv]
    · simp only [hconv, Bool.false_eq_true, if_false, Traced.bind_value, Traced.bind_sent,
        traced_value, traced_sent]
      cases hcall : UpdatePod id built.2 <;> simp
  · intro CreateEndpoint plan
    unfold EndpointResource.CreateM EndpointResource.Create
    generalize EndpointResource.createInput plan = built
    by_cases hconv : HasError built.1 = true
    · simp [hconv]
    · simp only [hconv, Bool.false_eq_true, if_false, Traced.bind_value, Traced.bind_sent,
        traced_value, traced_sent]
      cases hcall : CreateEndpoint built.2 <;> simp
  · intro UpdateEndpoint req
    unfold EndpointResource.UpdateM EndpointResource.Update
    generalize EndpointResource.updateInput req.Plan = built
    generalize req.Plan.ID.ValueString = id
    by_cases hconv : HasError built.1 = true
    · simp [hconv]
    · simp only [hconv, Bool.false_eq_true, if_false, Traced.bind_value, Traced.bind_sent,
        traced_value, traced_sent]
      cases hcall : UpdateEndpoint id built.2 <;> simp
  · intro GetPod state
    unfold PodResource.ReadM PodResource.Read
    simp only [Traced.bind_value, Traced.bind_sent, traced_value, traced_sent]
    cases hcall : GetPod state.ID.ValueString <;> simp
  · intro GetEndpoint state
    unfold EndpointResource.ReadM EndpointResource.Read
    simp only [Traced.bind_value, Traced.bind_sent, traced_value, traced_sent]
    cases hcall : GetEndpoint state.ID.ValueString <;> simp
  · intro GetNetworkVolume state
    unfold NetworkVolumeResource.ReadM NetworkVolumeResource.Read
    simp only [Traced.bind_value, Traced.bind_sent, traced_value, traced_sent]
    cases hcall : GetNetworkVolume state.ID.ValueString <;> simp
  · intro CreateNetworkVolume plan
    unfold NetworkVolumeResource.CreateM NetworkVolumeResource.Create
    simp only [Traced.bind_value, Traced.bind_sent, traced_value, traced_sent]
    cases hcall : CreateNetworkVolume
      { Name := plan.Name.ValueString, Size := plan.Size.ValueInt64,
        DataCenterId := plan.DataCenterId.ValueString } <;> simp
  · intro UpdateNetworkVolume req
    unfold NetworkVolumeResource.UpdateM NetworkVolumeResource.Update
    simp only [Traced.bind_value, Traced.bind_sent, traced_value, traced_sent]
    cases hcall : UpdateNetworkVolume req.Plan.ID.ValueString
      { Name := req.Plan.Name.ValueString, Size := req.Plan.Size.toPtr 0 } <;> simp
  · intro DeletePod env fuel state r h
    cases hcall : DeletePod state.ID.ValueString with
    | error e =>
      simp only [PodResource.Delete, hcall, Option.some.injEq] at h
      subst h
      exact ⟨by simp, fun err herr => by cases herr; rfl⟩
    | ok u =>
      obtain ⟨r1, hw, -, -, hcalls⟩ :=
        PodResource.Delete_ok_wait DeletePod env fuel state r hcall h
      have hpolls := waitForDeletion_calls env state.ID.ValueString fuel {} r1 hw
      refine ⟨?_, fun err herr => by simp at herr⟩
      rw [hcalls, hpolls]
      simp [List.filter_replicate, pollCall]
  · intro DeleteEndpoint state
    unfold EndpointResource.Delete
    cases hcall : DeleteEndpoint state.ID.ValueString <;> simp
  · intro DeleteNetworkVolume state
    unfold NetworkVolumeResource.Delete
    cases hcall : DeleteNetworkVolume state.ID.ValueString <;> simp

/-- C25 at a Pod Create whose call is rejected with status 500 and at a Pod Read that
succeeds: one call each, and the error text of the client in the diagnostic. -/
theorem no_automatic_retry_witness :
    (PodResource.CreateM
        (traced (fun _ => (.error "API request failed with status 500: oops" :
          Except String Pod)))
        { Name := .known "web" }).sent.length = 1 ∧
    (PodResource.Create (fun _ => .error "API request failed with status 500: oops")
        { Name := .known "web" }).Diagnostics
      = (PodResource.createInput { Name := .known "web" }).1 ++
          [.error "Client Error"
            ("Unable to create pod, got error: " ++ "API request failed with status 500: oops")] ∧
    (PodResource.ReadM (traced (fun _ => (.ok examplePodRecord : Except String Pod)))
        { ID := .known "p1" }).sent = ["p1"] :=
  ⟨by rw [(no_automatic_retry.1 (fun _ => .error "API request failed with status 500: oops")
        { Name := .known "web" }).2.1]; decide,
   (no_automatic_retry.1 (fun _ => .error "API request failed with status 500: oops")
      { Name := .known "web" }).2.2 "API request failed with status 500: oops" (by decide) rfl,
   (no_automatic_retry.2.2.2.2.1 (fun _ => .ok examplePodRecord) { ID := .known "p1" }).2.1⟩

/-- C23. The key `Configure` resolves is the configured `api_key` whenever that is not
null, whatever the environment holds, and the value of `RUNPOD_API_KEY` otherwise.  For a
configuration that is not unknown, `Configure` reports the error "Missing RunPod API Key"
and stores no client exactly when the resolved key is the empty string, so that a
configured empty string fails even under a non-empty environment variable; otherwise it
stores the client made for the resolved key and reports nothing.  For an unknown
configured value it reports the error "Unknown RunPod API Key" and stores no client. -/
theorem api_key_resolution {m : Type → Type} (transport : Transport m)
    (Getenv : String → String) (config : runpodProviderModel) :
    (∀ v, config.ApiKey = .known v → runpodProvider.api_key Getenv config = v) ∧
    (config.ApiKey = .null →
      runpodProvider.api_key Getenv config = Getenv "RUNPOD_API_KEY") ∧
    (config.ApiKey ≠ .unknown →
      (((runpodProvider.Configure transport Getenv config).Diagnostics = [missingApiKey] ∧
          (runpodProvider.Configure transport Getenv config).DataSourceData = none ∧
          (runpodProvider.Configure transport Getenv config).ResourceData = none)
        ↔ runpodProvider.api_key Getenv config = "")) ∧
    (config.ApiKey ≠ .unknown → runpodProvider.api_key Getenv config ≠ "" →
      (runpodProvider.Configure transport Getenv config).Diagnostics = [] ∧
      (runpodProvider.Configure transport Getenv config).DataSourceData
        = some (NewClient transport (runpodProvider.api_key Getenv config)) ∧
      (runpodProvider.Configure transport Getenv config).ResourceData
        = some (NewClient transport (runpodProvider.api_key Getenv config))) ∧
    (config.ApiKey = .known "" →
      (runpodProvider.Configure transport Getenv config).Diagnostics = [missingApiKey] ∧
      (runpodProvider.Configure transport Getenv config).ResourceData = none) ∧
    (config.ApiKey = .unknown →
      (runpodProvider.Configure transport Getenv config).Diagnostics = [unknownApiKey] ∧
      (runpodProvider.Configure transport Getenv config).DataSourceData = none ∧
      (runpodProvider.Configure transport Getenv config).ResourceData = none) ∧
    missingApiKey.isError = true ∧ unknownApiKey.isError = true ∧
    (∃ detail, missingApiKey = .error "Missing RunPod API Key" detail) ∧
    (∃ detail, unknownApiKey = .error "Unknown RunPod API Key" detail) := by
  have hmissing : HasError [missingApiKey] = true := by decide
  have hunknown : HasError [unknownApiKey] = true := by decide
  have hnone : HasError ([] : List Diagnostic) = false := by decide
  have hresolved : config.ApiKey ≠ .unknown →
      runpodProvider.Configure transport Getenv config
        = if runpodProvider.api_key Getenv config = "" then { Diagnostics := [missingApiKey] }
          else { Diagnostics := []
                 DataSourceData :=
                   some (NewClient transport (runpodProvider.api_key Getenv config))
                 ResourceData :=
                   some (NewClient transport (runpodProvider.api_key Getenv config)) } := by
    intro hk
    have hu : config.ApiKey.IsUnknown = false := by
      cases hc : config.ApiKey with
      | null => rfl
      | unknown => exact absurd hc hk
      | known v => rfl
    unfold runpodProvider.Configure
    by_cases he : runpodProvider.api_key Getenv config = ""
    · simp [hu, he, hmissing, hnone]
    · simp [hu, he, hnone]
  refine ⟨?_, ?_, ?_, ?_, ?_, ?_, by decide, by decide, ⟨_, rfl⟩, ⟨_, rfl⟩⟩
  · intro v hv
    simp [runpodProvider.api_key, hv, TfValue.IsNull, TfValue.ValueString, TfValue.valueOr]
  · intro hv
    simp [runpodProvider.api_key, hv, TfValue.IsNull]
  · intro hk
    rw [hresolved hk]
    by_cases he : runpodProvider.api_key Getenv config = ""
    · simp [he]
    · simp [he]
  · intro hk he
    rw [hresolved hk]
    simp [he]
  · intro hv
    have hk : config.ApiKey ≠ .unknown := by rw [hv]; simp
    have he : runpodProvider.api_key Getenv config = "" := by
      simp [runpodProvider.api_key, hv, TfValue.IsNull, TfValue.ValueString, TfValue.valueOr]
    rw [hresolved hk]
    simp [he]
  · intro hv
    unfold runpodProvider.Configure
    simp [hv, TfValue.IsUnknown, hunknown]

/-- C23 under an environment whose `RUNPOD_API_KEY` is "from-env": a configured empty
string fails with the missing-key error and stores no client, and a configured "cfg" is
the key of the client stored. -/
theorem api_key_resolution_witness :
    ((runpodProvider.Configure exampleClient.HTTPClient (fun _ => "from-env")
        { ApiKey := .known "" }).Diagnostics = [missingApiKey] ∧
      (runpodProvider.Configure exampleClient.HTTPClient (fun _ => "from-env")
        { ApiKey := .known "" }).ResourceData = none) ∧
    runpodProvider.api_key (fun _ => "from-env") { ApiKey := .known "cfg" } = "cfg" :=
  ⟨(api_key_resolution exampleClient.HTTPClient (fun _ => "from-env")
      { ApiKey := .known "" }).2.2.2.2.1 rfl,
   (api_key_resolution exampleClient.HTTPClient (fun _ => "from-env")
      { ApiKey := .known "cfg" }).1 "cfg" rfl⟩

theorem PodsDataSource.pods_foldl_append (toFloat64 : Int → Float64) (pods : List Pod) :
    ∀ acc : List PodDataModel,
      pods.foldl
        (fun data pod =>
          { data with Pods := appendSlice data.Pods (PodsDataSource.podData toFloat64 pod) })
        ({ Pods := some acc } : PodsDataSourceModel)
      = { Pods := some (acc ++ pods.map (PodsDataSource.podData toFloat64)) } := by
  induction pods with
  | nil => intro acc; simp
  | cons pod rest ih =>
    intro acc
    show List.foldl _
      ({ Pods := some (acc ++ [PodsDataSource.podData toFloat64 pod]) } : PodsDataSourceModel) rest = _
    rw [ih]
    simp

theorem EndpointsDataSource.endpoints_foldl_append (endpoints : List Endpoint) :
    ∀ acc : List EndpointDataModel,
      endpoints.foldl
        (fun data endpoint =>
          { data with
            Endpoints :=
              appendSlice data.Endpoints (EndpointsDataSource.endpointData endpoint) })
        ({ Endpoints := some acc } : EndpointsDataSourceModel)
      = { Endpoints := some (acc ++ endpoints.map EndpointsDataSource.endpointData) } := by
  induction endpoints with
  | nil => intro acc; simp
  | cons endpoint rest ih =>
    intro acc
    show List.foldl _
      ({ Endpoints := some (acc ++ [EndpointsDataSource.endpointData endpoint]) } : EndpointsDataSourceModel) rest = _
    rw [ih]
    simp

theorem NetworkVolumesDataSource.volumes_foldl_append (volumes : List NetworkVolume) :
    ∀ acc : List NetworkVolumeDataModel,
      volumes.foldl
        (fun data vol =>
          { data with
            NetworkVolumes :=
              appendSlice data.NetworkVolumes (NetworkVolumesDataSource.volumeData vol) })
        ({ NetworkVolumes := some acc } : NetworkVolumesDataSourceModel)
      = { NetworkVolumes := some (acc ++ volumes.map NetworkVolumesDataSource.volumeData) } := by
  induction volumes with
  | nil => intro acc; simp
  | cons vol rest ih =>
    intro acc
    show List.foldl _
      ({ NetworkVolumes := some (acc ++ [NetworkVolumesDataSource.volumeData vol]) } : NetworkVolumesDataSourceModel) rest = _
    rw [ih]
    simp

theorem TemplatesDataSource.templates_foldl_append (templates : List Template) :
    ∀ acc : List TemplateDataModel,
      templates.foldl
        (fun data template =>
          { data with
            Templates :=
              appendSlice data.Templates (TemplatesDataSource.templateData template) })
        ({ Templates := some acc } : TemplatesDataSourceModel)
      = { Templates := some (acc ++ templates.map TemplatesDataSource.templateData) } := by
  induction templates with
  | nil => intro acc; simp
  | cons template rest ih =>
    intro acc
    show List.foldl _
      ({ Templates := some (acc ++ [TemplatesDataSource.templateData template]) } : TemplatesDataSourceModel) rest = _
    rw [ih]
    simp

/-- C28. The four list data sources build their result element by element: for every
list of remote records the slice written has the elements built from the records, one for
one and in order (`List.map`), so for the pods, the network volumes and the templates an
empty remote list gives an empty list that is not null.  For the endpoints the claim fails
at the empty remote list: `EndpointsDataSource.Read` starts from the nil slice, which its
three siblings replace by an empty one before the loop, and a nil slice is stored as a
null list. -/
theorem list_data_sources_map_elementwise :
    (∀ (toFloat64 : Int → Float64) (pods : List Pod),
      PodsDataSource.Read toFloat64 (.ok pods)
        = { State := some { Pods := some (pods.map (PodsDataSource.podData toFloat64)) } }) ∧
    (∀ volumes : List NetworkVolume,
      NetworkVolumesDataSource.Read (.ok volumes)
        = { State := some
              { NetworkVolumes := some (volumes.map NetworkVolumesDataSource.volumeData) } }) ∧
    (∀ templates : List Template,
      TemplatesDataSource.Read (.ok templates)
        = { State := some
              { Templates := some (templates.map TemplatesDataSource.templateData) } }) ∧
    (∀ (endpoint : Endpoint) (endpoints : List Endpoint),
      EndpointsDataSource.Read (.ok (endpoint :: endpoints))
        = { State := some
              { Endpoints :=
                  some ((endpoint :: endpoints).map EndpointsDataSource.endpointData) } }) ∧
    EndpointsDataSource.Read (.ok []) = { State := some { Endpoints := none } } ∧
    (EndpointsDataSource.Read (.ok [])).State.map (fun data => sliceValue data.Endpoints)
      = some .null ∧
    (EndpointsDataSource.Read (.ok [])).State.map (fun data => sliceValue data.Endpoints)
      ≠ some (.known []) ∧
    (PodsDataSource.Read (fun _ => Float64.zero) (.ok [])).State.map
        (fun data => sliceValue data.Pods) = some (.known []) ∧
    (NetworkVolumesDataSource.Read (.ok [])).State.map
        (fun data => sliceValue data.NetworkVolumes) = some (.known []) ∧
    (TemplatesDataSource.Read (.ok [])).State.map
        (fun data => sliceValue data.Templates) = some (.known []) := by
  refine ⟨?_, ?_, ?_, ?_, rfl, rfl, by decide, rfl, rfl, rfl⟩
  · intro toFloat64 pods
    simp [PodsDataSource.Read, PodsDataSource.pods_foldl_append]
  · intro volumes
    simp [NetworkVolumesDataSource.Read, NetworkVolumesDataSource.volumes_foldl_append]
  · intro templates
    simp [TemplatesDataSource.Read, TemplatesDataSource.templates_foldl_append]
  · intro endpoint endpoints
    show ({ State := some (List.foldl _
      { Endpoints := some ([] ++ [EndpointsDataSource.endpointData endpoint]) } endpoints) } :
        Response EndpointsDataSourceModel) = _
    rw [EndpointsDataSource.endpoints_foldl_append]
    simp

/-! ### The URL of a request -/

theorem cut_of_not_mem (sep : Nat) (l : List Nat) (h : sep ∉ l) :
    cut sep l = (l, [], false) := by
  induction l with
  | nil => rfl
  | cons c rest ih =>
    have hc : ¬ c = sep := fun hc => h (hc ▸ List.mem_cons_self _ _)
    have hr : sep ∉ rest := fun hr => h (List.mem_cons_of_mem _ hr)
    simp [cut, hc, ih hr]

theorem unescape_cons_of_ne (c : Nat) (rest : List Nat) (h : c ≠ 37) :
    unescape (c :: rest) = (unescape rest).map fun s => c :: s := by
  cases rest with
  | nil => simp [unescape, h]
  | cons h1 rest1 =>
    cases rest1 with
    | nil => simp [unescape, h]
    | cons h2 rest2 => simp [unescape, h]

theorem unescape_of_not_mem (l : List Nat) (h : 37 ∉ l) : unescape l = some l := by
  induction l with
  | nil => rfl
  | cons c rest ih =>
    have hc : c ≠ 37 := fun hc => h (hc ▸ List.mem_cons_self _ _)
    have hr : 37 ∉ rest := fun hr => h (List.mem_cons_of_mem _ hr)
    rw [unescape_cons_of_ne c rest hc, ih hr]
    rfl

theorem escape_of_plain (l : List Nat) (h : ∀ b ∈ l, shouldEscape b = false) :
    escape l = l := by
  induction l with
  | nil => rfl
  | cons c rest ih =>
    have hc := h c (List.mem_cons_self _ _)
    have hr := ih (fun b hb => h b (List.mem_cons_of_mem _ hb))
    unfold escape at hr ⊢
    simp only [List.map_cons, List.flatten_cons, hc, Bool.false_eq_true, if_false, hr,
      List.singleton_append]

theorem plainByte_lt (b : Nat) (h : plainByte b = true) : b < 128 := by
  simp only [plainByte, isLetter, isDigit, Bool.or_eq_true, Bool.and_eq_true,
    decide_eq_true_eq, beq_iff_eq] at h
  omega

/-- A plain byte is no control character, none of `#`, `%`, `?`, and is not escaped. -/
theorem plainByte_spec (b : Nat) (h : plainByte b = true) :
    b ≠ 35 ∧ b ≠ 37 ∧ b ≠ 63 ∧ ¬ b < 32 ∧ b ≠ 127 ∧ shouldEscape b = false := by
  have key : ∀ n, n < 128 → plainByte n = true →
      n ≠ 35 ∧ n ≠ 37 ∧ n ≠ 63 ∧ ¬ n < 32 ∧ n ≠ 127 ∧ shouldEscape n = false := by
    decide
  exact key b (plainByte_lt b h) h

theorem utf8_append (a b : String) : utf8 (a ++ b) = utf8 a ++ utf8 b := by
  simp [utf8]

/-- The bytes of a plain text are plain. -/
theorem utf8_plain (s : String) (h : plainText s = true) : ∀ b ∈ utf8 s, plainByte b = true := by
  unfold plainText at h
  unfold utf8
  generalize s.data = cs at h
  induction cs with
  | nil => intro b hb; simp at hb
  | cons c rest ih =>
    simp only [List.all_cons, Bool.and_eq_true] at h
    intro b hb
    simp only [List.map_cons, List.flatten_cons, List.mem_append] at hb
    rcases hb with hb | hb
    · have hlt := plainByte_lt c.toNat h.1
      simp only [utf8Char, hlt, if_true, List.mem_singleton] at hb
      rw [hb]
      exact h.1
    · exact ih h.2 b hb

/-- The URL string made of the default base URL and a plain path parses to the scheme
`https`, the authority `rest.runpod.io` and the path `/v1` followed by that path, byte for
byte, with no query and no fragment. -/
theorem url.Parse_default_plain (authorityOK : List Nat → Bool) (bs : List Nat)
    (hauth : authorityOK (utf8 "rest.runpod.io") = true)
    (hbs : ∀ b ∈ bs, plainByte b = true) :
    url.Parse authorityOK (utf8 defaultBaseURL ++ bs)
      = some { Scheme := utf8 "https"
               Authority := utf8 "rest.runpod.io"
               Path := utf8 "/v1" ++ bs } := by
  have hpre : utf8 defaultBaseURL
      = [104, 116, 116, 112, 115, 58, 47, 47, 114, 101, 115, 116, 46, 114, 117, 110, 112,
          111, 100, 46, 105, 111, 47, 118, 49] := by decide
  have hhttps : utf8 "https" = [104, 116, 116, 112, 115] := by decide
  have hhost : utf8 "rest.runpod.io"
      = [114, 101, 115, 116, 46, 114, 117, 110, 112, 111, 100, 46, 105, 111] := by decide
  have hv1 : utf8 "/v1" = [47, 118, 49] := by decide
  have h35 : (35 : Nat) ∉ bs := fun h => (plainByte_spec 35 (hbs 35 h)).1 rfl
  have h37 : (37 : Nat) ∉ bs := fun h => (plainByte_spec 37 (hbs 37 h)).2.1 rfl
  have h63 : (63 : Nat) ∉ bs := fun h => (plainByte_spec 63 (hbs 63 h)).2.2.1 rfl
  have hctl : stringContainsCTLByte bs = false := by
    unfold stringContainsCTLByte
    rw [List.any_eq_false]
    intro b hb
    have hp := plainByte_spec b (hbs b hb)
    simp [hp.2.2.2.1, hp.2.2.2.2.1]
  have hesc : ∀ b ∈ bs, shouldEscape b = false := fun b hb =>
    (plainByte_spec b (hbs b hb)).2.2.2.2.2
  rw [hhost] at hauth
  rw [hpre, hhttps, hhost, hv1]
  have hcut35 : cut 35 ([104, 116, 116, 112, 115, 58, 47, 47, 114, 101, 115, 116, 46, 114,
      117, 110, 112, 111, 100, 46, 105, 111, 47, 118, 49] ++ bs)
      = ([104, 116, 116, 112, 115, 58, 47, 47, 114, 101, 115, 116, 46, 114,
      117, 110, 112, 111, 100, 46, 105, 111, 47, 118, 49] ++ bs, [], false) := by
    apply cut_of_not_mem
    simp [h35]
  have hcut63 : cut 63 ([47, 47, 114, 101, 115, 116, 46, 114,
      117, 110, 112, 111, 100, 46, 105, 111, 47, 118, 49] ++ bs)
      = ([47, 47, 114, 101, 115, 116, 46, 114,
      117, 110, 112, 111, 100, 46, 105, 111, 47, 118, 49] ++ bs, [], false) := by
    apply cut_of_not_mem
    simp [h63]
  have hcount : ([47, 47, 114, 101, 115, 116, 46, 114,
      117, 110, 112, 111, 100, 46, 105, 111, 47, 118, 49] ++ bs).count 63 = 0 := by
    rw [List.count_eq_zero]
    simp [h63]
  have hscheme : getScheme ([104, 116, 116, 112, 115, 58, 47, 47, 114, 101, 115, 116, 46,
      114, 117, 110, 112, 111, 100, 46, 105, 111, 47, 118, 49] ++ bs)
      = some ([104, 116, 116, 112, 115], [47, 47, 114, 101, 115, 116, 46, 114,
      117, 110, 112, 111, 100, 46, 105, 111, 47, 118, 49] ++ bs) := by
    simp [getScheme, getSchemeFrom, isLetter, isDigit]
  have hcut47 : cut 47 ([114, 101, 115, 116, 46, 114,
      117, 110, 112, 111, 100, 46, 105, 111, 47, 118, 49] ++ bs)
      = ([114, 101, 115, 116, 46, 114, 117, 110, 112, 111, 100, 46, 105, 111],
          [118, 49] ++ bs, true) := by
    simp [cut]
  have hun : unescape ([47, 118, 49] ++ bs) = some ([47, 118, 49] ++ bs) := by
    apply unescape_of_not_mem
    simp [h37]
  have hes : escape ([47, 118, 49] ++ bs) = [47, 118, 49] ++ bs := by
    apply escape_of_plain
    intro b hb
    simp only [List.mem_append, List.mem_cons, List.mem_singleton, List.not_mem_nil,
      or_false] at hb
    rcases hb with (rfl | rfl | rfl) | hb
    · decide
    · decide
    · decide
    · exact hesc b hb
  have hctl2 : stringContainsCTLByte ([104, 116, 116, 112, 115, 58, 47, 47, 114, 101, 115,
      116, 46, 114, 117, 110, 112, 111, 100, 46, 105, 111, 47, 118, 49] ++ bs) = false := by
    unfold stringContainsCTLByte at hctl ⊢
    rw [List.any_append, hctl]
    decide
  unfold url.Parse
  rw [hcut35]
  have hparse : url.parse authorityOK ([104, 116, 116, 112, 115, 58, 47, 47, 114, 101, 115,
      116, 46, 114, 117, 110, 112, 111, 100, 46, 105, 111, 47, 118, 49] ++ bs)
      = some { Scheme := [104, 116, 116, 112, 115]
               Authority := [114, 101, 115, 116, 46, 114, 117, 110, 112, 111, 100, 46, 105, 111]
               Path := [47, 118, 49] ++ bs } := by
    unfold url.parse
    rw [hctl2, hscheme]
    simp only [hcount, hcut63]
    simp only [List.cons_append, List.nil_append] at hcut47 hun hes
    simp [hcut47, hauth, url.URL.setPath, hun, hes, toLowerASCII]
  rw [hparse]
  rfl

/-- The target written for a URL with the scheme `https`, an authority and a path that
starts with `/v1` and goes on with plain bytes is that path. -/
theorem url.RequestURI_plain (authority bs : List Nat) (hbs : ∀ b ∈ bs, plainByte b = true) :
    url.URL.RequestURI
        { Scheme := utf8 "https", Authority := authority, Path := utf8 "/v1" ++ bs }
      = utf8 "/v1" ++ bs := by
  have hv1 : utf8 "/v1" = [47, 118, 49] := by decide
  have hes : escape ([47, 118, 49] ++ bs) = [47, 118, 49] ++ bs := by
    apply escape_of_plain
    intro b hb
    simp only [List.mem_append, List.mem_cons, List.mem_singleton, List.not_mem_nil,
      or_false] at hb
    rcases hb with (rfl | rfl | rfl) | hb
    · decide
    · decide
    · decide
    · exact (plainByte_spec b (hbs b hb)).2.2.2.2.2
  rw [hv1]
  simp only [List.cons_append, List.nil_append] at hes ⊢
  simp [url.URL.RequestURI, url.URL.EscapedPath, hes]

/-- C22, as stated, fails for an id that holds a character with a meaning in a URL.  For the
id "a b" GetPod hands over the URL string of the table, and the request carries it parsed:
the target written is `/v1/pods/a%20b`, not `/v1/pods/a b`.  For the id "p1?x=1" the path
of the request is `/v1/pods/p1` and `x=1` is its query; for the id "p1#top" the target is
`/v1/pods/p1`, the rest being a fragment, which is not sent. -/
theorem id_is_not_sent_unchanged :
    (exampleClient.recorded.GetPod exampleDecoders "a b").sent.map (fun r => r.URL)
      = ["https://rest.runpod.io/v1" ++ "/pods/" ++ "a b"] ∧
    (exampleClient.recorded.GetPod exampleDecoders "a b").sent.map
        (fun r => (r.ParsedURL (fun _ => true)).map url.URL.RequestURI)
      = [some (utf8 "/v1/pods/a%20b")] ∧
    utf8 "/v1/pods/a%20b" ≠ utf8 ("/v1" ++ "/pods/" ++ "a b") ∧
    (exampleClient.recorded.GetPod exampleDecoders "p1?x=1").sent.map
        (fun r => (r.ParsedURL (fun _ => true)).map fun u => (u.Path, u.RawQuery))
      = [some (utf8 "/v1/pods/p1", utf8 "x=1")] ∧
    (exampleClient.recorded.GetPod exampleDecoders "p1#top").sent.map
        (fun r => (r.ParsedURL (fun _ => true)).map url.URL.RequestURI)
      = [some (utf8 "/v1/pods/p1")] := by
  refine ⟨by decide, by decide, by decide, by decide, by decide⟩

/-- C22, amended. Each operation of the client hands `http.NewRequestWithContext` the
method of the interface table and the URL string made of the base URL and the path of the
table, in which the id stands as it was passed, and hands the transport the request built
from them, and no other: CreatePod POST /pods, GetPod GET /pods/id, UpdatePod PUT /pods/id,
UpdatePodInPlace PATCH /pods/id, DeletePod DELETE /pods/id, ListPods GET /pods, StopPod
POST /pods/id/stop, StartPod POST /pods/id/start, and likewise for endpoints and network
volumes (update by PATCH) and for ListTemplates (GET /templates).  The request carries
that string as `url.Parse` reads it.  Under the base URL of `NewClient` and for an id made
of letters, digits, `-`, `_`, `.` and `~` the string parses to the path `/v1` followed by
the path of the table, with the id unchanged, and that is the target written; for other
ids the URL sent is what `url.Parse` makes of the string. -/
theorem rest_mapping (c : Client Id) (json : Decoders) (id : String)
    (podInput : PodCreateInput) (podUpdate : PodUpdateInput) (inPlace : PodUpdateInPlaceInput)
    (endpointInput : EndpointCreateInput) (endpointUpdate : EndpointUpdateInput)
    (volumeInput : NetworkVolumeCreateInput) (volumeUpdate : NetworkVolumeUpdateInput) :
    (c.recorded.CreatePod json podInput).sent
      = (c.newRequest "POST" "/pods" (some podInput.Marshal)).toOption.toList ∧
    (c.recorded.GetPod json id).sent
      = (c.newRequest "GET" ("/pods/" ++ id) none).toOption.toList ∧
    (c.recorded.UpdatePod json id podUpdate).sent
      = (c.newRequest "PUT" ("/pods/" ++ id) (some podUpdate.Marshal)).toOption.toList ∧
    (c.recorded.UpdatePodInPlace json id inPlace).sent
      = (c.newRequest "PATCH" ("/pods/" ++ id) (some inPlace.Marshal)).toOption.toList ∧
    (c.recorded.DeletePod id).sent
      = (c.newRequest "DELETE" ("/pods/" ++ id) none).toOption.toList ∧
    (c.recorded.ListPods json).sent
      = (c.newRequest "GET" "/pods" none).toOption.toList ∧
    (c.recorded.StopPod id).sent
      = (c.newRequest "POST" ("/pods/" ++ id ++ "/stop") none).toOption.toList ∧
    (c.recorded.StartPod id).sent
      = (c.newRequest "POST" ("/pods/" ++ id ++ "/start") none).toOption.toList ∧
    (c.recorded.CreateEndpoint json endpointInput).sent
      = (c.newRequest "POST" "/endpoints" (some endpointInput.Marshal)).toOption.toList ∧
    (c.recorded.GetEndpoint json id).sent
      = (c.newRequest "GET" ("/endpoints/" ++ id) none).toOption.toList ∧
    (c.recorded.UpdateEndpoint json id endpointUpdate).sent
      = (c.newRequest "PATCH" ("/endpoints/" ++ id) (some endpointUpdate.Marshal)).toOption.toList ∧
    (c.recorded.DeleteEndpoint id).sent
      = (c.newRequest "DELETE" ("/endpoints/" ++ id) none).toOption.toList ∧
    (c.recorded.ListEndpoints json).sent
      = (c.newRequest "GET" "/endpoints" none).toOption.toList ∧
    (c.recorded.CreateNetworkVolume json volumeInput).sent
      = (c.newRequest "POST" "/networkvolumes" (some volumeInput.Marshal)).toOption.toList ∧
    (c.recorded.GetNetworkVolume json id).sent
      = (c.newRequest "GET" ("/networkvolumes/" ++ id) none).toOption.toList ∧
    (c.recorded.UpdateNetworkVolume json id volumeUpdate).sent
      = (c.newRequest "PATCH" ("/networkvolumes/" ++ id) (some volumeUpdate.Marshal)).toOption.toList ∧
    (c.recorded.DeleteNetworkVolume id).sent
      = (c.newRequest "DELETE" ("/networkvolumes/" ++ id) none).toOption.toList ∧
    (c.recorded.ListNetworkVolumes json).sent
      = (c.newRequest "GET" "/networkvolumes" none).toOption.toList ∧
    (c.recorded.ListTemplates json).sent
      = (c.newRequest "GET" "/templates" none).toOption.toList ∧
    (∀ (method path : String) (body : Option JsonObject) (req : Request),
      c.newRequest method path body = .ok req →
      req.Method = method ∧ req.URL = c.BaseURL ++ path ∧ req.Body = body) ∧
    (∀ (transport : Transport Id) (apiKey : String),
      (NewClient transport apiKey).BaseURL = defaultBaseURL) ∧
    (∀ (authorityOK : List Nat → Bool) (path : String),
      authorityOK (utf8 "rest.runpod.io") = true → plainText path = true →
      url.Parse authorityOK (utf8 (defaultBaseURL ++ path))
        = some { Scheme := utf8 "https"
                 Authority := utf8 "rest.runpod.io"
                 Path := utf8 ("/v1" ++ path) } ∧
      (url.Parse authorityOK (utf8 (defaultBaseURL ++ path))).map url.URL.RequestURI
        = some (utf8 ("/v1" ++ path))) ∧
    (plainText id = true →
      plainText ("/pods/" ++ id) = true ∧ plainText ("/pods/" ++ id ++ "/stop") = true ∧
      plainText ("/pods/" ++ id ++ "/start") = true ∧
      plainText ("/endpoints/" ++ id) = true ∧ plainText ("/networkvolumes/" ++ id) = true) ∧
    plainText "/pods" = true ∧ plainText "/endpoints" = true ∧
    plainText "/networkvolumes" = true ∧ plainText "/templates" = true := by
  have hshape : ∀ (method path : String) (body : Option JsonObject) (req : Request),
      c.newRequest method path body = .ok req →
      req.Method = method ∧ req.URL = c.BaseURL ++ path ∧ req.Body = body := by
    intro method path body req h
    rw [Client.newRequest_ok c method path body req h]
    exact ⟨rfl, rfl, rfl⟩
  have hparse : ∀ (authorityOK : List Nat → Bool) (path : String),
      authorityOK (utf8 "rest.runpod.io") = true → plainText path = true →
      url.Parse authorityOK (utf8 (defaultBaseURL ++ path))
        = some { Scheme := utf8 "https"
                 Authority := utf8 "rest.runpod.io"
                 Path := utf8 ("/v1" ++ path) } ∧
      (url.Parse authorityOK (utf8 (defaultBaseURL ++ path))).map url.URL.RequestURI
        = some (utf8 ("/v1" ++ path)) := by
    intro authorityOK path hauth hplain
    have hp := url.Parse_default_plain authorityOK (utf8 path) hauth (utf8_plain path hplain)
    rw [utf8_append, utf8_append, hp]
    refine ⟨rfl, ?_⟩
    rw [Option.map_some']
    exact congrArg some (url.RequestURI_plain _ (utf8 path) (utf8_plain path hplain))
  have happ : ∀ a b : String, plainText (a ++ b) = (plainText a && plainText b) := by
    intro a b
    simp [plainText]
  have hids : plainText id = true →
      plainText ("/pods/" ++ id) = true ∧ plainText ("/pods/" ++ id ++ "/stop") = true ∧
      plainText ("/pods/" ++ id ++ "/start") = true ∧
      plainText ("/endpoints/" ++ id) = true ∧ plainText ("/networkvolumes/" ++ id) = true := by
    intro hid
    have h1 : plainText "/pods/" = true := by decide
    have h2 : plainText "/stop" = true := by decide
    have h3 : plainText "/start" = true := by decide
    have h4 : plainText "/endpoints/" = true := by decide
    have h5 : plainText "/networkvolumes/" = true := by decide
    simp [happ, hid, h1, h2, h3, h4, h5]
  refine ⟨?_, ?_, ?_, ?_, ?_, ?_, ?_, ?_, ?_, ?_, ?_, ?_, ?_, ?_, ?_, ?_, ?_, ?_, ?_, hshape, fun _ _ => rfl, hparse, hids,
    by decide, by decide, by decide, by decide⟩
  all_goals
    simp [Client.CreatePod, Client.GetPod, Client.UpdatePod, Client.UpdatePodInPlace,
      Client.DeletePod, Client.ListPods, Client.StopPod, Client.StartPod,
      Client.CreateEndpoint, Client.GetEndpoint, Client.UpdateEndpoint,
      Client.DeleteEndpoint, Client.ListEndpoints, Client.CreateNetworkVolume,
      Client.GetNetworkVolume, Client.UpdateNetworkVolume, Client.DeleteNetworkVolume,
      Client.ListNetworkVolumes, Client.ListTemplates, Client.doRequest_recorded_sent]

/-- C22, amended, for the pod "p1" of a client with the default base URL: GetPod sends
`GET https://rest.runpod.io/v1/pods/p1`, StopPod a POST to that URL followed by `/stop`,
UpdatePodInPlace a PATCH; the id "p1" is plain, and the target written for GetPod is
`/v1/pods/p1`. -/
theorem rest_mapping_witness :
    (exampleClient.recorded.GetPod exampleDecoders "p1").sent
      = [{ Method := "GET", URL := "https://rest.runpod.io/v1/pods/p1"
           Header := [("Authorization", "Bearer secret"),
                      ("Content-Type", "application/json")]
           Body := none }] ∧
    (exampleClient.recorded.StopPod "p1").sent
      = [{ Method := "POST", URL := "https://rest.runpod.io/v1/pods/p1/stop"
           Header := [("Authorization", "Bearer secret"),
                      ("Content-Type", "application/json")]
           Body := none }] ∧
    (exampleClient.recorded.UpdatePodInPlace exampleDecoders "p1" { Name := "web" }).sent
      = [{ Method := "PATCH", URL := "https://rest.runpod.io/v1/pods/p1"
           Header := [("Authorization", "Bearer secret"),
                      ("Content-Type", "application/json")]
           Body := some [("name", .str "web")] }] ∧
    (url.Parse (fun _ => true) (utf8 (defaultBaseURL ++ ("/pods/" ++ "p1")))).map
        url.URL.RequestURI
      = some (utf8 ("/v1" ++ ("/pods/" ++ "p1"))) :=
  ⟨(rest_mapping exampleClient exampleDecoders "p1" {} {} { Name := "web" } {} {} {}
      {}).2.1.trans (by decide),
   (rest_mapping exampleClient exampleDecoders "p1" {} {} { Name := "web" } {} {} {}
      {}).2.2.2.2.2.2.1.trans (by decide),
   (rest_mapping exampleClient exampleDecoders "p1" {} {} { Name := "web" } {} {} {}
      {}).2.2.2.1.trans (by decide),
   ((rest_mapping exampleClient exampleDecoders "p1" {} {} { Name := "web" } {} {} {}
      {}).2.2.2.2.2.2.2.2.2.2.2.2.2.2.2.2.2.2.2.2.2.1 (fun _ => true) ("/pods/" ++ "p1")
      rfl
      ((rest_mapping exampleClient exampleDecoders "p1" {} {} { Name := "web" } {} {} {}
        {}).2.2.2.2.2.2.2.2.2.2.2.2.2.2.2.2.2.2.2.2.2.2.1 (by decide)).1).2⟩

end Provider
